import Mathlib

/-!
# githubtrophy: statistics aggregation, themes and the trophy document

A shallow embedding of `src/github.js` (`safeJson`, `checkResponse`,
`formatNumber`, `getGitHubStats`), of `src/themes.js` (`getTierStyles`,
`getThemeColors`) and of `src/trophy.js` (`escapeXml`, `generateTrophySVG`
and its icons), with the properties of the specification proved about them.

Modelling conventions.

* JSON numbers that the code reads are integers (`Int`); a field that is
  absent (or `null`) is `none`.  The items of a repository page and the
  profile are the objects of the upstream API: a field holds a value of its
  documented type or is absent.  A parsed body is `null`, a list of items or
  an object; a body that is a number, a string or a boolean has none of the
  properties the code reads and behaves as the object without fields.
* The HTTP client is a function from the request to what `fetch` does with
  it: it throws (`Except.error msg`, `msg` the message of the error) or it
  yields a response.  The code never issues the same request twice, so a
  function describes every sequence of responses.
* `getGitHubStats` returns its value together with the list of requests it
  issued, in the order of issue.  Its username is a text; the call with a
  missing argument or with a string that is not a text (an unpaired
  surrogate among its UTF-16 code units) is `getGitHubStatsCall`.
* Texts are `String`s; the five characters `escapeXml` looks for are ASCII,
  so replacing them character by character is what the regular expression
  does on the UTF-16 code units.
* A template literal is the list of its pieces, literal text and
  interpolated values, joined in order.  The `columns` argument of
  `generateTrophySVG` is given by the value of `parseInt(columns, 10)`: an
  integer, or `none` for `NaN`.  The numbers of the layout are integers; the
  two divisions by 2 have even dividends for every column count used, which
  is proved, so the integer quotient is the exact one.
* A property lookup on an object literal finds own properties and the ones
  inherited from `Object.prototype`.
-/

namespace GithubTrophy

/-! ## Score, level, grade and tier (github.js, lines 77-89) -/

/-- The level `Math.floor(score / 50)`: the floor of the exact quotient. -/
def level (score : Int) : Int := Int.fdiv score 50

/-- The percentage `Math.min(100, (score % 50) * 2)`; the remainder of
JavaScript takes the sign of the dividend. -/
def xpPercent (score : Int) : Int := min 100 (Int.tmod score 50 * 2)

/-- The chain of conditionals on the score, first match wins. -/
def grade (score : Int) : String :=
  if score ≥ 300 then "A+"
  else if score ≥ 200 then "A"
  else if score ≥ 100 then "B"
  else if score ≥ 50 then "C"
  else "D"

/-- The chain of conditionals on the grade. -/
def tier (grade : String) : String :=
  if grade = "A+" then "Mythic"
  else if grade = "A" then "Legendary"
  else if grade = "B" then "Gold"
  else if grade = "C" then "Silver"
  else "Iron"

/-! ## Data received from the API -/

/-- One item of a repository page: the three fields the code reads. -/
structure Repo where
  fork : Option Bool
  stargazers_count : Option Int
  forks_count : Option Int
  deriving DecidableEq, Repr

/-- A JSON object as the code reads it: the profile fields and the `message`
of an error body. -/
structure JObject where
  login : Option String := none
  name : Option String := none
  avatar_url : Option String := none
  followers : Option Int := none
  public_repos : Option Int := none
  total_private_repos : Option Int := none
  message : Option String := none
  deriving DecidableEq, Repr

/-- A parsed JSON body. -/
inductive Json where
  | null : Json
  | list (items : List Repo) : Json
  | object (o : JObject) : Json
  deriving DecidableEq, Repr

/-- An HTTP response: the status and the outcome of parsing the body as
JSON (`Except.error msg` when `res.json()` rejects with message `msg`). -/
structure Response where
  status : Nat
  body : Except String Json

/-- The `ok` getter of a response: status in the range 200-299. -/
def Response.ok (res : Response) : Bool := decide (200 ≤ res.status ∧ res.status < 300)

/-- The requests of `getGitHubStats` for a fixed username: the profile, and
page `page` of the repository listing (`per_page=100`). -/
inductive Req where
  | user : Req
  | repos (page : Nat) : Req
  deriving DecidableEq, Repr

/-- The behaviour of the HTTP client. `reposSettlesFirst` tells which of the
two concurrent initial promises settles first (`Promise.all` rejects with the
first rejection). -/
structure World where
  fetch : Req → Except String Response
  reposSettlesFirst : Bool := false

/-- The value `getGitHubStats` resolves to on success. -/
structure Stats where
  username : Option String
  name : String
  avatar_url : Option String
  formatted_followers : String
  formatted_stars : String
  formatted_repos : String
  score : Int
  level : Int
  xpPercent : Int
  grade : String
  tier : String
  deriving DecidableEq, Repr

/-- What `getGitHubStats` resolves to: `{ error: true, message }` or the
stats record. -/
inductive Result where
  | error (message : String) : Result
  | stats (s : Stats) : Result
  deriving DecidableEq, Repr

/-! ## Helpers of github.js -/

/-- The expression `x || d` for a numeric field: `d` when the field is absent or `0`. -/
def numOr (x : Option Int) (d : Int) : Int :=
  match x with
  | some n => if n = 0 then d else n
  | none => d

/-- The expression `x || d` for a text field: `d` when the field is absent or empty. -/
def strOr (x : Option String) (d : String) : String :=
  match x with
  | some s => if s = "" then d else s
  | none => d

/-- The test `s.includes(t)`: `t` occurs in `s` as a contiguous run. -/
def includes (s t : String) : Bool := decide (t.data <:+: s.data)

/-- The helper `safeJson`: the parsed body, `null` when parsing fails. -/
def safeJson (res : Response) : Json :=
  match res.body with
  | .ok j => j
  | .error _ => .null

/-- The access `body?.message`. -/
def Json.message : Json → Option String
  | .object o => o.message
  | _ => none

/-- The helper `checkResponse`: throws on a non-ok response, otherwise `res.json()`. -/
def checkResponse (res : Response) (errorMessage : String) : Except String Json :=
  if !res.ok then
    let body := safeJson res
    let message := strOr body.message errorMessage
    if res.status = 403 ∧ includes message "rate limit exceeded" then
      .error "GitHub API rate limit exceeded. Set GITHUB_TOKEN for higher limits."
    else
      .error message
  else
    res.body

/-- Commas between groups of three, on the digits in reverse order. -/
def groupRev : List Char → List Char
  | a :: b :: c :: d :: rest => a :: b :: c :: ',' :: groupRev (d :: rest)
  | ds => ds

/-- The helper `formatNumber`, that is
`Intl.NumberFormat("en-US").format(Math.max(0, Math.round(n)))`, on an
integer: the decimal digits of `max 0 n` with a comma between groups of
three. -/
def formatNumber (n : Int) : String :=
  String.mk (groupRev (Nat.toDigits 10 (max 0 n).toNat).reverse).reverse

/-- The call `Promise.all` on the two initial promises: both values, or the rejection
that happens first. -/
def promiseAll {α β : Type} (secondFirst : Bool) (a : Except String α) (b : Except String β) :
    Except String (α × β) :=
  match a, b with
  | .ok x, .ok y => .ok (x, y)
  | .error e, .ok _ => .error e
  | .ok _, .error e => .error e
  | .error e₁, .error e₂ => .error (if secondFirst then e₂ else e₁)

/-- The filter `r => r.fork === false`. -/
def isOwned (r : Repo) : Bool := r.fork == some false

/-- The handler `catch (err)`: `{ error: true, message: err?.message || "Unknown error" }`. -/
def caught (msg : String) : Result := .error (strOr (some msg) "Unknown error")

/-! ## getGitHubStats -/

/-- The `while` loop of lines 50-64, entered with `page` and the repositories
collected so far. It yields the repositories collected when the loop is left
(or the message of the error `fetch` threw) and the requests issued. -/
def paginate (w : World) (page : Nat) (repos : List Repo) :
    Except String (List Repo) × List Req :=
  match w.fetch (.repos page) with
  | .error e => (.error e, [.repos page])
  | .ok res =>
    if !res.ok then (.ok repos, [.repos page])
    else
      match safeJson res with
      | .list data =>
        if data.length = 0 then (.ok repos, [.repos page])
        else
          let repos' := repos ++ data.filter isOwned
          if data.length < 100 then (.ok repos', [.repos page])
          else if page ≥ 50 then (.ok repos', [.repos page])
          else
            let rest := paginate w (page + 1) repos'
            (rest.1, .repos page :: rest.2)
      | _ => (.ok repos, [.repos page])
termination_by 50 - page
decreasing_by omega

/-- The sum `repos.reduce((sum, r) => sum + (r.stargazers_count || 0), 0)`. -/
def starSum (repos : List Repo) : Int :=
  repos.foldl (fun sum r => sum + numOr r.stargazers_count 0) 0

/-- The sum `repos.reduce((sum, r) => sum + (r.forks_count || 0), 0)`. -/
def forkSum (repos : List Repo) : Int :=
  repos.foldl (fun sum r => sum + numOr r.forks_count 0) 0

/-- The variable `forks` of line 68. -/
def forksOf (user : JObject) (repos : List Repo) : Int :=
  if user.total_private_repos = some 0 then forkSum repos else 0

/-- The variable `rawScore` of line 73. -/
def rawScore (user : JObject) (repos : List Repo) : Int :=
  starSum repos + forksOf user repos + numOr user.followers 0

/-- The variable `public_repos` of line 70. -/
def publicRepos (user : JObject) (repos : List Repo) : Int :=
  numOr user.public_repos repos.length

/-- Property access on the parsed profile: `none` when it throws (the value
is `null`); a list has none of the fields read. -/
def Json.fields : Json → Option JObject
  | .null => none
  | .list _ => some {}
  | .object o => some o

/-- The message of the `TypeError` of reading a property of `null`. -/
def nullUserMessage : String :=
  "Cannot read properties of null (reading 'total_private_repos')"

/-- Lines 67-105: the record built from the profile and the collected
repositories. -/
def aggregate (user : JObject) (repos : List Repo) : Stats :=
  let score := rawScore user repos
  let g := grade score
  { username := user.login
    name := strOr user.name ""
    avatar_url := match user.avatar_url with
      | some s => if s = "" then none else some s
      | none => none
    formatted_followers := formatNumber (numOr user.followers 0)
    formatted_stars := formatNumber (starSum repos)
    formatted_repos := formatNumber (publicRepos user repos)
    score := score
    level := level score
    xpPercent := xpPercent score
    grade := g
    tier := tier g }

/-- The repositories collected from the first page on (lines 48-64). -/
def collect (w : World) (first : List Repo) : Except String (List Repo) × List Req :=
  if first.length = 100 then paginate w 2 (first.filter isOwned)
  else (.ok (first.filter isOwned), [])

/-- The call `getGitHubStats(username)` against the HTTP client `w`: the value it
resolves to and the requests it issued. -/
def getGitHubStats (w : World) (username : String) : Result × List Req :=
  if username = "" then (.error "Username required", [])
  else
    let userPromise := (w.fetch .user).bind (checkResponse · "GitHub user fetch failed.")
    let reposPromise := (w.fetch (.repos 1)).bind (checkResponse · "Initial repos fetch failed.")
    match promiseAll w.reposSettlesFirst userPromise reposPromise with
    | .error e => (caught e, [.user, .repos 1])
    | .ok (user, firstPageRepos) =>
      match firstPageRepos with
      | .list first =>
        let collected := collect w first
        match collected.1 with
        | .error e => (caught e, .user :: .repos 1 :: collected.2)
        | .ok repos =>
          match user.fields with
          | none => (caught nullUserMessage, .user :: .repos 1 :: collected.2)
          | some u => (.stats (aggregate u repos), .user :: .repos 1 :: collected.2)
      | other => (.error (strOr other.message "Unexpected repos response"), [.user, .repos 1])

/-! ## What the HTTP client delivers (specification side) -/

/-- The items page `p` of the repository listing delivers: the request
succeeds with an ok status and the body parses to a list. -/
def pageItems (w : World) (p : Nat) : Option (List Repo) :=
  match w.fetch (.repos p) with
  | .ok res =>
    if res.ok then
      match res.body with
      | .ok (.list items) => some items
      | _ => none
    else none
  | .error _ => none

/-- The profile the client delivers: the request succeeds with an ok status
and the body parses to a value whose properties can be read. -/
def profileOf (w : World) : Option JObject :=
  match w.fetch .user with
  | .ok res =>
    if res.ok then
      match res.body with
      | .ok j => j.fields
      | .error _ => none
    else none
  | .error _ => none

/-- The items of page `p`, none when the page delivers no list. -/
def itemsOf (w : World) (p : Nat) : List Repo := (pageItems w p).getD []

/-- The items of the `n` pages `p, p + 1, ..., p + n - 1`, in order. -/
def itemsFrom (w : World) (p n : Nat) : List Repo := (List.range' p n).flatMap (itemsOf w)

/-- Page `p` returns exactly 100 items. -/
def fullPage (w : World) (p : Nat) : Bool :=
  match pageItems w p with
  | some items => items.length == 100
  | none => false

/-- Page `k` returns a non-success status, a body that is not a list, or an
empty list. -/
def stopsAt (w : World) (k : Nat) : Bool :=
  match w.fetch (.repos k) with
  | .ok res =>
    !res.ok ||
      (match safeJson res with
        | .list [] => true
        | .list _ => false
        | _ => true)
  | .error _ => false

/-- A repository that is not a fork: its `fork` field is `false`. -/
def notFork (r : Repo) : Bool := decide (r.fork = some false)

/-- The star count of the specification: the sum of `stargazers_count`, a
missing count counted as 0, over the items that are not forks. -/
def starCount (items : List Repo) : Int :=
  ((items.filter notFork).map (fun r => r.stargazers_count.getD 0)).sum

/-- The fork count of the specification: the sum of `forks_count` over the
items that are not forks when `total_private_repos` is 0, and 0 otherwise. -/
def forkCount (user : JObject) (items : List Repo) : Int :=
  if user.total_private_repos = some 0 then
    ((items.filter notFork).map (fun r => r.forks_count.getD 0)).sum
  else 0

/-- The follower count of the specification: `followers`, 0 when missing. -/
def followerCount (user : JObject) : Int := user.followers.getD 0

/-! ## Editing the repositories marked as forks (specification side) -/

/-- Two items that agree, or are both marked `fork: true` (their other
fields may differ). -/
def sameUpToForks (r r' : Repo) : Prop := r = r' ∨ (r.fork = some true ∧ r'.fork = some true)

/-- Two parsed bodies that agree, or are lists of the same length whose items
agree up to the fields of the items marked `fork: true`. -/
def sameJson : Json → Json → Prop
  | .list l, .list l' => List.Forall₂ sameUpToForks l l'
  | j, j' => j = j'

/-- Two outcomes of `fetch` that agree up to the fields of the items marked
`fork: true`. -/
def sameResponse : Except String Response → Except String Response → Prop
  | .ok r, .ok r' =>
    r.status = r'.status ∧
      (match r.body, r'.body with
        | .ok j, .ok j' => sameJson j j'
        | b, b' => b = b')
  | .error e, .error e' => e = e'
  | _, _ => False

/-- The client `w'` answers as `w` does, except for the fields of the
repositories marked `fork: true`. -/
structure ForkEdit (w w' : World) : Prop where
  user : w.fetch .user = w'.fetch .user
  order : w.reposSettlesFirst = w'.reposSettlesFirst
  pages : ∀ p, sameResponse (w.fetch (.repos p)) (w'.fetch (.repos p))

/-! ## escapeXml (trophy.js, lines 5-16, and the same function in index.js) -/

/-- The character class of the regular expression: the five characters
less-than, greater-than, ampersand, apostrophe and double quote. -/
def isXmlSpecial (c : Char) : Bool :=
  c == '<' || c == '>' || c == '&' || c == Char.ofNat 39 || c == Char.ofNat 34

/-- The replacement callback: the `switch` on the matched character. -/
def xmlReplacement (c : Char) : String :=
  if c = '<' then "&lt;"
  else if c = '>' then "&gt;"
  else if c = '&' then "&amp;"
  else if c = Char.ofNat 34 then "&quot;"
  else if c = Char.ofNat 39 then "&#39;"
  else String.singleton c

/-- One step of the global replace: a character of the class is replaced by
what the callback returns, any other character is kept. -/
def escapeChar (c : Char) : List Char :=
  if isXmlSpecial c then (xmlReplacement c).data else [c]

/-- The function `escapeXml`: `String(unsafe).replace(re, callback)` with the global
flag, every character of the text in turn. -/
def escapeXml (text : String) : String :=
  String.mk (text.data.flatMap escapeChar)

/-- Line 23 of trophy.js: the escaped username, `unknown` when there is
none. -/
def svgUsername (stats : Stats) : String := escapeXml (strOr stats.username "unknown")

/-- The value of the `aria-label` attribute of the SVG, the place where the
username is embedded. -/
def ariaLabel (stats : Stats) : String := "GitHub Trophy for " ++ svgUsername stats

/-- The five entities. -/
def xmlEntities : List String := ["&lt;", "&gt;", "&amp;", "&quot;", "&#39;"]

/-- The username of the worked example: `<script>&` followed by a double
quote and an apostrophe. -/
def scriptName : String :=
  String.mk ['<', 's', 'c', 'r', 'i', 'p', 't', '>', '&', Char.ofNat 34, Char.ofNat 39]

/-- Every ampersand of `l` begins one of the five entities. -/
def AmpersandsBeginEntities (l : List Char) : Prop :=
  ∀ i, l[i]? = some '&' → ∃ e ∈ xmlEntities, e.data <+: l.drop i

/-! ## themes.js -/

/-- The palette of a theme: the eleven colour fields. -/
structure Palette where
  bg : String
  bg_dark : String
  card : String
  card_edge : String
  panel : String
  panel_edge : String
  glow : String
  title_text : String
  text : String
  meta_text : String
  accent_text : String
  deriving DecidableEq, Repr

/-- The object returned in the case `dark_high_contrast`. -/
def darkHighContrast : Palette :=
  { bg := "#0d1117", bg_dark := "#010409", card := "#161b22", card_edge := "#30363d",
    panel := "#21262d", panel_edge := "#484f58", glow := "#00d4ff", title_text := "#e6edf3",
    text := "#c9d1d9", meta_text := "#8b949e", accent_text := "#79c0ff" }

/-- The object returned in the case `classic_gamer`. -/
def classicGamer : Palette :=
  { bg := "#081018", bg_dark := "#04080c", card := "#0f1a24", card_edge := "#203040",
    panel := "#0b151b", panel_edge := "#304050", glow := "#00d4ff", title_text := "#e6eef8",
    text := "#e6eef8", meta_text := "#9fb4c8", accent_text := "#ffd166" }

/-- The function `getThemeColors`: a `switch` on the theme whose default case
calls the function again on `dark_high_contrast`. -/
def getThemeColors (theme : String) : Palette :=
  if theme = "dark_high_contrast" then darkHighContrast
  else if theme = "classic_gamer" then classicGamer
  else getThemeColors "dark_high_contrast"
termination_by if theme = "dark_high_contrast" then 0 else 1
decreasing_by simp [*]

/-- What `tierStyles[tier] || tierStyles.default` evaluates to: one of the
pairs of the table, or a value the table object inherits from
`Object.prototype`, which has neither a `color` nor an `edge`. -/
inductive TierStyle where
  | pair (color edge : String) : TierStyle
  | inherited (key : String) : TierStyle
  deriving DecidableEq, Repr

/-- The property names every object literal inherits from
`Object.prototype`; each holds a function or an object, so a truthy value. -/
def objectPrototypeKeys : List String :=
  ["constructor", "__proto__", "hasOwnProperty", "isPrototypeOf", "propertyIsEnumerable",
    "toLocaleString", "toString", "valueOf", "__defineGetter__", "__defineSetter__",
    "__lookupGetter__", "__lookupSetter__"]

/-- The entry `default` of the table. -/
def defaultTierStyle : TierStyle := .pair "#FFFFFF" "#CCCCCC"

/-- The function `getTierStyles`: the property `tier` of the table (an own
property, else an inherited one), and the entry `default` when there is
none. -/
def getTierStyles (tier : String) : TierStyle :=
  if tier = "Mythic" then .pair "#FF6347" "#CC3311"
  else if tier = "Legendary" then .pair "#FFD700" "#C4A000"
  else if tier = "Gold" then .pair "#FFC72C" "#D4A017"
  else if tier = "Silver" then .pair "#C0C0C0" "#999999"
  else if tier = "Iron" then .pair "#95A5A6" "#6C7A89"
  else if tier = "default" then defaultTierStyle
  else if tier ∈ objectPrototypeKeys then .inherited tier
  else defaultTierStyle

/-- The property `color` of a tier style, `none` for `undefined`. -/
def TierStyle.color : TierStyle → Option String
  | .pair c _ => some c
  | .inherited _ => none

/-- The property `edge` of a tier style, `none` for `undefined`. -/
def TierStyle.edge : TierStyle → Option String
  | .pair _ e => some e
  | .inherited _ => none

/-! ## trophy.js: layout -/

/-- A template literal: its pieces, literal text and interpolated values,
one after the other. -/
def joinPieces (pieces : List String) : String := pieces.foldr (· ++ ·) ""

/-- An interpolated number: the decimal digits of an integer, with a minus
sign when it is negative. -/
def num (n : Int) : String := toString n

/-- An interpolated property that may be `undefined`. -/
def interp (x : Option String) : String := x.getD "undefined"

/-- The constant `padding`. -/
def padding : Int := 24

/-- The constant `mainCardW`. -/
def mainCardW : Int := 600

/-- The constant `mainCardH`. -/
def mainCardH : Int := 200

/-- The constant `trophySize`. -/
def trophySize : Int := 140

/-- The constant `badgeW`. -/
def badgeW : Int := 160

/-- The constant `badgeH`. -/
def badgeH : Int := 72

/-- The constant `badgeGap`. -/
def badgeGap : Int := 20

/-- The constant `xpBarW`. -/
def xpBarW : Int := 280

/-- The length of the array `badges`, which has three entries. -/
def badgeCount : Int := 3

/-- The column count `Math.min(Math.max(1, parseInt(columns, 10) || 3), 4)`,
from the value of `parseInt(columns, 10)`: an integer, or `none` for `NaN`. -/
def usedColumns (parsed : Option Int) : Int := min (max 1 (numOr parsed 3)) 4

/-- The row count `Math.ceil(badges.length / badgesPerRow)`: the ceiling of
the exact quotient. -/
def badgeRows (c : Int) : Int := -(Int.fdiv (-badgeCount) c)

/-- The variable `badgeGridWidth`. -/
def badgeGridWidth (c : Int) : Int := c * badgeW + (c - 1) * badgeGap

/-- The variable `badgesHeight`. -/
def badgesHeight (c : Int) : Int := badgeRows c * badgeH + (badgeRows c - 1) * badgeGap

/-- The variable `svgWidth`. -/
def svgWidth (c : Int) : Int := max (mainCardW + 2 * padding) (badgeGridWidth c + 2 * padding)

/-- The variable `svgHeight`. -/
def svgHeight (c : Int) : Int := padding + mainCardH + padding + badgesHeight c + padding

/-- The variable `centerX`, `svgWidth / 2`; the width is even for every
column count used, so the integer quotient is the exact one. -/
def centerX (c : Int) : Int := svgWidth c / 2

/-- The variable `mainCardX`. -/
def mainCardX (c : Int) : Int := centerX c - mainCardW / 2

/-- The variable `badgeGridY`. -/
def badgeGridY : Int := padding + mainCardH + padding

/-- The row `Math.floor(i / badgesPerRow)` of badge `i`. -/
def badgeRow (c i : Int) : Int := Int.fdiv i c

/-- The column `i % badgesPerRow` of badge `i`. -/
def badgeCol (c i : Int) : Int := Int.tmod i c

/-- The number of badges in row `r`,
`Math.min(badgesPerRow, badges.length - r * badgesPerRow)`. -/
def rowCount (c r : Int) : Int := min c (badgeCount - r * c)

/-- The variable `totalRowWidth` of a badge in row `r`. -/
def totalRowWidth (c r : Int) : Int := rowCount c r * badgeW + (rowCount c r - 1) * badgeGap

/-- The variable `startX` of a badge in row `r`; the row width is even, so
the integer quotient is the exact one. -/
def startX (c r : Int) : Int := centerX c - totalRowWidth c r / 2

/-- The variable `x` of badge `i`. -/
def badgeX (c i : Int) : Int := startX c (badgeRow c i) + badgeCol c i * (badgeW + badgeGap)

/-- The variable `y` of badge `i`. -/
def badgeY (c i : Int) : Int := badgeGridY + badgeRow c i * (badgeH + badgeGap)

/-- The variable `xpFilledW`, `Math.round((xpBarW * xpPercent) / 100)`:
the floor of the exact quotient plus one half. -/
def xpFilledW (xpPercent : Int) : Int := ⌊((xpBarW * xpPercent : Int) : ℚ) / 100 + 1 / 2⌋

/-! ## trophy.js: the document -/

/-- The function `iconMedalInner`. -/
def iconMedalInner (fillColor : String) : String :=
  joinPieces [
    "\n", "    <svg width=\"56\" height=\"56\" viewBox=\"0 0 56 56\" ",
    "xmlns=\"http://www.w3.org/2000/svg\">\n",
    "      <path d=\"M28 10 L33.5 22 L46 22 L36.5 29 L40 42 L28 34 L16 42 L19.5 29 ",
    "L10 22 L22.5 22 Z\" fill=\"", fillColor, "\" />\n", "    </svg>"]

/-- The function `iconStar`. -/
def iconStar (fillColor : String) : String :=
  joinPieces [
    "<svg width=\"30\" height=\"30\" viewBox=\"0 0 24 24\" ",
    "xmlns=\"http://www.w3.org/2000/svg\">\n", "      <path fill=\"", fillColor,
    "\" d=\"M12 .587l3.668 7.431L23.4 9.75l-5.7 5.558L19.335 24 12 20.201 4.665 ",
    "24l1.635-8.692L.6 9.75l7.732-1.732z\"/>\n", "    </svg>"]

/-- The function `iconRepo`. -/
def iconRepo (fillColor : String) : String :=
  joinPieces [
    "<svg width=\"30\" height=\"30\" viewBox=\"0 0 24 24\" ",
    "xmlns=\"http://www.w3.org/2000/svg\">\n", "      <path fill=\"", fillColor,
    "\" d=\"M21 8V7l-9-4-9 4v1l9 4 9-4zM3 10v6l9 5 9-5v-6l-9 4-9-4z\"/>\n", "    </svg>"]

/-- The function `iconUsers`. -/
def iconUsers (fillColor : String) : String :=
  joinPieces [
    "<svg width=\"30\" height=\"30\" viewBox=\"0 0 24 24\" ",
    "xmlns=\"http://www.w3.org/2000/svg\">\n", "      <path fill=\"", fillColor,
    "\" d=\"M16 11c1.657 0 3-1.343 3-3s-1.343-3-3-3-3 1.343-3 3 1.343 3 3 3zM8 ",
    "11c1.657 0 3-1.343 3-3S9.657 5 8 5 5 6.343 5 8s1.343 3 3 3zM8 13c-2.33 0-7 ",
    "1.17-7 3.5V19h14v-2.5C15 14.17 10.33 13 8 13zm8 0c-.29 0-.62.02-.98.05 1.17.8 ",
    "1.98 1.93 1.98 3.45V19h6v-2.5C23 14.17 18.33 13 16 13z\"/>\n", "    </svg>"]

/-- An entry of the array `badges`. -/
structure Badge where
  label : String
  value : String
  icon : String
  deriving DecidableEq, Repr

/-- The pieces of the template a badge adds to `badgeGroups`. -/
def badgePieces (p : Palette) (x y : Int) (label value icon : String) : List String :=
  [
    "\n", "        <g transform=\"translate(", num x, ", ", num y, ")\">\n",
    "            <rect x=\"0\" y=\"0\" rx=\"12\" width=\"", num badgeW, "\" height=\"",
    num badgeH, "\" fill=\"", p.card, "\" stroke=\"", p.panel_edge,
    "\" stroke-width=\"1.2\" />\n", "            <g transform=\"translate(16, 18)\">\n",
    "                <g transform=\"translate(0, 0)\">", icon, "</g>\n",
    "                <text x=\"46\" y=\"12\" font-family=\"Segoe UI, Roboto, Arial, ",
    "sans-serif\" font-size=\"14\" fill=\"", p.text, "\" font-weight=\"700\">", label,
    "</text>\n",
    "                <text x=\"46\" y=\"34\" font-family=\"Segoe UI, Roboto, Arial, ",
    "sans-serif\" font-size=\"16\" fill=\"", p.accent_text, "\" font-weight=\"900\">", value,
    "</text>\n", "            </g>\n", "        </g>"]

/-- The text badge `i` adds to `badgeGroups`, for `c` columns. -/
def badgeGroup (p : Palette) (c : Int) (i : Nat) (b : Badge) : String :=
  joinPieces (badgePieces p (badgeX c i) (badgeY c i) b.label b.value b.icon)

/-- The loop `badges.forEach`: the texts of the badges appended in order. -/
def badgeGroupsOf (p : Palette) (c : Int) (badges : List Badge) : String :=
  badges.enum.foldl (fun acc ib => acc ++ badgeGroup p c ib.1 ib.2) ""

set_option maxHeartbeats 4000000 in
/-- The characters outside ASCII that the Unicode upper-case mapping changes
(Unicode 14.0: the simple mappings of UnicodeData and the unconditional
mappings of SpecialCasing), each with the code points it becomes. -/
def unicodeUpper : List (Nat × List Nat) :=
  [(181, [924]), (223, [83, 83]), (224, [192]), (225, [193]), (226, [194]), (227, [195]),
    (228, [196]), (229, [197]), (230, [198]), (231, [199]), (232, [200]), (233, [201]),
    (234, [202]), (235, [203]), (236, [204]), (237, [205]), (238, [206]), (239, [207]),
    (240, [208]), (241, [209]), (242, [210]), (243, [211]), (244, [212]), (245, [213]),
    (246, [214]), (248, [216]), (249, [217]), (250, [218]), (251, [219]), (252, [220]),
    (253, [221]), (254, [222]), (255, [376]), (257, [256]), (259, [258]), (261, [260]),
    (263, [262]), (265, [264]), (267, [266]), (269, [268]), (271, [270]), (273, [272]),
    (275, [274]), (277, [276]), (279, [278]), (281, [280]), (283, [282]), (285, [284]),
    (287, [286]), (289, [288]), (291, [290]), (293, [292]), (295, [294]), (297, [296]),
    (299, [298]), (301, [300]), (303, [302]), (305, [73]), (307, [306]), (309, [308]), (311, [310]),
    (314, [313]), (316, [315]), (318, [317]), (320, [319]), (322, [321]), (324, [323]),
    (326, [325]), (328, [327]), (329, [700, 78]), (331, [330]), (333, [332]), (335, [334]),
    (337, [336]), (339, [338]), (341, [340]), (343, [342]), (345, [344]), (347, [346]),
    (349, [348]), (351, [350]), (353, [352]), (355, [354]), (357, [356]), (359, [358]),
    (361, [360]), (363, [362]), (365, [364]), (367, [366]), (369, [368]), (371, [370]),
    (373, [372]), (375, [374]), (378, [377]), (380, [379]), (382, [381]), (383, [83]), (384, [579]),
    (387, [386]), (389, [388]), (392, [391]), (396, [395]), (402, [401]), (405, [502]),
    (409, [408]), (410, [573]), (414, [544]), (417, [416]), (419, [418]), (421, [420]),
    (424, [423]), (429, [428]), (432, [431]), (436, [435]), (438, [437]), (441, [440]),
    (445, [444]), (447, [503]), (453, [452]), (454, [452]), (456, [455]), (457, [455]),
    (459, [458]), (460, [458]), (462, [461]), (464, [463]), (466, [465]), (468, [467]),
    (470, [469]), (472, [471]), (474, [473]), (476, [475]), (477, [398]), (479, [478]),
    (481, [480]), (483, [482]), (485, [484]), (487, [486]), (489, [488]), (491, [490]),
    (493, [492]), (495, [494]), (496, [74, 780]), (498, [497]), (499, [497]), (501, [500]),
    (505, [504]), (507, [506]), (509, [508]), (511, [510]), (513, [512]), (515, [514]),
    (517, [516]), (519, [518]), (521, [520]), (523, [522]), (525, [524]), (527, [526]),
    (529, [528]), (531, [530]), (533, [532]), (535, [534]), (537, [536]), (539, [538]),
    (541, [540]), (543, [542]), (547, [546]), (549, [548]), (551, [550]), (553, [552]),
    (555, [554]), (557, [556]), (559, [558]), (561, [560]), (563, [562]), (572, [571]),
    (575, [11390]), (576, [11391]), (578, [577]), (583, [582]), (585, [584]), (587, [586]),
    (589, [588]), (591, [590]), (592, [11375]), (593, [11373]), (594, [11376]), (595, [385]),
    (596, [390]), (598, [393]), (599, [394]), (601, [399]), (603, [400]), (604, [42923]),
    (608, [403]), (609, [42924]), (611, [404]), (613, [42893]), (614, [42922]), (616, [407]),
    (617, [406]), (618, [42926]), (619, [11362]), (620, [42925]), (623, [412]), (625, [11374]),
    (626, [413]), (629, [415]), (637, [11364]), (640, [422]), (642, [42949]), (643, [425]),
    (647, [42929]), (648, [430]), (649, [580]), (650, [433]), (651, [434]), (652, [581]),
    (658, [439]), (669, [42930]), (670, [42928]), (837, [921]), (881, [880]), (883, [882]),
    (887, [886]), (891, [1021]), (892, [1022]), (893, [1023]), (912, [921, 776, 769]), (940, [902]),
    (941, [904]), (942, [905]), (943, [906]), (944, [933, 776, 769]), (945, [913]), (946, [914]),
    (947, [915]), (948, [916]), (949, [917]), (950, [918]), (951, [919]), (952, [920]),
    (953, [921]), (954, [922]), (955, [923]), (956, [924]), (957, [925]), (958, [926]),
    (959, [927]), (960, [928]), (961, [929]), (962, [931]), (963, [931]), (964, [932]),
    (965, [933]), (966, [934]), (967, [935]), (968, [936]), (969, [937]), (970, [938]),
    (971, [939]), (972, [908]), (973, [910]), (974, [911]), (976, [914]), (977, [920]),
    (981, [934]), (982, [928]), (983, [975]), (985, [984]), (987, [986]), (989, [988]),
    (991, [990]), (993, [992]), (995, [994]), (997, [996]), (999, [998]), (1001, [1000]),
    (1003, [1002]), (1005, [1004]), (1007, [1006]), (1008, [922]), (1009, [929]), (1010, [1017]),
    (1011, [895]), (1013, [917]), (1016, [1015]), (1019, [1018]), (1072, [1040]), (1073, [1041]),
    (1074, [1042]), (1075, [1043]), (1076, [1044]), (1077, [1045]), (1078, [1046]), (1079, [1047]),
    (1080, [1048]), (1081, [1049]), (1082, [1050]), (1083, [1051]), (1084, [1052]), (1085, [1053]),
    (1086, [1054]), (1087, [1055]), (1088, [1056]), (1089, [1057]), (1090, [1058]), (1091, [1059]),
    (1092, [1060]), (1093, [1061]), (1094, [1062]), (1095, [1063]), (1096, [1064]), (1097, [1065]),
    (1098, [1066]), (1099, [1067]), (1100, [1068]), (1101, [1069]), (1102, [1070]), (1103, [1071]),
    (1104, [1024]), (1105, [1025]), (1106, [1026]), (1107, [1027]), (1108, [1028]), (1109, [1029]),
    (1110, [1030]), (1111, [1031]), (1112, [1032]), (1113, [1033]), (1114, [1034]), (1115, [1035]),
    (1116, [1036]), (1117, [1037]), (1118, [1038]), (1119, [1039]), (1121, [1120]), (1123, [1122]),
    (1125, [1124]), (1127, [1126]), (1129, [1128]), (1131, [1130]), (1133, [1132]), (1135, [1134]),
    (1137, [1136]), (1139, [1138]), (1141, [1140]), (1143, [1142]), (1145, [1144]), (1147, [1146]),
    (1149, [1148]), (1151, [1150]), (1153, [1152]), (1163, [1162]), (1165, [1164]), (1167, [1166]),
    (1169, [1168]), (1171, [1170]), (1173, [1172]), (1175, [1174]), (1177, [1176]), (1179, [1178]),
    (1181, [1180]), (1183, [1182]), (1185, [1184]), (1187, [1186]), (1189, [1188]), (1191, [1190]),
    (1193, [1192]), (1195, [1194]), (1197, [1196]), (1199, [1198]), (1201, [1200]), (1203, [1202]),
    (1205, [1204]), (1207, [1206]), (1209, [1208]), (1211, [1210]), (1213, [1212]), (1215, [1214]),
    (1218, [1217]), (1220, [1219]), (1222, [1221]), (1224, [1223]), (1226, [1225]), (1228, [1227]),
    (1230, [1229]), (1231, [1216]), (1233, [1232]), (1235, [1234]), (1237, [1236]), (1239, [1238]),
    (1241, [1240]), (1243, [1242]), (1245, [1244]), (1247, [1246]), (1249, [1248]), (1251, [1250]),
    (1253, [1252]), (1255, [1254]), (1257, [1256]), (1259, [1258]), (1261, [1260]), (1263, [1262]),
    (1265, [1264]), (1267, [1266]), (1269, [1268]), (1271, [1270]), (1273, [1272]), (1275, [1274]),
    (1277, [1276]), (1279, [1278]), (1281, [1280]), (1283, [1282]), (1285, [1284]), (1287, [1286]),
    (1289, [1288]), (1291, [1290]), (1293, [1292]), (1295, [1294]), (1297, [1296]), (1299, [1298]),
    (1301, [1300]), (1303, [1302]), (1305, [1304]), (1307, [1306]), (1309, [1308]), (1311, [1310]),
    (1313, [1312]), (1315, [1314]), (1317, [1316]), (1319, [1318]), (1321, [1320]), (1323, [1322]),
    (1325, [1324]), (1327, [1326]), (1377, [1329]), (1378, [1330]), (1379, [1331]), (1380, [1332]),
    (1381, [1333]), (1382, [1334]), (1383, [1335]), (1384, [1336]), (1385, [1337]), (1386, [1338]),
    (1387, [1339]), (1388, [1340]), (1389, [1341]), (1390, [1342]), (1391, [1343]), (1392, [1344]),
    (1393, [1345]), (1394, [1346]), (1395, [1347]), (1396, [1348]), (1397, [1349]), (1398, [1350]),
    (1399, [1351]), (1400, [1352]), (1401, [1353]), (1402, [1354]), (1403, [1355]), (1404, [1356]),
    (1405, [1357]), (1406, [1358]), (1407, [1359]), (1408, [1360]), (1409, [1361]), (1410, [1362]),
    (1411, [1363]), (1412, [1364]), (1413, [1365]), (1414, [1366]), (1415, [1333, 1362]),
    (4304, [7312]), (4305, [7313]), (4306, [7314]), (4307, [7315]), (4308, [7316]), (4309, [7317]),
    (4310, [7318]), (4311, [7319]), (4312, [7320]), (4313, [7321]), (4314, [7322]), (4315, [7323]),
    (4316, [7324]), (4317, [7325]), (4318, [7326]), (4319, [7327]), (4320, [7328]), (4321, [7329]),
    (4322, [7330]), (4323, [7331]), (4324, [7332]), (4325, [7333]), (4326, [7334]), (4327, [7335]),
    (4328, [7336]), (4329, [7337]), (4330, [7338]), (4331, [7339]), (4332, [7340]), (4333, [7341]),
    (4334, [7342]), (4335, [7343]), (4336, [7344]), (4337, [7345]), (4338, [7346]), (4339, [7347]),
    (4340, [7348]), (4341, [7349]), (4342, [7350]), (4343, [7351]), (4344, [7352]), (4345, [7353]),
    (4346, [7354]), (4349, [7357]), (4350, [7358]), (4351, [7359]), (5112, [5104]), (5113, [5105]),
    (5114, [5106]), (5115, [5107]), (5116, [5108]), (5117, [5109]), (7296, [1042]), (7297, [1044]),
    (7298, [1054]), (7299, [1057]), (7300, [1058]), (7301, [1058]), (7302, [1066]), (7303, [1122]),
    (7304, [42570]), (7545, [42877]), (7549, [11363]), (7566, [42950]), (7681, [7680]),
    (7683, [7682]), (7685, [7684]), (7687, [7686]), (7689, [7688]), (7691, [7690]), (7693, [7692]),
    (7695, [7694]), (7697, [7696]), (7699, [7698]), (7701, [7700]), (7703, [7702]), (7705, [7704]),
    (7707, [7706]), (7709, [7708]), (7711, [7710]), (7713, [7712]), (7715, [7714]), (7717, [7716]),
    (7719, [7718]), (7721, [7720]), (7723, [7722]), (7725, [7724]), (7727, [7726]), (7729, [7728]),
    (7731, [7730]), (7733, [7732]), (7735, [7734]), (7737, [7736]), (7739, [7738]), (7741, [7740]),
    (7743, [7742]), (7745, [7744]), (7747, [7746]), (7749, [7748]), (7751, [7750]), (7753, [7752]),
    (7755, [7754]), (7757, [7756]), (7759, [7758]), (7761, [7760]), (7763, [7762]), (7765, [7764]),
    (7767, [7766]), (7769, [7768]), (7771, [7770]), (7773, [7772]), (7775, [7774]), (7777, [7776]),
    (7779, [7778]), (7781, [7780]), (7783, [7782]), (7785, [7784]), (7787, [7786]), (7789, [7788]),
    (7791, [7790]), (7793, [7792]), (7795, [7794]), (7797, [7796]), (7799, [7798]), (7801, [7800]),
    (7803, [7802]), (7805, [7804]), (7807, [7806]), (7809, [7808]), (7811, [7810]), (7813, [7812]),
    (7815, [7814]), (7817, [7816]), (7819, [7818]), (7821, [7820]), (7823, [7822]), (7825, [7824]),
    (7827, [7826]), (7829, [7828]), (7830, [72, 817]), (7831, [84, 776]), (7832, [87, 778]),
    (7833, [89, 778]), (7834, [65, 702]), (7835, [7776]), (7841, [7840]), (7843, [7842]),
    (7845, [7844]), (7847, [7846]), (7849, [7848]), (7851, [7850]), (7853, [7852]), (7855, [7854]),
    (7857, [7856]), (7859, [7858]), (7861, [7860]), (7863, [7862]), (7865, [7864]), (7867, [7866]),
    (7869, [7868]), (7871, [7870]), (7873, [7872]), (7875, [7874]), (7877, [7876]), (7879, [7878]),
    (7881, [7880]), (7883, [7882]), (7885, [7884]), (7887, [7886]), (7889, [7888]), (7891, [7890]),
    (7893, [7892]), (7895, [7894]), (7897, [7896]), (7899, [7898]), (7901, [7900]), (7903, [7902]),
    (7905, [7904]), (7907, [7906]), (7909, [7908]), (7911, [7910]), (7913, [7912]), (7915, [7914]),
    (7917, [7916]), (7919, [7918]), (7921, [7920]), (7923, [7922]), (7925, [7924]), (7927, [7926]),
    (7929, [7928]), (7931, [7930]), (7933, [7932]), (7935, [7934]), (7936, [7944]), (7937, [7945]),
    (7938, [7946]), (7939, [7947]), (7940, [7948]), (7941, [7949]), (7942, [7950]), (7943, [7951]),
    (7952, [7960]), (7953, [7961]), (7954, [7962]), (7955, [7963]), (7956, [7964]), (7957, [7965]),
    (7968, [7976]), (7969, [7977]), (7970, [7978]), (7971, [7979]), (7972, [7980]), (7973, [7981]),
    (7974, [7982]), (7975, [7983]), (7984, [7992]), (7985, [7993]), (7986, [7994]), (7987, [7995]),
    (7988, [7996]), (7989, [7997]), (7990, [7998]), (7991, [7999]), (8000, [8008]), (8001, [8009]),
    (8002, [8010]), (8003, [8011]), (8004, [8012]), (8005, [8013]), (8016, [933, 787]),
    (8017, [8025]), (8018, [933, 787, 768]), (8019, [8027]), (8020, [933, 787, 769]),
    (8021, [8029]), (8022, [933, 787, 834]), (8023, [8031]), (8032, [8040]), (8033, [8041]),
    (8034, [8042]), (8035, [8043]), (8036, [8044]), (8037, [8045]), (8038, [8046]), (8039, [8047]),
    (8048, [8122]), (8049, [8123]), (8050, [8136]), (8051, [8137]), (8052, [8138]), (8053, [8139]),
    (8054, [8154]), (8055, [8155]), (8056, [8184]), (8057, [8185]), (8058, [8170]), (8059, [8171]),
    (8060, [8186]), (8061, [8187]), (8064, [7944, 921]), (8065, [7945, 921]), (8066, [7946, 921]),
    (8067, [7947, 921]), (8068, [7948, 921]), (8069, [7949, 921]), (8070, [7950, 921]),
    (8071, [7951, 921]), (8072, [7944, 921]), (8073, [7945, 921]), (8074, [7946, 921]),
    (8075, [7947, 921]), (8076, [7948, 921]), (8077, [7949, 921]), (8078, [7950, 921]),
    (8079, [7951, 921]), (8080, [7976, 921]), (8081, [7977, 921]), (8082, [7978, 921]),
    (8083, [7979, 921]), (8084, [7980, 921]), (8085, [7981, 921]), (8086, [7982, 921]),
    (8087, [7983, 921]), (8088, [7976, 921]), (8089, [7977, 921]), (8090, [7978, 921]),
    (8091, [7979, 921]), (8092, [7980, 921]), (8093, [7981, 921]), (8094, [7982, 921]),
    (8095, [7983, 921]), (8096, [8040, 921]), (8097, [8041, 921]), (8098, [8042, 921]),
    (8099, [8043, 921]), (8100, [8044, 921]), (8101, [8045, 921]), (8102, [8046, 921]),
    (8103, [8047, 921]), (8104, [8040, 921]), (8105, [8041, 921]), (8106, [8042, 921]),
    (8107, [8043, 921]), (8108, [8044, 921]), (8109, [8045, 921]), (8110, [8046, 921]),
    (8111, [8047, 921]), (8112, [8120]), (8113, [8121]), (8114, [8122, 921]), (8115, [913, 921]),
    (8116, [902, 921]), (8118, [913, 834]), (8119, [913, 834, 921]), (8124, [913, 921]),
    (8126, [921]), (8130, [8138, 921]), (8131, [919, 921]), (8132, [905, 921]), (8134, [919, 834]),
    (8135, [919, 834, 921]), (8140, [919, 921]), (8144, [8152]), (8145, [8153]),
    (8146, [921, 776, 768]), (8147, [921, 776, 769]), (8150, [921, 834]), (8151, [921, 776, 834]),
    (8160, [8168]), (8161, [8169]), (8162, [933, 776, 768]), (8163, [933, 776, 769]),
    (8164, [929, 787]), (8165, [8172]), (8166, [933, 834]), (8167, [933, 776, 834]),
    (8178, [8186, 921]), (8179, [937, 921]), (8180, [911, 921]), (8182, [937, 834]),
    (8183, [937, 834, 921]), (8188, [937, 921]), (8526, [8498]), (8560, [8544]), (8561, [8545]),
    (8562, [8546]), (8563, [8547]), (8564, [8548]), (8565, [8549]), (8566, [8550]), (8567, [8551]),
    (8568, [8552]), (8569, [8553]), (8570, [8554]), (8571, [8555]), (8572, [8556]), (8573, [8557]),
    (8574, [8558]), (8575, [8559]), (8580, [8579]), (9424, [9398]), (9425, [9399]), (9426, [9400]),
    (9427, [9401]), (9428, [9402]), (9429, [9403]), (9430, [9404]), (9431, [9405]), (9432, [9406]),
    (9433, [9407]), (9434, [9408]), (9435, [9409]), (9436, [9410]), (9437, [9411]), (9438, [9412]),
    (9439, [9413]), (9440, [9414]), (9441, [9415]), (9442, [9416]), (9443, [9417]), (9444, [9418]),
    (9445, [9419]), (9446, [9420]), (9447, [9421]), (9448, [9422]), (9449, [9423]),
    (11312, [11264]), (11313, [11265]), (11314, [11266]), (11315, [11267]), (11316, [11268]),
    (11317, [11269]), (11318, [11270]), (11319, [11271]), (11320, [11272]), (11321, [11273]),
    (11322, [11274]), (11323, [11275]), (11324, [11276]), (11325, [11277]), (11326, [11278]),
    (11327, [11279]), (11328, [11280]), (11329, [11281]), (11330, [11282]), (11331, [11283]),
    (11332, [11284]), (11333, [11285]), (11334, [11286]), (11335, [11287]), (11336, [11288]),
    (11337, [11289]), (11338, [11290]), (11339, [11291]), (11340, [11292]), (11341, [11293]),
    (11342, [11294]), (11343, [11295]), (11344, [11296]), (11345, [11297]), (11346, [11298]),
    (11347, [11299]), (11348, [11300]), (11349, [11301]), (11350, [11302]), (11351, [11303]),
    (11352, [11304]), (11353, [11305]), (11354, [11306]), (11355, [11307]), (11356, [11308]),
    (11357, [11309]), (11358, [11310]), (11359, [11311]), (11361, [11360]), (11365, [570]),
    (11366, [574]), (11368, [11367]), (11370, [11369]), (11372, [11371]), (11379, [11378]),
    (11382, [11381]), (11393, [11392]), (11395, [11394]), (11397, [11396]), (11399, [11398]),
    (11401, [11400]), (11403, [11402]), (11405, [11404]), (11407, [11406]), (11409, [11408]),
    (11411, [11410]), (11413, [11412]), (11415, [11414]), (11417, [11416]), (11419, [11418]),
    (11421, [11420]), (11423, [11422]), (11425, [11424]), (11427, [11426]), (11429, [11428]),
    (11431, [11430]), (11433, [11432]), (11435, [11434]), (11437, [11436]), (11439, [11438]),
    (11441, [11440]), (11443, [11442]), (11445, [11444]), (11447, [11446]), (11449, [11448]),
    (11451, [11450]), (11453, [11452]), (11455, [11454]), (11457, [11456]), (11459, [11458]),
    (11461, [11460]), (11463, [11462]), (11465, [11464]), (11467, [11466]), (11469, [11468]),
    (11471, [11470]), (11473, [11472]), (11475, [11474]), (11477, [11476]), (11479, [11478]),
    (11481, [11480]), (11483, [11482]), (11485, [11484]), (11487, [11486]), (11489, [11488]),
    (11491, [11490]), (11500, [11499]), (11502, [11501]), (11507, [11506]), (11520, [4256]),
    (11521, [4257]), (11522, [4258]), (11523, [4259]), (11524, [4260]), (11525, [4261]),
    (11526, [4262]), (11527, [4263]), (11528, [4264]), (11529, [4265]), (11530, [4266]),
    (11531, [4267]), (11532, [4268]), (11533, [4269]), (11534, [4270]), (11535, [4271]),
    (11536, [4272]), (11537, [4273]), (11538, [4274]), (11539, [4275]), (11540, [4276]),
    (11541, [4277]), (11542, [4278]), (11543, [4279]), (11544, [4280]), (11545, [4281]),
    (11546, [4282]), (11547, [4283]), (11548, [4284]), (11549, [4285]), (11550, [4286]),
    (11551, [4287]), (11552, [4288]), (11553, [4289]), (11554, [4290]), (11555, [4291]),
    (11556, [4292]), (11557, [4293]), (11559, [4295]), (11565, [4301]), (42561, [42560]),
    (42563, [42562]), (42565, [42564]), (42567, [42566]), (42569, [42568]), (42571, [42570]),
    (42573, [42572]), (42575, [42574]), (42577, [42576]), (42579, [42578]), (42581, [42580]),
    (42583, [42582]), (42585, [42584]), (42587, [42586]), (42589, [42588]), (42591, [42590]),
    (42593, [42592]), (42595, [42594]), (42597, [42596]), (42599, [42598]), (42601, [42600]),
    (42603, [42602]), (42605, [42604]), (42625, [42624]), (42627, [42626]), (42629, [42628]),
    (42631, [42630]), (42633, [42632]), (42635, [42634]), (42637, [42636]), (42639, [42638]),
    (42641, [42640]), (42643, [42642]), (42645, [42644]), (42647, [42646]), (42649, [42648]),
    (42651, [42650]), (42787, [42786]), (42789, [42788]), (42791, [42790]), (42793, [42792]),
    (42795, [42794]), (42797, [42796]), (42799, [42798]), (42803, [42802]), (42805, [42804]),
    (42807, [42806]), (42809, [42808]), (42811, [42810]), (42813, [42812]), (42815, [42814]),
    (42817, [42816]), (42819, [42818]), (42821, [42820]), (42823, [42822]), (42825, [42824]),
    (42827, [42826]), (42829, [42828]), (42831, [42830]), (42833, [42832]), (42835, [42834]),
    (42837, [42836]), (42839, [42838]), (42841, [42840]), (42843, [42842]), (42845, [42844]),
    (42847, [42846]), (42849, [42848]), (42851, [42850]), (42853, [42852]), (42855, [42854]),
    (42857, [42856]), (42859, [42858]), (42861, [42860]), (42863, [42862]), (42874, [42873]),
    (42876, [42875]), (42879, [42878]), (42881, [42880]), (42883, [42882]), (42885, [42884]),
    (42887, [42886]), (42892, [42891]), (42897, [42896]), (42899, [42898]), (42900, [42948]),
    (42903, [42902]), (42905, [42904]), (42907, [42906]), (42909, [42908]), (42911, [42910]),
    (42913, [42912]), (42915, [42914]), (42917, [42916]), (42919, [42918]), (42921, [42920]),
    (42933, [42932]), (42935, [42934]), (42937, [42936]), (42939, [42938]), (42941, [42940]),
    (42943, [42942]), (42945, [42944]), (42947, [42946]), (42952, [42951]), (42954, [42953]),
    (42961, [42960]), (42967, [42966]), (42969, [42968]), (42998, [42997]), (43859, [42931]),
    (43888, [5024]), (43889, [5025]), (43890, [5026]), (43891, [5027]), (43892, [5028]),
    (43893, [5029]), (43894, [5030]), (43895, [5031]), (43896, [5032]), (43897, [5033]),
    (43898, [5034]), (43899, [5035]), (43900, [5036]), (43901, [5037]), (43902, [5038]),
    (43903, [5039]), (43904, [5040]), (43905, [5041]), (43906, [5042]), (43907, [5043]),
    (43908, [5044]), (43909, [5045]), (43910, [5046]), (43911, [5047]), (43912, [5048]),
    (43913, [5049]), (43914, [5050]), (43915, [5051]), (43916, [5052]), (43917, [5053]),
    (43918, [5054]), (43919, [5055]), (43920, [5056]), (43921, [5057]), (43922, [5058]),
    (43923, [5059]), (43924, [5060]), (43925, [5061]), (43926, [5062]), (43927, [5063]),
    (43928, [5064]), (43929, [5065]), (43930, [5066]), (43931, [5067]), (43932, [5068]),
    (43933, [5069]), (43934, [5070]), (43935, [5071]), (43936, [5072]), (43937, [5073]),
    (43938, [5074]), (43939, [5075]), (43940, [5076]), (43941, [5077]), (43942, [5078]),
    (43943, [5079]), (43944, [5080]), (43945, [5081]), (43946, [5082]), (43947, [5083]),
    (43948, [5084]), (43949, [5085]), (43950, [5086]), (43951, [5087]), (43952, [5088]),
    (43953, [5089]), (43954, [5090]), (43955, [5091]), (43956, [5092]), (43957, [5093]),
    (43958, [5094]), (43959, [5095]), (43960, [5096]), (43961, [5097]), (43962, [5098]),
    (43963, [5099]), (43964, [5100]), (43965, [5101]), (43966, [5102]), (43967, [5103]),
    (64256, [70, 70]), (64257, [70, 73]), (64258, [70, 76]), (64259, [70, 70, 73]),
    (64260, [70, 70, 76]), (64261, [83, 84]), (64262, [83, 84]), (64275, [1348, 1350]),
    (64276, [1348, 1333]), (64277, [1348, 1339]), (64278, [1358, 1350]), (64279, [1348, 1341]),
    (65345, [65313]), (65346, [65314]), (65347, [65315]), (65348, [65316]), (65349, [65317]),
    (65350, [65318]), (65351, [65319]), (65352, [65320]), (65353, [65321]), (65354, [65322]),
    (65355, [65323]), (65356, [65324]), (65357, [65325]), (65358, [65326]), (65359, [65327]),
    (65360, [65328]), (65361, [65329]), (65362, [65330]), (65363, [65331]), (65364, [65332]),
    (65365, [65333]), (65366, [65334]), (65367, [65335]), (65368, [65336]), (65369, [65337]),
    (65370, [65338]), (66600, [66560]), (66601, [66561]), (66602, [66562]), (66603, [66563]),
    (66604, [66564]), (66605, [66565]), (66606, [66566]), (66607, [66567]), (66608, [66568]),
    (66609, [66569]), (66610, [66570]), (66611, [66571]), (66612, [66572]), (66613, [66573]),
    (66614, [66574]), (66615, [66575]), (66616, [66576]), (66617, [66577]), (66618, [66578]),
    (66619, [66579]), (66620, [66580]), (66621, [66581]), (66622, [66582]), (66623, [66583]),
    (66624, [66584]), (66625, [66585]), (66626, [66586]), (66627, [66587]), (66628, [66588]),
    (66629, [66589]), (66630, [66590]), (66631, [66591]), (66632, [66592]), (66633, [66593]),
    (66634, [66594]), (66635, [66595]), (66636, [66596]), (66637, [66597]), (66638, [66598]),
    (66639, [66599]), (66776, [66736]), (66777, [66737]), (66778, [66738]), (66779, [66739]),
    (66780, [66740]), (66781, [66741]), (66782, [66742]), (66783, [66743]), (66784, [66744]),
    (66785, [66745]), (66786, [66746]), (66787, [66747]), (66788, [66748]), (66789, [66749]),
    (66790, [66750]), (66791, [66751]), (66792, [66752]), (66793, [66753]), (66794, [66754]),
    (66795, [66755]), (66796, [66756]), (66797, [66757]), (66798, [66758]), (66799, [66759]),
    (66800, [66760]), (66801, [66761]), (66802, [66762]), (66803, [66763]), (66804, [66764]),
    (66805, [66765]), (66806, [66766]), (66807, [66767]), (66808, [66768]), (66809, [66769]),
    (66810, [66770]), (66811, [66771]), (66967, [66928]), (66968, [66929]), (66969, [66930]),
    (66970, [66931]), (66971, [66932]), (66972, [66933]), (66973, [66934]), (66974, [66935]),
    (66975, [66936]), (66976, [66937]), (66977, [66938]), (66979, [66940]), (66980, [66941]),
    (66981, [66942]), (66982, [66943]), (66983, [66944]), (66984, [66945]), (66985, [66946]),
    (66986, [66947]), (66987, [66948]), (66988, [66949]), (66989, [66950]), (66990, [66951]),
    (66991, [66952]), (66992, [66953]), (66993, [66954]), (66995, [66956]), (66996, [66957]),
    (66997, [66958]), (66998, [66959]), (66999, [66960]), (67000, [66961]), (67001, [66962]),
    (67003, [66964]), (67004, [66965]), (68800, [68736]), (68801, [68737]), (68802, [68738]),
    (68803, [68739]), (68804, [68740]), (68805, [68741]), (68806, [68742]), (68807, [68743]),
    (68808, [68744]), (68809, [68745]), (68810, [68746]), (68811, [68747]), (68812, [68748]),
    (68813, [68749]), (68814, [68750]), (68815, [68751]), (68816, [68752]), (68817, [68753]),
    (68818, [68754]), (68819, [68755]), (68820, [68756]), (68821, [68757]), (68822, [68758]),
    (68823, [68759]), (68824, [68760]), (68825, [68761]), (68826, [68762]), (68827, [68763]),
    (68828, [68764]), (68829, [68765]), (68830, [68766]), (68831, [68767]), (68832, [68768]),
    (68833, [68769]), (68834, [68770]), (68835, [68771]), (68836, [68772]), (68837, [68773]),
    (68838, [68774]), (68839, [68775]), (68840, [68776]), (68841, [68777]), (68842, [68778]),
    (68843, [68779]), (68844, [68780]), (68845, [68781]), (68846, [68782]), (68847, [68783]),
    (68848, [68784]), (68849, [68785]), (68850, [68786]), (71872, [71840]), (71873, [71841]),
    (71874, [71842]), (71875, [71843]), (71876, [71844]), (71877, [71845]), (71878, [71846]),
    (71879, [71847]), (71880, [71848]), (71881, [71849]), (71882, [71850]), (71883, [71851]),
    (71884, [71852]), (71885, [71853]), (71886, [71854]), (71887, [71855]), (71888, [71856]),
    (71889, [71857]), (71890, [71858]), (71891, [71859]), (71892, [71860]), (71893, [71861]),
    (71894, [71862]), (71895, [71863]), (71896, [71864]), (71897, [71865]), (71898, [71866]),
    (71899, [71867]), (71900, [71868]), (71901, [71869]), (71902, [71870]), (71903, [71871]),
    (93792, [93760]), (93793, [93761]), (93794, [93762]), (93795, [93763]), (93796, [93764]),
    (93797, [93765]), (93798, [93766]), (93799, [93767]), (93800, [93768]), (93801, [93769]),
    (93802, [93770]), (93803, [93771]), (93804, [93772]), (93805, [93773]), (93806, [93774]),
    (93807, [93775]), (93808, [93776]), (93809, [93777]), (93810, [93778]), (93811, [93779]),
    (93812, [93780]), (93813, [93781]), (93814, [93782]), (93815, [93783]), (93816, [93784]),
    (93817, [93785]), (93818, [93786]), (93819, [93787]), (93820, [93788]), (93821, [93789]),
    (93822, [93790]), (93823, [93791]), (125218, [125184]), (125219, [125185]), (125220, [125186]),
    (125221, [125187]), (125222, [125188]), (125223, [125189]), (125224, [125190]),
    (125225, [125191]), (125226, [125192]), (125227, [125193]), (125228, [125194]),
    (125229, [125195]), (125230, [125196]), (125231, [125197]), (125232, [125198]),
    (125233, [125199]), (125234, [125200]), (125235, [125201]), (125236, [125202]),
    (125237, [125203]), (125238, [125204]), (125239, [125205]), (125240, [125206]),
    (125241, [125207]), (125242, [125208]), (125243, [125209]), (125244, [125210]),
    (125245, [125211]), (125246, [125212]), (125247, [125213]), (125248, [125214]),
    (125249, [125215]), (125250, [125216]), (125251, [125217])]

/-- The upper-case mapping of one character: `a` to `z` become `A` to `Z`, a
character of `unicodeUpper` becomes its listed code points, and any other
character is kept. -/
def upperOf (c : Char) : List Char :=
  if c.toNat < 128 then [c.toUpper]
  else match unicodeUpper.lookup c.toNat with
    | some l => l.map Char.ofNat
    | none => [c]

/-- The method `toUpperCase`: every character is replaced by its upper-case
mapping, which may be longer than one character (`ß` becomes `SS`). On ASCII
the mapping is the same in every engine; outside ASCII it is the one of the
Unicode version of `unicodeUpper`. -/
def toUpperCase (s : String) : String := String.mk (s.data.flatMap upperOf)

/-- The pieces of the template `generateTrophySVG` returns. -/
def documentPieces (p : Palette) (tierStyle : TierStyle) (username tier grade : String)
    (level score xpPercent : Int) (svgWidth svgHeight centerX mainCardX xpFilledW : Int)
    (badgeGroups : String) : List String :=
  [
    "\n", "<svg width=\"", num svgWidth, "\" height=\"", num svgHeight, "\" viewBox=\"0 0 ",
    num svgWidth, " ", num svgHeight,
    "\" xmlns=\"http://www.w3.org/2000/svg\" role=\"img\" aria-label=\"GitHub Trophy for ",
    username, "\">\n", "  <defs>\n",
    "    <linearGradient id=\"bgGrad\" x1=\"0\" x2=\"0\" y1=\"0\" y2=\"1\">\n",
    "      <stop offset=\"0%\" stop-color=\"", p.bg, "\"/>\n",
    "      <stop offset=\"100%\" stop-color=\"", p.bg_dark, "\"/>\n", "    </linearGradient>\n",
    "    <linearGradient id=\"xpGrad\" x1=\"0\" y1=\"0\" x2=\"1\" y2=\"0\">\n",
    "      <stop offset=\"0%\" stop-color=\"", p.glow, "\"/>\n",
    "      <stop offset=\"100%\" stop-color=\"", interp tierStyle.color, "\" />\n",
    "    </linearGradient>\n", "    <filter id=\"shadow\">\n",
    "      <feDropShadow dx=\"0\" dy=\"4\" stdDeviation=\"6\" flood-color=\"#000\" ",
    "flood-opacity=\"0.3\"/>\n", "    </filter>\n", "    <style>\n",
    "      .title \x7b font-family: \"Segoe UI\", Roboto, Arial, sans-serif; ",
    "font-size:22px; fill:", p.title_text, "; font-weight:800; \x7d\n",
    "      .meta \x7b font-family: \"Segoe UI\", Roboto, Arial, sans-serif; ",
    "font-size:14px; fill:", p.meta_text, "; \x7d\n",
    "      .small \x7b font-family: \"Segoe UI\", Roboto, Arial, sans-serif; ",
    "font-size:12px; fill:", p.meta_text, "; \x7d\n", "    </style>\n", "  </defs>\n", "\n",
    "  <rect width=\"100%\" height=\"100%\" fill=\"url(#bgGrad)\" />\n", "\n",
    "  <g transform=\"translate(", num mainCardX, ", ", num padding, ")\">\n",
    "    <rect x=\"0\" y=\"0\" rx=\"16\" width=\"", num mainCardW, "\" height=\"", num mainCardH,
    "\" fill=\"", p.card, "\" stroke=\"", p.card_edge,
    "\" stroke-width=\"2\" filter=\"url(#shadow)\"/>\n", "    \n",
    "    <g transform=\"translate(24, 24)\">\n",
    "      <rect x=\"0\" y=\"0\" rx=\"12\" width=\"", num trophySize, "\" height=\"",
    num (mainCardH - 48), "\" fill=\"", p.panel, "\" stroke=\"", interp tierStyle.edge,
    "\" stroke-width=\"1.5\"/>\n", "      <g transform=\"translate(", num (trophySize / 2), ", ",
    num (trophySize / 2), ")\">\n", "        <circle cx=\"0\" cy=\"0\" r=\"50\" fill=\"",
    interp tierStyle.color, "\" stroke=\"#00000040\" stroke-width=\"2\" />\n",
    "        <g transform=\"translate(-28, -28) scale(1)\">\n", "          ",
    iconMedalInner p.card, "\n", "        </g>\n",
    "        <text x=\"0\" y=\"68\" font-size=\"12\" font-family=\"Segoe UI, Roboto, Arial, ",
    "sans-serif\" fill=\"", p.text, "\" text-anchor=\"middle\" font-weight=\"700\">TIER: ",
    toUpperCase tier, "</text>\n", "      </g>\n", "    </g>\n", "\n",
    "    <g transform=\"translate(", num (trophySize + 48), ", 32)\">\n",
    "      <text class=\"title\" x=\"110\" y=\"0\" text-anchor=\"middle\">üèÜ GitHub ",
    "Trophy</text>\n", "      \n", "      <text class=\"meta\" x=\"0\" y=\"32\">\n",
    "        Score: <tspan fill=\"", p.accent_text, "\" font-weight=\"800\">", num score,
    "</tspan> ¬†‚Ä¢ ¬†\n", "        Grade: <tspan fill=\"", interp tierStyle.color,
    "\" font-weight=\"800\">", grade, "</tspan> ¬†‚Ä¢ ¬†\n", "        Level: <tspan fill=\"",
    p.glow, "\" font-weight=\"800\">", num level, "</tspan>\n", "      </text>\n", "\n",
    "      <g transform=\"translate(0,68)\">\n",
    "        <rect x=\"0\" y=\"0\" rx=\"7\" width=\"", num xpBarW,
    "\" height=\"14\" fill=\"#071018\" stroke=\"", p.panel_edge, "\" stroke-width=\"1\"/>\n",
    "        <rect x=\"0\" y=\"0\" rx=\"7\" width=\"", num xpFilledW,
    "\" height=\"14\" fill=\"url(#xpGrad)\"/>\n", "        <text x=\"", num (xpBarW + 12),
    "\" y=\"11\" class=\"small\">", num xpPercent, "% XP to Level ", num (level + 1),
    "</text>\n", "      </g>\n", "    </g>\n", "    \n", "    <g transform=\"translate(",
    num (mainCardW - 84), ", 18)\">\n",
    "      <rect x=\"0\" y=\"0\" rx=\"8\" width=\"60\" height=\"40\" fill=\"", p.panel,
    "\" stroke=\"", interp tierStyle.edge, "\" stroke-width=\"1.2\"/>\n",
    "      <text x=\"30\" y=\"26\" font-size=\"18\" text-anchor=\"middle\" ",
    "font-family=\"Segoe UI, Roboto, Arial, sans-serif\" fill=\"", interp tierStyle.color,
    "\" font-weight=\"900\">", grade, "</text>\n", "    </g>\n", "  </g>\n", "\n",
    "  <text x=\"", num centerX, "\" y=\"", num (badgeGridY - 10),
    "\" text-anchor=\"middle\" font-size=\"14\" fill=\"", p.meta_text,
    "\" font-weight=\"700\">ACHIEVEMENTS</text>\n", "\n", "  ", badgeGroups, "\n", "\n",
    "  <text x=\"", num centerX, "\" y=\"", num (svgHeight - 10),
    "\" text-anchor=\"middle\" class=\"small\" fill=\"", p.meta_text,
    "\">Powered by GitHub API | Made in Love By Anindya</text>\n", "</svg>\n"]

/-- The array `badges`: Stars, Repositories, Followers, in this order. -/
def badgesOf (stats : Stats) (tierStyle : TierStyle) : List Badge :=
  [ { label := "Stars", value := strOr (some stats.formatted_stars) "0",
      icon := iconStar (interp tierStyle.color) },
    { label := "Repositories", value := strOr (some stats.formatted_repos) "0",
      icon := iconRepo (interp tierStyle.color) },
    { label := "Followers", value := strOr (some stats.formatted_followers) "0",
      icon := iconUsers (interp tierStyle.color) } ]

/-- The list of pieces of the document, for a stats record, a theme and the
value of `parseInt(columns, 10)`. -/
def svgPieces (stats : Stats) (theme : String) (columns : Option Int) : List String :=
  let username := svgUsername stats
  let tier := strOr (some stats.tier) "Iron"
  let grade := strOr (some stats.grade) "D"
  let level := numOr (some stats.level) 0
  let score := numOr (some stats.score) 0
  let xpPercent := numOr (some stats.xpPercent) 0
  let p := getThemeColors theme
  let tierStyle := getTierStyles tier
  let c := usedColumns columns
  documentPieces p tierStyle username tier grade level score xpPercent (svgWidth c)
    (svgHeight c) (centerX c) (mainCardX c) (xpFilledW xpPercent)
    (badgeGroupsOf p c (badgesOf stats tierStyle))

/-- The function `generateTrophySVG`, for a stats record, a theme and the
value of `parseInt(columns, 10)`. -/
def generateTrophySVG (stats : Stats) (theme : String) (columns : Option Int) : String :=
  joinPieces (svgPieces stats theme columns)

/-! ## Sample inputs -/

/-- A profile with a login and a follower count, nothing else. -/
def soloUser (followers : Int) : JObject :=
  { login := some "octocat", followers := some followers }

/-- An HTTP client that serves `soloUser followers` and empty repository
pages. -/
def solo (followers : Int) : World :=
  { fetch := fun r =>
      match r with
      | .user => .ok ⟨200, .ok (.object (soloUser followers))⟩
      | .repos _ => .ok ⟨200, .ok (.list [])⟩ }

/-- Three repositories: an owned one, a fork, and an owned one without a
star count. -/
def sampleRepos : List Repo :=
  [⟨some false, some 5, some 2⟩, ⟨some true, some 50, some 20⟩, ⟨some false, none, some 1⟩]

/-- The list `sampleRepos` with other counts on the fork. -/
def sampleReposEdited : List Repo :=
  [⟨some false, some 5, some 2⟩, ⟨some true, some 7000, none⟩, ⟨some false, none, some 1⟩]

/-- A profile with three followers and the given `total_private_repos`. -/
def sampleUser (totalPrivate : Option Int) : JObject :=
  { login := some "octocat", followers := some 3, total_private_repos := totalPrivate }

/-- An HTTP client that serves the profile `user` and the list `items` on
every repository page. -/
def listWorld (user : JObject) (items : List Repo) : World :=
  { fetch := fun r =>
      match r with
      | .user => .ok ⟨200, .ok (.object user)⟩
      | .repos _ => .ok ⟨200, .ok (.list items)⟩ }

/-- One hundred forks. -/
def hundredForks : List Repo := List.replicate 100 ⟨some true, some 9, some 9⟩

/-- One hundred owned repositories with one star each. -/
def hundredOwned : List Repo := List.replicate 100 ⟨some false, some 1, none⟩

/-- An HTTP client whose profile request answers 404 and whose repository
pages all hold one hundred items. -/
def missingProfileWorld : World :=
  { fetch := fun r =>
      match r with
      | .user => .ok ⟨404, .ok (.object { message := some "Not Found" })⟩
      | .repos _ => .ok ⟨200, .ok (.list hundredOwned)⟩ }

/-- An HTTP client whose page 1 holds one hundred owned repositories and
whose later pages answer 503 with a body that is not JSON. -/
def shortWorld : World :=
  { fetch := fun r =>
      match r with
      | .user => .ok ⟨200, .ok (.object (sampleUser (some 0)))⟩
      | .repos p =>
        if p = 1 then .ok ⟨200, .ok (.list hundredOwned)⟩
        else .ok ⟨503, .error "Unexpected token"⟩ }

/-- An HTTP client whose pages 1 to 50 hold one hundred forks, whose page 51
holds one hundred owned repositories, and whose later pages answer 500. -/
def longWorld : World :=
  { fetch := fun r =>
      match r with
      | .user => .ok ⟨200, .ok (.object (sampleUser none))⟩
      | .repos p =>
        if p ≤ 50 then .ok ⟨200, .ok (.list hundredForks)⟩
        else if p = 51 then .ok ⟨200, .ok (.list hundredOwned)⟩
        else .ok ⟨500, .error "Unexpected token"⟩ }

/-- The number of the three badges that lie in row `r` when there are `c`
columns. -/
def badgesInRow (c r : Int) : Int :=
  (([0, 1, 2] : List Int).filter fun j => badgeRow c j = r).length

/-! ## The call from JavaScript -/

/-- UTF-16 decoding of a sequence of code units: the text, or `none` when a
surrogate is not paired. -/
def decodeUtf16 : List Nat → Option (List Char)
  | [] => some []
  | [u] => if 0xD800 ≤ u ∧ u ≤ 0xDFFF then none else some [Char.ofNat u]
  | u :: v :: rest =>
    if 0xD800 ≤ u ∧ u ≤ 0xDBFF then
      if 0xDC00 ≤ v ∧ v ≤ 0xDFFF then
        (decodeUtf16 rest).map
          (Char.ofNat (0x10000 + (u - 0xD800) * 0x400 + (v - 0xDC00)) :: ·)
      else none
    else if 0xDC00 ≤ u ∧ u ≤ 0xDFFF then none
    else (decodeUtf16 (v :: rest)).map (Char.ofNat u :: ·)

/-- What the promise an `async` function returns settles to: the value
returned, or the exception that left the function. -/
inductive Settled where
  | resolved (value : Result) : Settled
  | rejected (message : String) : Settled
  deriving DecidableEq, Repr

/-- A call `getGitHubStats(username)` whose argument is missing or is a
string given by its UTF-16 code units (lines 26-31): a falsy argument returns
at once; `encodeURIComponent`, which stands before the `try`, throws a
`URIError` on a string with an unpaired surrogate; any other string is a text
and the call goes on as `getGitHubStats` describes. -/
def getGitHubStatsCall (w : World) (username : Option (List Nat)) : Settled × List Req :=
  match username with
  | none => (.resolved (.error "Username required"), [])
  | some units =>
    if units = [] then (.resolved (.error "Username required"), [])
    else
      match decodeUtf16 units with
      | none => (.rejected "URI malformed", [])
      | some text => (.resolved (getGitHubStats w (String.mk text)).1,
          (getGitHubStats w (String.mk text)).2)

/-- The promise `userPromise` of line 35: the parsed profile, or the message
of the error it rejects with. -/
def userPromise (w : World) : Except String Json :=
  (w.fetch .user).bind (checkResponse · "GitHub user fetch failed.")

/-- The promise `reposPromise` of line 38: the parsed first page, or the
message of the error it rejects with. -/
def reposPromise (w : World) : Except String Json :=
  (w.fetch (.repos 1)).bind (checkResponse · "Initial repos fetch failed.")

/-- The place of a grade in the order D < C < B < A < A+. -/
def gradeRank (g : String) : Nat :=
  if g = "D" then 0
  else if g = "C" then 1
  else if g = "B" then 2
  else if g = "A" then 3
  else if g = "A+" then 4
  else 0

/-- The text `part` stands in `doc` as a contiguous run. -/
def Embeds (doc part : String) : Prop := ∃ before after, doc = before ++ part ++ after

/-- A stats record whose tier, grade and formatted values hold markup
characters. -/
def markupStats : Stats :=
  { username := some "octocat", name := "", avatar_url := none,
    formatted_followers := "<i>", formatted_stars := "&", formatted_repos := "<u>",
    score := 0, level := 0, xpPercent := 0, grade := "<b>", tier := "<s>" }

/-- A profile whose `public_repos` is 0. -/
def zeroReposUser : JObject := { login := some "octocat", public_repos := some 0 }

/-- The text of the error for a rate limit. -/
def rateLimitMessage : String :=
  "GitHub API rate limit exceeded. Set GITHUB_TOKEN for higher limits."

/-- The message the specification gives for a non-success response: with
`message` the message of the body when there is one that is not empty, and
the fallback text of the call otherwise, it is the rate-limit text when the
status is 403 and `message` contains `rate limit exceeded`, and `message`
otherwise. -/
def failureMessage (res : Response) (fallback : String) : String :=
  let message :=
    match (safeJson res).message with
    | some m => if m = "" then fallback else m
    | none => fallback
  if res.status = 403 ∧ includes message "rate limit exceeded" then rateLimitMessage
  else message

/-- An HTTP client whose profile request answers 404 with the message
`Not Found` and whose repository requests fail on the network, the failure
of page 1 coming first. -/
def flakyWorld : World :=
  { fetch := fun r =>
      match r with
      | .user => .ok ⟨404, .ok (.object { message := some "Not Found" })⟩
      | .repos _ => .error "socket hang up"
    reposSettlesFirst := true }

/-- The text holds none of the five characters `escapeXml` replaces. -/
def markupFree (s : String) : Bool := s.data.all fun c => !isXmlSpecial c

/-- The number of occurrences of the character `c` in the text `s`. -/
def charCount (c : Char) (s : String) : Nat := s.data.count c

/-- The counts the client delivers are not negative: `followers` and
`public_repos` of the profile, and `stargazers_count` and `forks_count` of
every item of every page, a missing count being read as 0. -/
def NonNegativeCounts (w : World) : Prop :=
  (∀ user, profileOf w = some user →
    0 ≤ user.followers.getD 0 ∧ 0 ≤ user.public_repos.getD 0) ∧
  ∀ p items, pageItems w p = some items →
    ∀ r ∈ items, 0 ≤ r.stargazers_count.getD 0 ∧ 0 ≤ r.forks_count.getD 0

/-- The texts `generateTrophySVG` takes from the stats record and embeds
without escaping: the tier in upper case, the grade, the score, the level,
the next level, the XP percentage, the width of the filled XP bar and the
three formatted values. -/
def unescapedTexts (stats : Stats) : List String :=
  [toUpperCase (strOr (some stats.tier) "Iron"), strOr (some stats.grade) "D",
    num (numOr (some stats.score) 0), num (numOr (some stats.level) 0),
    num (numOr (some stats.level) 0 + 1), num (numOr (some stats.xpPercent) 0),
    num (xpFilledW (numOr (some stats.xpPercent) 0)),
    strOr (some stats.formatted_stars) "0", strOr (some stats.formatted_repos) "0",
    strOr (some stats.formatted_followers) "0"]

/-- Every character of the text is an ASCII character: on such a text the
method `toUpperCase` changes the letters `a` to `z` only, whatever the
version of the Unicode tables of the engine. -/
def isAsciiText (s : String) : Bool := s.data.all fun c => decide (c.toNat < 128)

/-- A stats record with the tier `Gold`. -/
def goldStats : Stats :=
  { username := some "octocat", name := "", avatar_url := none,
    formatted_followers := "12", formatted_stars := "1,234", formatted_repos := "7",
    score := 1253, level := 25, xpPercent := 6, grade := "S", tier := "Gold" }

/-! ## Facts about getGitHubStats used throughout -/

theorem promiseAll_ok {α β : Type} (b : Bool) (x : Except String α) (y : Except String β)
    (p : α × β) (h : promiseAll b x y = .ok p) : x = .ok p.1 ∧ y = .ok p.2 := by
  cases x <;> cases y <;> simp [promiseAll] at h ⊢
  subst h; simp

/-- A success of `getGitHubStats` comes from a non-empty username, a profile
and a first page that passed `checkResponse`, and a loop that was left
without an exception. -/
theorem getGitHubStats_stats_inv (w : World) (username : String) (st : Stats)
    (h : (getGitHubStats w username).1 = Result.stats st) :
    username ≠ "" ∧ ∃ (ujson : Json) (first repos : List Repo) (u : JObject),
      (w.fetch .user).bind (checkResponse · "GitHub user fetch failed.") = .ok ujson ∧
      (w.fetch (.repos 1)).bind (checkResponse · "Initial repos fetch failed.")
        = .ok (.list first) ∧
      (collect w first).1 = .ok repos ∧ ujson.fields = some u ∧ st = aggregate u repos ∧
      (getGitHubStats w username).2 = .user :: .repos 1 :: (collect w first).2 := by
  unfold getGitHubStats at h ⊢
  split at h
  · simp at h
  next hu =>
    refine ⟨hu, ?_⟩
    simp only [hu, if_false] at h ⊢
    split at h
    · simp [caught] at h
    next user firstPageRepos hp =>
      have hp' := promiseAll_ok _ _ _ _ hp
      split at h
      next first =>
        split at h
        · simp [caught] at h
        next repos hr =>
          split at h
          · simp [caught] at h
          next u hf =>
            simp only [Result.stats.injEq] at h
            exact ⟨user, first, repos, u, hp'.1, hp'.2, hr, hf, h.symm, by simp [hr, hf]⟩
      · simp at h

/-- The derived fields of a success are computed from its score. -/
theorem stats_derived (w : World) (username : String) (st : Stats)
    (h : (getGitHubStats w username).1 = Result.stats st) :
    st.level = level st.score ∧ st.xpPercent = xpPercent st.score ∧
      st.grade = grade st.score ∧ st.tier = tier st.grade := by
  obtain ⟨-, _, _, _, _, -, -, -, -, rfl, -⟩ := getGitHubStats_stats_inv w username st h
  simp [aggregate]

theorem grade_cases (s : Int) :
    grade s = "A+" ∨ grade s = "A" ∨ grade s = "B" ∨ grade s = "C" ∨ grade s = "D" := by
  unfold grade
  split_ifs <;> simp

theorem tier_inj_on_grades (g h : String)
    (hg : g = "A+" ∨ g = "A" ∨ g = "B" ∨ g = "C" ∨ g = "D")
    (hh : h = "A+" ∨ h = "A" ∨ h = "B" ∨ h = "C" ∨ h = "D")
    (e : tier g = tier h) : g = h := by
  rcases hg with rfl | rfl | rfl | rfl | rfl <;> rcases hh with rfl | rfl | rfl | rfl | rfl <;>
    first | rfl | (exact absurd e (by decide))

/-! ## Pagination and aggregation lemmas -/

theorem pageItems_eq_some (w : World) (p : Nat) (items : List Repo) :
    pageItems w p = some items ↔
      ∃ res, w.fetch (.repos p) = .ok res ∧ res.ok = true ∧ safeJson res = .list items := by
  unfold pageItems safeJson
  constructor
  · intro h
    split at h
    next res hres =>
      refine ⟨res, hres, ?_⟩
      split at h
      next hok =>
        split at h
        next it hb => simp at h; subst h; simp [hok, hb]
        · simp at h
      · simp at h
    · simp at h
  · rintro ⟨res, hres, hok, hj⟩
    rw [hres]
    simp only [hok, if_true]
    split at hj
    next j hb => subst hj; simp [hb]
    · simp at hj

theorem paginate_throw (w : World) (page : Nat) (repos : List Repo) (e : String)
    (h : w.fetch (.repos page) = .error e) :
    paginate w page repos = (.error e, [.repos page]) := by
  rw [paginate, h]

theorem paginate_stop (w : World) (page : Nat) (repos : List Repo) (res : Response)
    (h : w.fetch (.repos page) = .ok res)
    (hs : res.ok = false ∨ (∀ data, safeJson res ≠ .list data) ∨ safeJson res = .list []) :
    paginate w page repos = (.ok repos, [.repos page]) := by
  rw [paginate, h]
  simp only
  by_cases hok : res.ok = true
  · simp only [hok, Bool.not_true, Bool.false_eq_true, if_false]
    rcases hs with hs | hs | hs
    · simp [hok] at hs
    · split
      next data hd => exact absurd hd (hs data)
      · rfl
    · rw [hs]; simp
  · simp [hok]

theorem paginate_last (w : World) (page : Nat) (repos data : List Repo)
    (h : pageItems w page = some data) (hne : data ≠ [])
    (hl : data.length < 100 ∨ 50 ≤ page) :
    paginate w page repos = (.ok (repos ++ data.filter isOwned), [.repos page]) := by
  obtain ⟨res, hres, hok, hj⟩ := (pageItems_eq_some w page data).1 h
  rw [paginate, hres]
  have hlen : data.length ≠ 0 := by simpa using hne
  simp only [hok, hj, Bool.not_true, Bool.false_eq_true, if_false, hlen]
  rcases hl with hl | hl
  · simp [hl]
  · by_cases h1 : data.length < 100
    · simp [h1]
    · simp [h1, hl]

theorem paginate_next (w : World) (page : Nat) (repos data : List Repo)
    (h : pageItems w page = some data) (hl : 100 ≤ data.length) (hp : page < 50) :
    paginate w page repos =
      ((paginate w (page + 1) (repos ++ data.filter isOwned)).1,
        .repos page :: (paginate w (page + 1) (repos ++ data.filter isOwned)).2) := by
  obtain ⟨res, hres, hok, hj⟩ := (pageItems_eq_some w page data).1 h
  rw [paginate, hres]
  have hlen : data.length ≠ 0 := by omega
  have h1 : ¬ data.length < 100 := by omega
  have h2 : ¬ page ≥ 50 := by omega
  simp only [hok, hj, Bool.not_true, Bool.false_eq_true, if_false, hlen, h1, h2]

theorem checkResponse_ok (res : Response) (msg : String) (j : Json) :
    checkResponse res msg = .ok j ↔ res.ok = true ∧ res.body = .ok j := by
  unfold checkResponse
  by_cases hok : res.ok = true
  · simp [hok]
  · simp only [hok]
    simp only [Bool.not_eq_true] at hok
    simp only [hok, Bool.not_false, if_true]
    split <;> simp

theorem bind_checkResponse_ok (x : Except String Response) (msg : String) (j : Json) :
    x.bind (checkResponse · msg) = .ok j ↔
      ∃ res, x = .ok res ∧ res.ok = true ∧ res.body = .ok j := by
  cases x with
  | error e => simp [Except.bind]
  | ok res => simp [Except.bind, checkResponse_ok]

theorem profileOf_eq_some (w : World) (u : JObject) :
    profileOf w = some u ↔
      ∃ j, (w.fetch .user).bind (checkResponse · "GitHub user fetch failed.") = .ok j ∧
        j.fields = some u := by
  simp only [bind_checkResponse_ok]
  unfold profileOf
  constructor
  · intro h
    split at h
    next res hres =>
      split at h
      next hok =>
        split at h
        next j hb => exact ⟨j, ⟨res, hres, hok, hb⟩, h⟩
        · simp at h
      · simp at h
    · simp at h
  · rintro ⟨j, ⟨res, hres, hok, hb⟩, hf⟩
    rw [hres]
    simp [hok, hb, hf]

theorem pageItems_one (w : World) (first : List Repo) :
    pageItems w 1 = some first ↔
      (w.fetch (.repos 1)).bind (checkResponse · "Initial repos fetch failed.")
        = .ok (.list first) := by
  rw [bind_checkResponse_ok, pageItems_eq_some]
  constructor
  · rintro ⟨res, hres, hok, hj⟩
    refine ⟨res, hres, hok, ?_⟩
    unfold safeJson at hj
    split at hj
    next j hb => rw [hb, hj]
    · simp at hj
  · rintro ⟨res, hres, hok, hb⟩
    exact ⟨res, hres, hok, by simp [safeJson, hb]⟩

theorem fullPage_iff (w : World) (p : Nat) :
    fullPage w p = true ↔ ∃ items, pageItems w p = some items ∧ items.length = 100 := by
  unfold fullPage
  cases pageItems w p <;> simp

theorem itemsFrom_succ (w : World) (p n : Nat) :
    itemsFrom w p (n + 1) = itemsOf w p ++ itemsFrom w (p + 1) n := by
  simp [itemsFrom, List.range'_succ]

theorem paginate_run (w : World) (m : Nat) :
    ∀ (page : Nat) (repos : List Repo), page + m ≤ 50 →
      (∀ i, i < m → fullPage w (page + i) = true) →
      paginate w page repos =
        ((paginate w (page + m) (repos ++ (itemsFrom w page m).filter isOwned)).1,
          (List.range' page m).map Req.repos ++
            (paginate w (page + m) (repos ++ (itemsFrom w page m).filter isOwned)).2) := by
  induction m with
  | zero => intro page repos _ _; simp [itemsFrom]
  | succ m ih =>
    intro page repos hp hfull
    obtain ⟨data, hd, hlen⟩ := (fullPage_iff w page).1 (by simpa using hfull 0 (by omega))
    rw [paginate_next w page repos data hd (by omega) (by omega)]
    have hfull' : ∀ i, i < m → fullPage w (page + 1 + i) = true := fun i hi => by
      have := hfull (i + 1) (by omega)
      rwa [show page + (i + 1) = page + 1 + i by omega] at this
    rw [ih (page + 1) _ (by omega) hfull']
    have e : page + 1 + m = page + (m + 1) := by omega
    have hi : itemsOf w page = data := by simp [itemsOf, hd]
    rw [e, itemsFrom_succ, hi]
    simp [List.range'_succ, List.append_assoc]

theorem getGitHubStats_of_collect (w : World) (username : String) (u : JObject)
    (first repos : List Repo) (t : List Req) (hu : username ≠ "")
    (hprof : profileOf w = some u) (hfirst : pageItems w 1 = some first)
    (hc : collect w first = (.ok repos, t)) :
    getGitHubStats w username = (.stats (aggregate u repos), .user :: .repos 1 :: t) := by
  obtain ⟨j, hj, hf⟩ := (profileOf_eq_some w u).1 hprof
  have h1 := (pageItems_one w first).1 hfirst
  unfold getGitHubStats
  simp only [hu, if_false, hj, h1, promiseAll, hc, hf]

theorem getGitHubStats_trace_cases (w : World) (username : String) :
    (getGitHubStats w username).2 = [] ∨ (getGitHubStats w username).2 = [.user, .repos 1] ∨
      ∃ first, (getGitHubStats w username).2 = .user :: .repos 1 :: (collect w first).2 := by
  unfold getGitHubStats
  split
  · simp
  · simp only
    split
    · simp
    · split
      next _ first _ =>
        refine Or.inr (Or.inr ⟨first, ?_⟩)
        split
        · rfl
        · split <;> rfl
      · simp

theorem paginate_trace (w : World) (page : Nat) (repos : List Repo) :
    ∃ n, 1 ≤ n ∧ (page ≤ 50 → page + n ≤ 51) ∧
      (paginate w page repos).2 = (List.range' page n).map Req.repos := by
  induction page, repos using paginate.induct w with
  | case1 page repos e h => exact ⟨1, le_refl _, by omega, by rw [paginate_throw w page repos e h]; rfl⟩
  | case2 page repos res h hok =>
    refine ⟨1, le_refl _, by omega, ?_⟩
    rw [paginate_stop w page repos res h (Or.inl (by simpa using hok))]; rfl
  | case3 page repos res h hok data hd hlen =>
    refine ⟨1, le_refl _, by omega, ?_⟩
    have : data = [] := by simpa using hlen
    rw [paginate_stop w page repos res h (Or.inr (Or.inr (by rw [hd, this])))]; rfl
  | case4 page repos res h hok data hd hne hlt =>
    refine ⟨1, le_refl _, by omega, ?_⟩
    have hp : pageItems w page = some data :=
      (pageItems_eq_some w page data).2 ⟨res, h, by simpa using hok, hd⟩
    rw [paginate_last w page repos data hp (by simpa using hne) (Or.inl hlt)]; rfl
  | case5 page repos res h hok data hd hne hlt hge =>
    refine ⟨1, le_refl _, by omega, ?_⟩
    have hp : pageItems w page = some data :=
      (pageItems_eq_some w page data).2 ⟨res, h, by simpa using hok, hd⟩
    rw [paginate_last w page repos data hp (by simpa using hne) (Or.inr hge)]; rfl
  | case6 page repos res h hok data hd hne repos' hlt hge ih =>
    obtain ⟨n, hn1, hn2, hn3⟩ := ih
    refine ⟨n + 1, by omega, by omega, ?_⟩
    have hp : pageItems w page = some data :=
      (pageItems_eq_some w page data).2 ⟨res, h, by simpa using hok, hd⟩
    rw [paginate_next w page repos data hp (by omega) (by omega)]
    simp only [List.range'_succ, List.map_cons]
    rw [← hn3]
  | case7 page repos res h hok hnl =>
    refine ⟨1, le_refl _, by omega, ?_⟩
    rw [paginate_stop w page repos res h (Or.inr (Or.inl (fun data hd => hnl data hd)))]; rfl

theorem paginate_ok_inv (w : World) (page : Nat) (repos : List Repo) :
    ∀ out, (paginate w page repos).1 = .ok out →
      ∃ m, (page ≤ 50 → page + m ≤ 51) ∧ (∀ i, i < m → (pageItems w (page + i)).isSome) ∧
        out = repos ++ (itemsFrom w page m).filter isOwned ∧
        ((paginate w page repos).2 = (List.range' page m).map Req.repos ∨
          (paginate w page repos).2 = (List.range' page (m + 1)).map Req.repos) := by
  induction page, repos using paginate.induct w with
  | case1 page repos e h =>
    intro out ho; rw [paginate_throw w page repos e h] at ho; simp at ho
  | case2 page repos res h hok =>
    intro out ho
    rw [paginate_stop w page repos res h (Or.inl (by simpa using hok))] at ho ⊢
    exact ⟨0, by omega, by omega, by simpa [itemsFrom] using ho.symm, Or.inr rfl⟩
  | case3 page repos res h hok data hd hlen =>
    intro out ho
    have : data = [] := by simpa using hlen
    rw [paginate_stop w page repos res h (Or.inr (Or.inr (by rw [hd, this])))] at ho ⊢
    exact ⟨0, by omega, by omega, by simpa [itemsFrom] using ho.symm, Or.inr rfl⟩
  | case4 page repos res h hok data hd hne hlt =>
    intro out ho
    have hp : pageItems w page = some data :=
      (pageItems_eq_some w page data).2 ⟨res, h, by simpa using hok, hd⟩
    rw [paginate_last w page repos data hp (by simpa using hne) (Or.inl hlt)] at ho ⊢
    refine ⟨1, by omega, ?_, ?_, Or.inl rfl⟩
    · intro i hi
      have : i = 0 := by omega
      subst this; simp [hp]
    · simpa [itemsFrom, itemsOf, hp] using ho.symm
  | case5 page repos res h hok data hd hne hlt hge =>
    intro out ho
    have hp : pageItems w page = some data :=
      (pageItems_eq_some w page data).2 ⟨res, h, by simpa using hok, hd⟩
    rw [paginate_last w page repos data hp (by simpa using hne) (Or.inr hge)] at ho ⊢
    refine ⟨1, by omega, ?_, ?_, Or.inl rfl⟩
    · intro i hi
      have : i = 0 := by omega
      subst this; simp [hp]
    · simpa [itemsFrom, itemsOf, hp] using ho.symm
  | case6 page repos res h hok data hd hne repos' hlt hge ih =>
    intro out ho
    have hp : pageItems w page = some data :=
      (pageItems_eq_some w page data).2 ⟨res, h, by simpa using hok, hd⟩
    rw [paginate_next w page repos data hp (by omega) (by omega)] at ho ⊢
    obtain ⟨m, hm1, hm2, hm3, hm4⟩ := ih out ho
    refine ⟨m + 1, by omega, ?_, ?_, ?_⟩
    · intro i hi
      rcases Nat.eq_zero_or_pos i with rfl | hpos
      · simp [hp]
      · have := hm2 (i - 1) (by omega)
        rwa [show page + 1 + (i - 1) = page + i by omega] at this
    · rw [hm3, itemsFrom_succ]
      simp [repos', itemsOf, hp, List.append_assoc]
    · rcases hm4 with hm4 | hm4
      · left; simp only [List.range'_succ, List.map_cons]; rw [← hm4]
      · right; rw [List.range'_succ (page) (m + 1)]; simp only [List.map_cons]; rw [← hm4]
  | case7 page repos res h hok hnl =>
    intro out ho
    rw [paginate_stop w page repos res h (Or.inr (Or.inl (fun data hd => hnl data hd)))] at ho ⊢
    exact ⟨0, by omega, by omega, by simpa [itemsFrom] using ho.symm, Or.inr rfl⟩

theorem numOr_zero (x : Option Int) : numOr x 0 = x.getD 0 := by
  cases x with
  | none => rfl
  | some n =>
    by_cases h : n = 0
    · simp [numOr, h]
    · simp [numOr, h]

theorem foldl_add_eq_sum (f : Repo → Int) (l : List Repo) :
    ∀ a : Int, l.foldl (fun sum r => sum + f r) a = a + (l.map f).sum := by
  induction l with
  | nil => intro a; simp
  | cons r l ih => intro a; simp [ih, add_assoc]

theorem isOwned_eq_notFork : isOwned = notFork := by
  funext r
  rcases r with ⟨_ | _ | _, _, _⟩ <;> rfl

theorem starSum_filter (items : List Repo) : starSum (items.filter isOwned) = starCount items := by
  unfold starSum starCount
  rw [foldl_add_eq_sum, isOwned_eq_notFork]
  simp [numOr_zero]

theorem forksOf_filter (user : JObject) (items : List Repo) :
    forksOf user (items.filter isOwned) = forkCount user items := by
  unfold forksOf forkCount forkSum
  rw [foldl_add_eq_sum, isOwned_eq_notFork]
  simp [numOr_zero]

theorem collect_ok_inv (w : World) (first repos : List Repo)
    (hfirst : pageItems w 1 = some first) (h : (collect w first).1 = .ok repos) :
    ∃ n, 1 ≤ n ∧ n ≤ 50 ∧ (∀ p, 1 ≤ p → p ≤ n → (pageItems w p).isSome) ∧
      repos = (itemsFrom w 1 n).filter isOwned ∧
      ((collect w first).2 = (List.range' 2 (n - 1)).map Req.repos ∨
        (collect w first).2 = (List.range' 2 n).map Req.repos) := by
  have h1 : itemsFrom w 1 1 = first := by simp [itemsFrom, itemsOf, hfirst]
  unfold collect at h ⊢
  by_cases hl : first.length = 100
  · simp only [hl, if_true] at h ⊢
    obtain ⟨m, hm1, hm2, hm3, hm4⟩ := paginate_ok_inv w 2 _ repos h
    refine ⟨m + 1, by omega, by omega, ?_, ?_, ?_⟩
    · intro p hp1 hp2
      rcases Nat.lt_or_ge p 2 with hlt | hge
      · have : p = 1 := by omega
        subst this; simp [hfirst]
      · have := hm2 (p - 2) (by omega)
        rwa [show 2 + (p - 2) = p by omega] at this
    · rw [hm3, itemsFrom_succ]
      simp [itemsOf, hfirst]
    · simpa using hm4
  · simp only [hl, if_false, Except.ok.injEq] at h ⊢
    exact ⟨1, le_refl _, by omega, fun p hp1 hp2 => by
      have : p = 1 := by omega
      subst this; simp [hfirst], by rw [h1]; exact h.symm, Or.inl (by simp)⟩

theorem success_decomp (w : World) (username : String) (st : Stats)
    (h : (getGitHubStats w username).1 = Result.stats st) :
    ∃ (user : JObject) (n : Nat), profileOf w = some user ∧ 1 ≤ n ∧ n ≤ 50 ∧
      (∀ p, 1 ≤ p → p ≤ n → (pageItems w p).isSome) ∧
      st = aggregate user ((itemsFrom w 1 n).filter isOwned) ∧
      ((getGitHubStats w username).2 = .user :: (List.range' 1 n).map Req.repos ∨
        (getGitHubStats w username).2 = .user :: (List.range' 1 (n + 1)).map Req.repos) := by
  obtain ⟨-, ujson, first, repos, u, hu, hf, hc, hfields, hst, htr⟩ :=
    getGitHubStats_stats_inv w username st h
  have hfirst := (pageItems_one w first).2 hf
  obtain ⟨n, hn1, hn2, hn3, hn4, hn5⟩ := collect_ok_inv w first repos hfirst hc
  refine ⟨u, n, (profileOf_eq_some w u).2 ⟨ujson, hu, hfields⟩, hn1, hn2, hn3, ?_, ?_⟩
  · rw [hst, hn4]
  · rw [htr]
    obtain ⟨k, rfl⟩ : ∃ k, n = k + 1 := ⟨n - 1, by omega⟩
    rcases hn5 with hn5 | hn5
    · left; rw [hn5]; simp [List.range'_succ]
    · right; rw [hn5]; simp [List.range'_succ]

theorem aggregate_score (user : JObject) (items : List Repo) :
    (aggregate user (items.filter isOwned)).score =
      starCount items + forkCount user items + followerCount user := by
  simp only [aggregate, rawScore, starSum_filter, forksOf_filter, numOr_zero, followerCount]

/-! ## Fork edits leave the run unchanged -/

theorem filter_sameUpToForks (l l' : List Repo) (h : List.Forall₂ sameUpToForks l l') :
    l.filter isOwned = l'.filter isOwned ∧ l.length = l'.length := by
  induction h with
  | nil => simp
  | @cons a b l₁ l₂ hr _ ih =>
    obtain ⟨ih1, ih2⟩ := ih
    rcases hr with rfl | ⟨h1, h2⟩
    · simp [List.filter_cons, ih1, ih2]
    · have ha : isOwned a = false := by simp [isOwned, h1]
      have hb : isOwned b = false := by simp [isOwned, h2]
      simp [List.filter_cons, ha, hb, ih1, ih2]

theorem sameJson_message (j j' : Json) (h : sameJson j j') : j.message = j'.message := by
  cases j <;> cases j' <;> simp [sameJson] at h <;> simp [Json.message, h]

theorem sameJson_nonlist (j j' : Json) (h : sameJson j j') (hn : ∀ l, j ≠ .list l) : j = j' := by
  cases j with
  | list l => exact absurd rfl (hn l)
  | null => cases j' <;> simp [sameJson] at h ⊢
  | object o => cases j' <;> simp [sameJson] at h ⊢; exact h

/-- What `sameResponse` says of two responses, through `safeJson`. -/
theorem sameResponse_ok (r r' : Response) (h : sameResponse (.ok r) (.ok r')) :
    r.status = r'.status ∧ r.ok = r'.ok ∧ sameJson (safeJson r) (safeJson r') ∧
      ((∃ j j', r.body = .ok j ∧ r'.body = .ok j' ∧ sameJson j j') ∨ r.body = r'.body) := by
  obtain ⟨hs, hb⟩ := h
  refine ⟨hs, by simp [Response.ok, hs], ?_, ?_⟩
  · unfold safeJson
    cases hr : r.body <;> cases hr' : r'.body <;> simp [hr, hr'] at hb ⊢
    · simp [sameJson]
    · exact hb
  · cases hr : r.body <;> cases hr' : r'.body <;> simp [hr, hr'] at hb ⊢
    · exact hb
    · exact Or.inl hb

theorem sameJson_list (l : List Repo) (j' : Json) (h : sameJson (.list l) j') :
    ∃ l', j' = .list l' ∧ List.Forall₂ sameUpToForks l l' := by
  cases j' with
  | list l' => exact ⟨l', rfl, h⟩
  | null => simp [sameJson] at h
  | object o => simp [sameJson] at h

theorem paginate_step_congr (w w' : World) (h : ForkEdit w w') (page : Nat)
    (hrec : page < 50 → ∀ repos, paginate w (page + 1) repos = paginate w' (page + 1) repos)
    (repos : List Repo) : paginate w page repos = paginate w' page repos := by
  have hp := h.pages page
  cases hx : w.fetch (.repos page) with
  | error e =>
    cases hx' : w'.fetch (.repos page) with
    | error e' =>
      rw [hx, hx'] at hp
      rw [paginate_throw w page repos e hx, paginate_throw w' page repos e' hx']
      simp only [sameResponse] at hp
      rw [hp]
    | ok r' => rw [hx, hx'] at hp; simp [sameResponse] at hp
  | ok r =>
    cases hx' : w'.fetch (.repos page) with
    | error e' => rw [hx, hx'] at hp; simp [sameResponse] at hp
    | ok r' =>
      rw [hx, hx'] at hp
      obtain ⟨-, hok, hj, -⟩ := sameResponse_ok r r' hp
      rw [paginate.eq_1 w page repos, paginate.eq_1 w' page repos]
      simp only [hx, hx', ← hok]
      by_cases hr : r.ok = true
      · simp only [hr, Bool.not_true, Bool.false_eq_true, if_false]
        cases hs : safeJson r with
        | list l =>
          rw [hs] at hj
          obtain ⟨l', hl', hfa⟩ := sameJson_list l _ hj
          obtain ⟨hf, hlen⟩ := filter_sameUpToForks l l' hfa
          simp only [hl', ← hf, ← hlen]
          by_cases h0 : l.length = 0
          · simp [h0]
          · by_cases h1 : l.length < 100
            · simp [h0, h1]
            · by_cases h2 : page ≥ 50
              · simp [h0, h1, h2]
              · simp only [h0, h1, h2, if_false]
                rw [hrec (by omega)]
        | null =>
          have := sameJson_nonlist _ _ hj (by rw [hs]; intro l; simp)
          rw [← this, hs]
        | object o =>
          have := sameJson_nonlist _ _ hj (by rw [hs]; intro l; simp)
          rw [← this, hs]
      · simp [hr]

theorem paginate_congr (w w' : World) (h : ForkEdit w w') (d : Nat) :
    ∀ page repos, 50 - page ≤ d → paginate w page repos = paginate w' page repos := by
  induction d with
  | zero =>
    intro page repos hd
    exact paginate_step_congr w w' h page (fun hlt => by omega) repos
  | succ d ih =>
    intro page repos hd
    exact paginate_step_congr w w' h page (fun hlt repos' => ih (page + 1) repos' (by omega)) repos

theorem collect_congr (w w' : World) (h : ForkEdit w w') (first first' : List Repo)
    (hf : List.Forall₂ sameUpToForks first first') : collect w first = collect w' first' := by
  obtain ⟨hfil, hlen⟩ := filter_sameUpToForks first first' hf
  unfold collect
  rw [← hfil, ← hlen, paginate_congr w w' h 50 2 _ (by omega)]

theorem checkResponse_congr (x x' : Except String Response) (msg : String)
    (h : sameResponse x x') :
    (∃ e, x.bind (checkResponse · msg) = .error e ∧ x'.bind (checkResponse · msg) = .error e) ∨
    (∃ j j', x.bind (checkResponse · msg) = .ok j ∧ x'.bind (checkResponse · msg) = .ok j' ∧
      sameJson j j') := by
  cases x with
  | error e =>
    cases x' with
    | error e' => simp only [sameResponse] at h; subst h; exact Or.inl ⟨e, rfl, rfl⟩
    | ok r' => simp [sameResponse] at h
  | ok r =>
    cases x' with
    | error e' => simp [sameResponse] at h
    | ok r' =>
      obtain ⟨hs, hok, hj, hb⟩ := sameResponse_ok r r' h
      simp only [Except.bind, checkResponse, ← hok, ← hs, ← sameJson_message _ _ hj]
      by_cases hr : r.ok = true
      · simp only [hr, Bool.not_true, Bool.false_eq_true, if_false]
        rcases hb with ⟨j, j', h1, h2, h3⟩ | hb
        · exact Or.inr ⟨j, j', h1, h2, h3⟩
        · rw [← hb]
          cases hbody : r.body with
          | error e => exact Or.inl ⟨e, rfl, rfl⟩
          | ok j =>
            refine Or.inr ⟨j, j, rfl, rfl, ?_⟩
            cases j <;> simp [sameJson]
            exact fun _ _ => Or.inl rfl
      · simp only [hr]
        simp only [Bool.not_eq_true] at hr
        simp only [Bool.not_false, if_true]
        split
        · exact Or.inl ⟨_, rfl, rfl⟩
        · exact Or.inl ⟨_, rfl, rfl⟩

theorem getGitHubStats_congr (w w' : World) (h : ForkEdit w w') (username : String) :
    getGitHubStats w username = getGitHubStats w' username := by
  unfold getGitHubStats
  by_cases hu : username = ""
  · simp [hu]
  · simp only [hu, if_false, ← h.user, ← h.order]
    rcases checkResponse_congr _ _ "Initial repos fetch failed." (h.pages 1) with
      ⟨e, h1, h2⟩ | ⟨j, j', h1, h2, hj⟩
    · rw [h1, h2]
      cases (w.fetch .user).bind (checkResponse · "GitHub user fetch failed.") <;>
        simp [promiseAll]
    · rw [h1, h2]
      cases huser : (w.fetch .user).bind (checkResponse · "GitHub user fetch failed.") with
      | error e => simp [promiseAll]
      | ok uj =>
        simp only [promiseAll]
        cases j with
        | list l =>
          obtain ⟨l', rfl, hfa⟩ := sameJson_list l _ hj
          simp only [collect_congr w w' h l l' hfa]
        | null =>
          have := sameJson_nonlist _ _ hj (by intro l; simp)
          rw [← this]
        | object o =>
          have := sameJson_nonlist _ _ hj (by intro l; simp)
          rw [← this]

/-! ## Grade, level, XP and tier -/

/-- C1: the grade of a result of `getGitHubStats` is a function of its score
alone, and it is A+ from 300, A from 200 to 299, B from 100 to 199, C from 50
to 99 and D below 50. -/
theorem grade_thresholds (w : World) (username : String) (st : Stats)
    (h : (getGitHubStats w username).1 = Result.stats st) :
    st.grade = grade st.score ∧
    (300 ≤ st.score → st.grade = "A+") ∧
    (200 ≤ st.score → st.score < 300 → st.grade = "A") ∧
    (100 ≤ st.score → st.score < 200 → st.grade = "B") ∧
    (50 ≤ st.score → st.score < 100 → st.grade = "C") ∧
    (st.score < 50 → st.grade = "D") := by
  obtain ⟨-, -, hg, -⟩ := stats_derived w username st h
  rw [hg]
  unfold grade
  refine ⟨rfl, ?_, ?_, ?_, ?_, ?_⟩ <;> intros <;> split_ifs <;> first | rfl | omega

theorem grade_thresholds_witness :
    (getGitHubStats (solo 250) "octocat").1 = Result.stats (aggregate (soloUser 250) []) ∧
    (aggregate (soloUser 250) []).score = 250 ∧
    (aggregate (soloUser 250) []).grade = grade (aggregate (soloUser 250) []).score ∧
    (200 ≤ (aggregate (soloUser 250) []).score → (aggregate (soloUser 250) []).score < 300 →
      (aggregate (soloUser 250) []).grade = "A") :=
  ⟨rfl, rfl, (grade_thresholds (solo 250) "octocat" _ rfl).1,
    (grade_thresholds (solo 250) "octocat" _ rfl).2.2.1⟩

/-- C2, as stated, fails: a profile with 299 followers and no repositories
has score 299 and its grade is A, not B. -/
theorem grade_299_is_A_not_B :
    ∃ st, (getGitHubStats (solo 299) "octocat").1 = Result.stats st ∧
      st.score = 299 ∧ st.grade = "A" ∧ st.grade ≠ "B" :=
  ⟨aggregate (soloUser 299) [], rfl, rfl, rfl, by decide⟩

/-- C2, amended: at the boundaries the grade is 299 ↦ A, 300 ↦ A+, 199 ↦ B,
200 ↦ A, 99 ↦ C, 100 ↦ B, 49 ↦ D, 50 ↦ C. -/
theorem grade_boundaries :
    grade 299 = "A" ∧ grade 300 = "A+" ∧ grade 199 = "B" ∧ grade 200 = "A" ∧
    grade 99 = "C" ∧ grade 100 = "B" ∧ grade 49 = "D" ∧ grade 50 = "C" := by
  decide

/-- C3: for a score `s ≥ 0`, the level is the floor of `s / 50`, the XP
percentage is `min 100 ((s mod 50) * 2)` and lies in `[0, 100]`, a result of
`getGitHubStats` with that score reports exactly these, and the three worked
examples hold. -/
theorem level_xpPercent_spec (s : Int) (hs : 0 ≤ s) :
    (level s = ⌊(s : ℚ) / 50⌋ ∧ xpPercent s = min 100 (s % 50 * 2) ∧
      0 ≤ xpPercent s ∧ xpPercent s ≤ 100) ∧
    (∀ w username st, (getGitHubStats w username).1 = Result.stats st → st.score = s →
      st.level = ⌊(s : ℚ) / 50⌋ ∧ st.xpPercent = min 100 (s % 50 * 2)) ∧
    (level 49 = 0 ∧ xpPercent 49 = 98 ∧ level 50 = 1 ∧ xpPercent 50 = 0 ∧
      level 349 = 6 ∧ xpPercent 349 = 98) := by
  have h1 : level s = s / 50 := by
    unfold level
    exact Int.fdiv_eq_ediv s (by decide)
  have h2 : Int.tmod s 50 = s % 50 := Int.tmod_eq_emod hs (by decide)
  have h3 : level s = ⌊(s : ℚ) / 50⌋ := by
    rw [h1]
    have := Rat.floor_intCast_div_natCast s 50
    simpa using this.symm
  have h4 : xpPercent s = min 100 (s % 50 * 2) := by unfold xpPercent; rw [h2]
  refine ⟨⟨h3, h4, ?_, ?_⟩, ?_, by decide⟩
  · rw [h4]; omega
  · rw [h4]; omega
  · intro w username st h hsc
    obtain ⟨hl, hx, -, -⟩ := stats_derived w username st h
    rw [hl, hx, hsc]
    exact ⟨h3, h4⟩

theorem level_xpPercent_spec_witness :
    (0 : Int) ≤ 349 ∧ level 349 = ⌊((349 : Int) : ℚ) / 50⌋ ∧
      xpPercent 349 = min 100 ((349 : Int) % 50 * 2) ∧ xpPercent 349 ≤ 100 :=
  ⟨by decide, (level_xpPercent_spec 349 (by decide)).1.1,
    (level_xpPercent_spec 349 (by decide)).1.2.1, (level_xpPercent_spec 349 (by decide)).1.2.2.2⟩

/-- C4: the tier of a result is a function of its grade alone; that function
sends A+, A, B, C, D to Mythic, Legendary, Gold, Silver, Iron, is a bijection
between the five grades and the five tiers, and two results have the same
tier exactly when they have the same grade. -/
theorem tier_bijection (w₁ w₂ : World) (u₁ u₂ : String) (st₁ st₂ : Stats)
    (h₁ : (getGitHubStats w₁ u₁).1 = Result.stats st₁)
    (h₂ : (getGitHubStats w₂ u₂).1 = Result.stats st₂) :
    st₁.tier = tier st₁.grade ∧
    (st₁.tier = st₂.tier ↔ st₁.grade = st₂.grade) ∧
    (tier "A+" = "Mythic" ∧ tier "A" = "Legendary" ∧ tier "B" = "Gold" ∧
      tier "C" = "Silver" ∧ tier "D" = "Iron") ∧
    Set.BijOn tier ({"A+", "A", "B", "C", "D"} : Set String)
      ({"Mythic", "Legendary", "Gold", "Silver", "Iron"} : Set String) ∧
    (∀ s t : Int, tier (grade s) = tier (grade t) ↔ grade s = grade t) := by
  obtain ⟨-, -, hg₁, ht₁⟩ := stats_derived w₁ u₁ st₁ h₁
  obtain ⟨-, -, hg₂, ht₂⟩ := stats_derived w₂ u₂ st₂ h₂
  have key : ∀ s t : Int, tier (grade s) = tier (grade t) ↔ grade s = grade t := fun s t =>
    ⟨tier_inj_on_grades _ _ (grade_cases s) (grade_cases t), fun e => by rw [e]⟩
  refine ⟨ht₁, ?_, by decide, ⟨?_, ?_, ?_⟩, key⟩
  · rw [ht₁, ht₂, hg₁, hg₂]
    exact key _ _
  · intro g hg
    simp only [Set.mem_insert_iff, Set.mem_singleton_iff] at hg ⊢
    rcases hg with rfl | rfl | rfl | rfl | rfl <;> decide
  · intro g hg h hh e
    exact tier_inj_on_grades g h hg hh e
  · intro t ht
    simp only [Set.mem_insert_iff, Set.mem_singleton_iff] at ht
    simp only [Set.mem_image, Set.mem_insert_iff, Set.mem_singleton_iff]
    rcases ht with rfl | rfl | rfl | rfl | rfl
    · exact ⟨"A+", by decide, by decide⟩
    · exact ⟨"A", by decide, by decide⟩
    · exact ⟨"B", by decide, by decide⟩
    · exact ⟨"C", by decide, by decide⟩
    · exact ⟨"D", by decide, by decide⟩

theorem tier_bijection_witness :
    (getGitHubStats (solo 299) "octocat").1 = Result.stats (aggregate (soloUser 299) []) ∧
    (getGitHubStats (solo 10) "octocat").1 = Result.stats (aggregate (soloUser 10) []) ∧
    (aggregate (soloUser 299) []).tier = "Legendary" ∧
    ((aggregate (soloUser 299) []).tier = (aggregate (soloUser 10) []).tier ↔
      (aggregate (soloUser 299) []).grade = (aggregate (soloUser 10) []).grade) :=
  ⟨rfl, rfl, rfl,
    (tier_bijection (solo 299) (solo 10) "octocat" "octocat" _ _ rfl rfl).2.1⟩

/-! ## Aggregation and pagination -/

theorem itemsFrom_concat (w : World) (p n : Nat) :
    itemsFrom w p (n + 1) = itemsFrom w p n ++ itemsOf w (p + n) := by
  simp [itemsFrom, List.range'_concat]

theorem starCount_append (l₁ l₂ : List Repo) :
    starCount (l₁ ++ l₂) = starCount l₁ + starCount l₂ := by
  simp [starCount]

theorem starCount_of_filter_nil (l : List Repo) (h : l.filter isOwned = []) :
    starCount l = 0 := by
  rw [isOwned_eq_notFork] at h
  simp [starCount, h]

/-- The loop, once pages `1 .. k - 1` have returned exactly 100 items each,
stands at page `k` with their owned items collected. -/
theorem collect_prefix (w : World) (k : Nat) (first : List Repo) (hk : 2 ≤ k) (hk50 : k ≤ 50)
    (hfirst : pageItems w 1 = some first)
    (hfull : ∀ p, 1 ≤ p → p < k → fullPage w p = true) :
    collect w first =
      ((paginate w k ((itemsFrom w 1 (k - 1)).filter isOwned)).1,
        (List.range' 2 (k - 2)).map Req.repos ++
          (paginate w k ((itemsFrom w 1 (k - 1)).filter isOwned)).2) := by
  obtain ⟨items, hi, hlen⟩ := (fullPage_iff w 1).1 (hfull 1 (le_refl _) (by omega))
  have hfi : first = items := by rw [hfirst] at hi; exact Option.some.inj hi
  subst hfi
  unfold collect
  simp only [hlen, if_true]
  rw [paginate_run w (k - 2) 2 _ (by omega) (fun i hi => hfull (2 + i) (by omega) (by omega))]
  have e1 : 2 + (k - 2) = k := by omega
  have e2 : itemsFrom w 1 (k - 1) = first ++ itemsFrom w 2 (k - 2) := by
    rw [show k - 1 = (k - 2) + 1 by omega, itemsFrom_succ]
    simp [itemsOf, hfirst]
  rw [e1, e2, List.filter_append]

/-- A run in which pages `1 .. k - 1` return exactly 100 items each and page
`k ≤ 50` ends the loop. -/
theorem getGitHubStats_stopped (w : World) (username : String) (user : JObject) (k : Nat)
    (hu : username ≠ "") (hprof : profileOf w = some user) (hk : 2 ≤ k) (hk50 : k ≤ 50)
    (hfull : ∀ p, 1 ≤ p → p < k → fullPage w p = true) (hstop : stopsAt w k = true) :
    getGitHubStats w username =
      (.stats (aggregate user ((itemsFrom w 1 (k - 1)).filter isOwned)),
        .user :: (List.range' 1 k).map Req.repos) := by
  obtain ⟨first, hfirst, -⟩ := (fullPage_iff w 1).1 (hfull 1 (le_refl _) (by omega))
  have hstop' : ∃ res, w.fetch (.repos k) = .ok res ∧
      (res.ok = false ∨ (∀ data, safeJson res ≠ .list data) ∨ safeJson res = .list []) := by
    unfold stopsAt at hstop
    split at hstop
    next res hres =>
      refine ⟨res, hres, ?_⟩
      by_cases hok : res.ok = true
      · right
        simp only [hok, Bool.not_true, Bool.false_or] at hstop
        split at hstop
        next h => exact Or.inr h
        · simp at hstop
        next h1 h2 => exact Or.inl (fun data hd => by
            cases data with
            | nil => exact h1 hd
            | cons a l => exact h2 (a :: l) hd)
      · left; simpa using hok
    · simp at hstop
  obtain ⟨res, hres, hs⟩ := hstop'
  have hc := collect_prefix w k first hk hk50 hfirst hfull
  rw [paginate_stop w k _ res hres hs] at hc
  rw [getGitHubStats_of_collect w username user first _ _ hu hprof hfirst hc]
  congr 2
  obtain ⟨j, rfl⟩ : ∃ j, k = j + 2 := ⟨k - 2, by omega⟩
  simp only [Nat.add_sub_cancel]
  rw [show j + 2 = (j + 1) + 1 by rfl, List.range'_succ 1 (j + 1), List.range'_concat 2 j]
  simp
  omega

/-- A run in which pages `1 .. 50` return exactly 100 items each. -/
theorem getGitHubStats_capped (w : World) (username : String) (user : JObject)
    (hu : username ≠ "") (hprof : profileOf w = some user)
    (hfull : ∀ p, 1 ≤ p → p ≤ 50 → fullPage w p = true) :
    getGitHubStats w username =
      (.stats (aggregate user ((itemsFrom w 1 50).filter isOwned)),
        .user :: (List.range' 1 50).map Req.repos) := by
  obtain ⟨first, hfirst, -⟩ := (fullPage_iff w 1).1 (hfull 1 (le_refl _) (by omega))
  obtain ⟨last, hlast, hlen⟩ := (fullPage_iff w 50).1 (hfull 50 (by omega) (le_refl _))
  have hc := collect_prefix w 50 first (by omega) (le_refl _) hfirst
    (fun p h1 h2 => hfull p h1 (by omega))
  have hne : last ≠ [] := by intro h; rw [h] at hlen; simp at hlen
  rw [paginate_last w 50 _ last hlast hne (Or.inr (le_refl _))] at hc
  rw [getGitHubStats_of_collect w username user first _ _ hu hprof hfirst hc]
  have e : itemsFrom w 1 50 = itemsFrom w 1 49 ++ last := by
    rw [show (50 : Nat) = 49 + 1 by rfl, itemsFrom_concat]
    simp [itemsOf, hlast]
  rw [e, List.filter_append]
  rfl

theorem pageItems_same (w w' : World) (h : ForkEdit w w') (p : Nat) (l l' : List Repo)
    (hl : pageItems w p = some l) (hl' : pageItems w' p = some l') :
    List.Forall₂ sameUpToForks l l' := by
  obtain ⟨r, hr, -, hj⟩ := (pageItems_eq_some w p l).1 hl
  obtain ⟨r', hr', -, hj'⟩ := (pageItems_eq_some w' p l').1 hl'
  have hp := h.pages p
  rw [hr, hr'] at hp
  obtain ⟨-, -, hs, -⟩ := sameResponse_ok r r' hp
  rw [hj, hj'] at hs
  exact hs

theorem longWorld_forks (p : Nat) (h1 : p ≤ 50) : itemsOf longWorld p = hundredForks := by
  simp [itemsOf, pageItems, longWorld, h1, Response.ok]

theorem longWorld_owned_nil : (itemsFrom longWorld 1 50).filter isOwned = [] := by
  rw [List.filter_eq_nil_iff]
  intro a ha
  simp only [itemsFrom, List.mem_flatMap, List.mem_range'_1] at ha
  obtain ⟨p, ⟨-, hp⟩, hmem⟩ := ha
  rw [longWorld_forks p (by omega)] at hmem
  have := List.eq_of_mem_replicate hmem
  subst this
  decide

theorem longWorld_full (p : Nat) (h1 : 1 ≤ p) (h2 : p < 52) : fullPage longWorld p = true := by
  unfold fullPage pageItems longWorld
  by_cases h : p ≤ 50
  · simp only [h, if_true]; rfl
  · have : p = 51 := by omega
    subst this; rfl

/-- C5: the score of a success is `starCount + forkCount + followerCount`,
taken over the items of the pages `1 .. n` that were collected, for the
profile the client delivered. -/
theorem score_formula (w : World) (username : String) (st : Stats)
    (h : (getGitHubStats w username).1 = Result.stats st) :
    ∃ (user : JObject) (n : Nat), profileOf w = some user ∧ 1 ≤ n ∧ n ≤ 50 ∧
      (∀ p, 1 ≤ p → p ≤ n → (pageItems w p).isSome) ∧
      ((getGitHubStats w username).2 = .user :: (List.range' 1 n).map Req.repos ∨
        (getGitHubStats w username).2 = .user :: (List.range' 1 (n + 1)).map Req.repos) ∧
      st.score = starCount (itemsFrom w 1 n) + forkCount user (itemsFrom w 1 n)
        + followerCount user := by
  obtain ⟨user, n, hprof, hn1, hn2, hpages, hst, htr⟩ := success_decomp w username st h
  exact ⟨user, n, hprof, hn1, hn2, hpages, htr, by rw [hst, aggregate_score]⟩

theorem score_formula_witness :
    (getGitHubStats (listWorld (sampleUser (some 0)) sampleRepos) "octocat").1
      = Result.stats (aggregate (sampleUser (some 0)) (sampleRepos.filter isOwned)) ∧
    (aggregate (sampleUser (some 0)) (sampleRepos.filter isOwned)).score = 11 ∧
    ∃ (user : JObject) (n : Nat),
      profileOf (listWorld (sampleUser (some 0)) sampleRepos) = some user ∧ 1 ≤ n ∧ n ≤ 50 ∧
      (∀ p, 1 ≤ p → p ≤ n →
        (pageItems (listWorld (sampleUser (some 0)) sampleRepos) p).isSome) ∧
      ((getGitHubStats (listWorld (sampleUser (some 0)) sampleRepos) "octocat").2
          = .user :: (List.range' 1 n).map Req.repos ∨
        (getGitHubStats (listWorld (sampleUser (some 0)) sampleRepos) "octocat").2
          = .user :: (List.range' 1 (n + 1)).map Req.repos) ∧
      (aggregate (sampleUser (some 0)) (sampleRepos.filter isOwned)).score =
        starCount (itemsFrom (listWorld (sampleUser (some 0)) sampleRepos) 1 n)
          + forkCount user (itemsFrom (listWorld (sampleUser (some 0)) sampleRepos) 1 n)
          + followerCount user :=
  ⟨rfl, rfl, score_formula (listWorld (sampleUser (some 0)) sampleRepos) "octocat" _ rfl⟩

/-- C6: when the client answers the same except for the fields of the
repositories marked `fork: true` (pages keep their lengths), the run is the
same: the same result, hence the same score, the same requests, and the same
collected repositories, hence the same star sum, fork sum and count. -/
theorem forks_never_contribute (w w' : World) (username : String) (h : ForkEdit w w') :
    getGitHubStats w username = getGitHubStats w' username ∧
    (∀ first first' repos repos', pageItems w 1 = some first → pageItems w' 1 = some first' →
      (collect w first).1 = .ok repos → (collect w' first').1 = .ok repos' →
      repos = repos' ∧ starSum repos = starSum repos' ∧ forkSum repos = forkSum repos' ∧
        repos.length = repos'.length) := by
  refine ⟨getGitHubStats_congr w w' h username, ?_⟩
  intro first first' repos repos' h1 h1' hc hc'
  have := collect_congr w w' h first first' (pageItems_same w w' h 1 first first' h1 h1')
  rw [this, hc'] at hc
  have e : repos' = repos := by simpa using hc
  subst e
  exact ⟨rfl, rfl, rfl, rfl⟩

theorem forks_never_contribute_witness :
    ForkEdit (listWorld (sampleUser (some 0)) sampleRepos)
      (listWorld (sampleUser (some 0)) sampleReposEdited) ∧
    getGitHubStats (listWorld (sampleUser (some 0)) sampleRepos) "octocat" =
      getGitHubStats (listWorld (sampleUser (some 0)) sampleReposEdited) "octocat" :=
  have h : ForkEdit (listWorld (sampleUser (some 0)) sampleRepos)
      (listWorld (sampleUser (some 0)) sampleReposEdited) :=
    ⟨rfl, rfl, fun _ => ⟨rfl,
      List.Forall₂.cons (Or.inl rfl) (List.Forall₂.cons (Or.inr ⟨rfl, rfl⟩)
        (List.Forall₂.cons (Or.inl rfl) List.Forall₂.nil))⟩⟩
  ⟨h, (forks_never_contribute _ _ "octocat" h).1⟩

/-- C7: when the profile's `total_private_repos` is not 0 (the field may be
absent), the fork count is 0 whatever the `forks_count` values are, and the
score of a success is `starCount + followerCount`. -/
theorem forks_suppressed (w : World) (username : String) (st : Stats) (user : JObject)
    (h : (getGitHubStats w username).1 = Result.stats st)
    (hprof : profileOf w = some user) (hne : user.total_private_repos ≠ some 0) :
    (∀ repos, forksOf user repos = 0) ∧
    ∃ n, 1 ≤ n ∧ n ≤ 50 ∧ (∀ p, 1 ≤ p → p ≤ n → (pageItems w p).isSome) ∧
      forkCount user (itemsFrom w 1 n) = 0 ∧
      st.score = starCount (itemsFrom w 1 n) + followerCount user := by
  obtain ⟨user', n, hprof', hn1, hn2, hpages, hst, -⟩ := success_decomp w username st h
  have e : user' = user := by rw [hprof] at hprof'; exact (Option.some.inj hprof').symm
  subst e
  have hz : forkCount user' (itemsFrom w 1 n) = 0 := by simp [forkCount, hne]
  refine ⟨fun repos => by simp [forksOf, hne], n, hn1, hn2, hpages, hz, ?_⟩
  rw [hst, aggregate_score, hz, add_zero]

theorem forks_suppressed_witness :
    (getGitHubStats (listWorld (sampleUser none) sampleRepos) "octocat").1
      = Result.stats (aggregate (sampleUser none) (sampleRepos.filter isOwned)) ∧
    (aggregate (sampleUser none) (sampleRepos.filter isOwned)).score = 8 ∧
    (∀ repos, forksOf (sampleUser none) repos = 0) :=
  ⟨rfl, rfl,
    (forks_suppressed (listWorld (sampleUser none) sampleRepos) "octocat" _ (sampleUser none)
      rfl rfl (by decide)).1⟩

/-- C8, as stated, fails: every repository page of `missingProfileWorld`
returns exactly 100 items, yet the profile answers 404, so only page 1 is
requested and the result is an error. -/
theorem full_pages_without_profile :
    (∀ p, fullPage missingProfileWorld p = true) ∧
    getGitHubStats missingProfileWorld "octocat" = (Result.error "Not Found", [.user, .repos 1]) ∧
    Req.repos 2 ∉ (getGitHubStats missingProfileWorld "octocat").2 ∧
    ¬ ∃ st, (getGitHubStats missingProfileWorld "octocat").1 = Result.stats st :=
  ⟨fun _ => rfl, rfl, by decide, by rintro ⟨st, h⟩; exact Result.noConfusion h⟩

/-- C8, amended: every run requests the profile and then the repository
pages `1, 2, ..., n` in order for some `n ≤ 50` (or nothing at all); and for
a non-empty username, when the profile request succeeds and pages 1 to 50
each return exactly 100 items, the requests are the profile and pages
`1, 2, ..., 50` in order, page 51 is not requested, and the result is the
success aggregated over the items of those 50 pages. -/
theorem pagination_cap (w : World) (username : String) :
    ((getGitHubStats w username).2 = [] ∨
      ∃ n, 1 ≤ n ∧ n ≤ 50 ∧
        (getGitHubStats w username).2 = .user :: (List.range' 1 n).map Req.repos) ∧
    (∀ user, username ≠ "" → profileOf w = some user →
      (∀ p, 1 ≤ p → p ≤ 50 → fullPage w p = true) →
      getGitHubStats w username =
        (.stats (aggregate user ((itemsFrom w 1 50).filter isOwned)),
          .user :: (List.range' 1 50).map Req.repos) ∧
      Req.repos 51 ∉ (getGitHubStats w username).2 ∧
      (aggregate user ((itemsFrom w 1 50).filter isOwned)).score =
        starCount (itemsFrom w 1 50) + forkCount user (itemsFrom w 1 50)
          + followerCount user) := by
  constructor
  · rcases getGitHubStats_trace_cases w username with h | h | ⟨first, h⟩
    · exact Or.inl h
    · exact Or.inr ⟨1, le_refl _, by omega, by rw [h]; rfl⟩
    · right
      rw [h]
      unfold collect
      by_cases hl : first.length = 100
      · simp only [hl, if_true]
        obtain ⟨n, hn1, hn2, hn3⟩ := paginate_trace w 2 (first.filter isOwned)
        refine ⟨n + 1, by omega, by omega, ?_⟩
        rw [hn3, List.range'_succ]
        rfl
      · simp only [hl, if_false]
        exact ⟨1, le_refl _, by omega, rfl⟩
  · intro user hu hprof hfull
    have hrun := getGitHubStats_capped w username user hu hprof hfull
    refine ⟨hrun, ?_, aggregate_score user _⟩
    rw [hrun]
    simp only [List.mem_cons, List.mem_map, List.mem_range'_1, not_or]
    refine ⟨by simp, ?_⟩
    rintro ⟨p, ⟨-, hp⟩, he⟩
    have : p = 51 := by simpa using he
    omega

theorem pagination_cap_witness :
    getGitHubStats (listWorld (sampleUser none) hundredOwned) "octocat" =
      (.stats (aggregate (sampleUser none)
        ((itemsFrom (listWorld (sampleUser none) hundredOwned) 1 50).filter isOwned)),
        .user :: (List.range' 1 50).map Req.repos) :=
  ((pagination_cap (listWorld (sampleUser none) hundredOwned) "octocat").2 (sampleUser none)
    (by decide) rfl (fun _ _ _ => rfl)).1

/-- C9, as stated, fails for `k = 52`: in `longWorld` the profile and pages
1 to 51 succeed with exactly 100 items each and page 52 answers 500, yet the
sums are taken over pages 1 to 50 only: the star sum is 0 and the score 3,
while the non-fork repositories of pages 1 to 51 hold 100 stars. -/
theorem page_52_failure_drops_page_51 :
    profileOf longWorld = some (sampleUser none) ∧
    (∀ p, 1 ≤ p → p < 52 → fullPage longWorld p = true) ∧
    stopsAt longWorld 52 = true ∧
    ∃ st, (getGitHubStats longWorld "octocat").1 = Result.stats st ∧
      st.score = 3 ∧ st.formatted_stars = "0" ∧
      starCount (itemsFrom longWorld 1 51) = 100 ∧
      st.score ≠ starCount (itemsFrom longWorld 1 51)
        + forkCount (sampleUser none) (itemsFrom longWorld 1 51)
        + followerCount (sampleUser none) := by
  have hrun := getGitHubStats_capped longWorld "octocat" (sampleUser none) (by decide) rfl
    (fun p h1 h2 => longWorld_full p h1 (by omega))
  rw [longWorld_owned_nil] at hrun
  have hstars : starCount (itemsFrom longWorld 1 51) = 100 := by
    rw [show (51 : Nat) = 50 + 1 by rfl, itemsFrom_concat, starCount_append,
      starCount_of_filter_nil _ longWorld_owned_nil]
    have e : itemsOf longWorld (1 + 50) = hundredOwned := rfl
    rw [e]
    simp [starCount, hundredOwned, notFork]
  refine ⟨rfl, longWorld_full, rfl, aggregate (sampleUser none) [], by rw [hrun], rfl, rfl,
    hstars, ?_⟩
  rw [hstars]
  decide

/-- C9, amended: for a non-empty username and `2 ≤ k ≤ 51`, when the profile
request succeeds, pages `1 .. k - 1` each return exactly 100 items and page
`k` returns a non-success status, a body that is not a list, or an empty
list, the result is the success aggregated over the items of pages
`1 .. k - 1`: its star and fork sums are those of the non-fork repositories
of these pages, and no page after `min k 50` is requested. -/
theorem page_failure_keeps_collected (w : World) (username : String) (user : JObject) (k : Nat)
    (hu : username ≠ "") (hprof : profileOf w = some user) (hk : 2 ≤ k) (hk51 : k ≤ 51)
    (hfull : ∀ p, 1 ≤ p → p < k → fullPage w p = true) (hstop : stopsAt w k = true) :
    getGitHubStats w username =
      (.stats (aggregate user ((itemsFrom w 1 (k - 1)).filter isOwned)),
        .user :: (List.range' 1 (min k 50)).map Req.repos) ∧
    starSum ((itemsFrom w 1 (k - 1)).filter isOwned) = starCount (itemsFrom w 1 (k - 1)) ∧
    forksOf user ((itemsFrom w 1 (k - 1)).filter isOwned)
      = forkCount user (itemsFrom w 1 (k - 1)) ∧
    (aggregate user ((itemsFrom w 1 (k - 1)).filter isOwned)).score =
      starCount (itemsFrom w 1 (k - 1)) + forkCount user (itemsFrom w 1 (k - 1))
        + followerCount user := by
  refine ⟨?_, starSum_filter _, forksOf_filter _ _, aggregate_score _ _⟩
  rcases Nat.lt_or_ge k 51 with hlt | hge
  · rw [getGitHubStats_stopped w username user k hu hprof hk (by omega) hfull hstop,
      Nat.min_eq_left (by omega)]
  · have hk' : k = 51 := by omega
    subst hk'
    exact getGitHubStats_capped w username user hu hprof (fun p h1 h2 => hfull p h1 (by omega))

theorem page_failure_keeps_collected_witness :
    stopsAt shortWorld 2 = true ∧
    getGitHubStats shortWorld "octocat" =
      (.stats (aggregate (sampleUser (some 0)) ((itemsFrom shortWorld 1 (2 - 1)).filter isOwned)),
        .user :: (List.range' 1 (min 2 50)).map Req.repos) :=
  ⟨rfl, (page_failure_keeps_collected shortWorld "octocat" (sampleUser (some 0)) 2 (by decide) rfl
    (le_refl _) (by decide)
    (fun p h1 h2 => by
      have e : p = 1 := by omega
      subst e
      rfl) rfl).1⟩

/-! ## XML escaping -/

theorem escapeChar_cases (c : Char) :
    (escapeChar c ∈ xmlEntities.map String.data) ∨
      (escapeChar c = [c] ∧ c ≠ '<' ∧ c ≠ '>' ∧ c ≠ '&' ∧ c ≠ Char.ofNat 34 ∧ c ≠ Char.ofNat 39) := by
  unfold escapeChar
  by_cases h1 : c = '<'
  · subst h1; left; decide
  by_cases h2 : c = '>'
  · subst h2; left; decide
  by_cases h3 : c = '&'
  · subst h3; left; decide
  by_cases h4 : c = Char.ofNat 34
  · subst h4; left; decide
  by_cases h5 : c = Char.ofNat 39
  · subst h5; left; decide
  right
  simp [isXmlSpecial, h1, h2, h3, h4, h5]

theorem entity_shape (A : List Char) (h : A ∈ xmlEntities.map String.data) :
    ∃ t, A = '&' :: t ∧ '&' ∉ t ∧
      ∀ c ∈ A, c ≠ '<' ∧ c ≠ '>' ∧ c ≠ Char.ofNat 34 ∧ c ≠ Char.ofNat 39 := by
  simp only [xmlEntities, List.map_cons, List.map_nil, List.mem_cons, List.mem_singleton,
    List.not_mem_nil, or_false] at h
  rcases h with rfl | rfl | rfl | rfl | rfl <;> exact ⟨_, rfl, by decide, by decide⟩

theorem ampersands_append (A B : List Char)
    (hA : A ∈ xmlEntities.map String.data ∨ ∃ c, A = [c] ∧ c ≠ '&')
    (hB : AmpersandsBeginEntities B) : AmpersandsBeginEntities (A ++ B) := by
  intro i hi
  rcases Nat.lt_or_ge i A.length with hlt | hge
  · rw [List.getElem?_append_left hlt] at hi
    rcases hA with hA | ⟨c, rfl, hc⟩
    · obtain ⟨e, he, rfl⟩ := List.mem_map.1 hA
      obtain ⟨t, ht, hnot, -⟩ := entity_shape e.data hA
      cases i with
      | zero => exact ⟨e, he, by simp⟩
      | succ j =>
        rw [ht] at hi
        simp only [List.getElem?_cons_succ] at hi
        exact absurd (List.getElem?_mem hi) hnot
    · have : i = 0 := by simpa using hlt
      subst this
      simp at hi
      exact absurd hi hc
  · rw [List.getElem?_append_right hge] at hi
    obtain ⟨e, he, hpre⟩ := hB _ hi
    refine ⟨e, he, ?_⟩
    have : List.drop i (A ++ B) = List.drop (i - A.length) B := by
      rw [List.drop_append_eq_append_drop, List.drop_eq_nil_of_le hge, List.nil_append]
    rw [this]
    exact hpre

theorem flatMap_escapeChar_ampersands (l : List Char) :
    AmpersandsBeginEntities (l.flatMap escapeChar) := by
  induction l with
  | nil => intro i hi; simp at hi
  | cons c cs ih =>
    rw [List.flatMap_cons]
    refine ampersands_append _ _ ?_ ih
    rcases escapeChar_cases c with h | ⟨h, -, -, h3, -, -⟩
    · exact Or.inl h
    · exact Or.inr ⟨c, h, h3⟩

theorem flatMap_escapeChar_clean (l : List Char) :
    ∀ c ∈ l.flatMap escapeChar, c ≠ '<' ∧ c ≠ '>' ∧ c ≠ Char.ofNat 34 ∧ c ≠ Char.ofNat 39 := by
  intro c hc
  obtain ⟨a, -, hca⟩ := List.mem_flatMap.1 hc
  rcases escapeChar_cases a with h | ⟨h, h1, h2, -, h4, h5⟩
  · obtain ⟨-, -, -, hall⟩ := entity_shape _ h
    exact hall c hca
  · rw [h] at hca
    have : c = a := by simpa using hca
    subst this
    exact ⟨h1, h2, h4, h5⟩

theorem escapeXml_append (s t : String) : escapeXml (s ++ t) = escapeXml s ++ escapeXml t := by
  apply String.ext
  simp [escapeXml, String.data_append, List.flatMap_append]

/-- C10: `escapeXml` works character by character (it maps the empty text to
the empty text and a concatenation to the concatenation of the images),
replaces each of the five characters by its entity and keeps any other
character; so its result contains none of the four characters less-than,
greater-than, double quote and apostrophe, and every ampersand in it begins
one of the five entities; and the username of the worked example is embedded
in the SVG as `&lt;script&gt;&amp;&quot;&#39;`. -/
theorem escapeXml_spec (s t : String) :
    escapeXml "" = "" ∧ escapeXml (s ++ t) = escapeXml s ++ escapeXml t ∧
    (escapeXml "<" = "&lt;" ∧ escapeXml ">" = "&gt;" ∧ escapeXml "&" = "&amp;" ∧
      escapeXml (String.singleton (Char.ofNat 34)) = "&quot;" ∧
      escapeXml (String.singleton (Char.ofNat 39)) = "&#39;") ∧
    (∀ c : Char, c ≠ '<' → c ≠ '>' → c ≠ '&' → c ≠ Char.ofNat 34 → c ≠ Char.ofNat 39 →
      escapeXml (String.singleton c) = String.singleton c) ∧
    (∀ c ∈ (escapeXml s).data, c ≠ '<' ∧ c ≠ '>' ∧ c ≠ Char.ofNat 34 ∧ c ≠ Char.ofNat 39) ∧
    (∀ i, (escapeXml s).data[i]? = some '&' →
      ∃ e ∈ xmlEntities, e.data <+: (escapeXml s).data.drop i) ∧
    (∀ st : Stats, st.username = some scriptName →
      svgUsername st = "&lt;script&gt;&amp;&quot;&#39;" ∧
      ariaLabel st = "GitHub Trophy for &lt;script&gt;&amp;&quot;&#39;") := by
  refine ⟨by decide, escapeXml_append s t, by decide, ?_, flatMap_escapeChar_clean s.data,
    flatMap_escapeChar_ampersands s.data, ?_⟩
  · intro c h1 h2 h3 h4 h5
    apply String.ext
    simp [escapeXml, String.singleton, escapeChar, isXmlSpecial, h1, h2, h3, h4, h5]
  · intro st hst
    have e : svgUsername st = "&lt;script&gt;&amp;&quot;&#39;" := by
      unfold svgUsername
      rw [hst]
      decide
    exact ⟨e, by unfold ariaLabel; rw [e]; decide⟩

/-! ## Canvas and columns -/

theorem joinPieces_cons (a : String) (l : List String) :
    joinPieces (a :: l) = a ++ joinPieces l := rfl

theorem joinPieces_nil : joinPieces [] = "" := rfl

theorem joinPieces_append (l₁ l₂ : List String) :
    joinPieces (l₁ ++ l₂) = joinPieces l₁ ++ joinPieces l₂ := by
  induction l₁ with
  | nil => simp [joinPieces_nil]
  | cons a l ih => simp [joinPieces_cons, ih, String.append_assoc]

theorem svg_opening (stats : Stats) (theme : String) (columns : Option Int) :
    ∃ rest, generateTrophySVG stats theme columns =
      "\n<svg width=\"" ++ (num (svgWidth (usedColumns columns)) ++ ("\" height=\"" ++
        (num (svgHeight (usedColumns columns)) ++ ("\" viewBox=\"0 0 " ++
          (num (svgWidth (usedColumns columns)) ++ (" " ++
            (num (svgHeight (usedColumns columns)) ++ ("\"" ++ rest)))))))) := by
  refine ⟨" xmlns=\"http://www.w3.org/2000/svg\" role=\"img\" aria-label=\"GitHub Trophy for " ++
    joinPieces ((svgPieces stats theme columns).drop 10), ?_⟩
  have e1 : "\n<svg width=\"" = "\n" ++ "<svg width=\"" := by decide
  have e2 : "\"" ++
      " xmlns=\"http://www.w3.org/2000/svg\" role=\"img\" aria-label=\"GitHub Trophy for " =
      "\" xmlns=\"http://www.w3.org/2000/svg\" role=\"img\" aria-label=\"GitHub Trophy for " := by
    decide
  rw [e1, ← String.append_assoc "\"", e2]
  simp only [String.append_assoc]
  rfl

theorem usedColumns_range (columns : Option Int) :
    1 ≤ usedColumns columns ∧ usedColumns columns ≤ 4 := by
  unfold usedColumns
  omega

theorem usedColumns_cases (columns : Option Int) :
    usedColumns columns = 1 ∨ usedColumns columns = 2 ∨ usedColumns columns = 3 ∨
      usedColumns columns = 4 := by
  have := usedColumns_range columns
  omega

theorem columns_cases (c : Int) (h1 : 1 ≤ c) (h4 : c ≤ 4) : c = 1 ∨ c = 2 ∨ c = 3 ∨ c = 4 := by
  omega

theorem badgeRows_eq_ceil (c : Int) (h1 : 1 ≤ c) (h4 : c ≤ 4) :
    badgeRows c = ⌈(3 : ℚ) / (c : ℚ)⌉ := by
  rcases columns_cases c h1 h4 with rfl | rfl | rfl | rfl
  · rw [show badgeRows 1 = 3 by decide]; symm; rw [Int.ceil_eq_iff]; norm_num
  · rw [show badgeRows 2 = 2 by decide]; symm; rw [Int.ceil_eq_iff]; norm_num
  · rw [show badgeRows 3 = 1 by decide]; symm; rw [Int.ceil_eq_iff]; norm_num
  · rw [show badgeRows 4 = 1 by decide]; symm; rw [Int.ceil_eq_iff]; norm_num

/-- C11: with `c` the column count used (always in 1..4) and `r` the ceiling
of `3 / c`, the canvas is `max (600 + 2*24) ((c*160 + (c-1)*20) + 2*24)` wide
and `24 + 200 + 24 + (r*72 + (r-1)*20) + 24` high, so never narrower than
648, and the document opens with the `svg` tag whose `width`, `height` and
`viewBox` carry exactly these two numbers. -/
theorem canvas_dimensions (stats : Stats) (theme : String) (columns : Option Int) :
    1 ≤ usedColumns columns ∧ usedColumns columns ≤ 4 ∧
    badgeRows (usedColumns columns) = ⌈(3 : ℚ) / (usedColumns columns : ℚ)⌉ ∧
    svgWidth (usedColumns columns) =
      max (600 + 2 * 24) ((usedColumns columns * 160 + (usedColumns columns - 1) * 20) + 2 * 24) ∧
    svgHeight (usedColumns columns) =
      24 + 200 + 24 + (⌈(3 : ℚ) / (usedColumns columns : ℚ)⌉ * 72
        + (⌈(3 : ℚ) / (usedColumns columns : ℚ)⌉ - 1) * 20) + 24 ∧
    648 ≤ svgWidth (usedColumns columns) ∧
    ∃ rest, generateTrophySVG stats theme columns =
      "\n<svg width=\"" ++ (num (svgWidth (usedColumns columns)) ++ ("\" height=\"" ++
        (num (svgHeight (usedColumns columns)) ++ ("\" viewBox=\"0 0 " ++
          (num (svgWidth (usedColumns columns)) ++ (" " ++
            (num (svgHeight (usedColumns columns)) ++ ("\"" ++ rest)))))))) := by
  obtain ⟨h1, h4⟩ := usedColumns_range columns
  have hr := badgeRows_eq_ceil (usedColumns columns) h1 h4
  refine ⟨h1, h4, hr, ?_, ?_, ?_, svg_opening stats theme columns⟩
  · simp only [svgWidth, mainCardW, padding, badgeGridWidth, badgeW, badgeGap]
  · rw [← hr]
    simp only [svgHeight, mainCardH, padding, badgesHeight, badgeH, badgeGap]
  · simp only [svgWidth, mainCardW, padding]
    omega

/-- C13, as stated, fails at 0: `parseInt` yields 0, `0 || 3` is 3, and the
column count used is 3, not `min 4 (max 1 0) = 1`. -/
theorem columns_zero_gives_three :
    usedColumns (some 0) = 3 ∧ min 4 (max 1 (0 : Int)) = 1 ∧
      usedColumns (some 0) ≠ min 4 (max 1 (0 : Int)) := by
  decide

/-- C13, amended: for every integer `c` other than 0 the column count used is
`min 4 (max 1 c)` (so 5 gives 4), 0 gives the default 3, the count used is
always in 1..4, and a value in which `parseInt` finds no integer gives 3. -/
theorem columns_clamped :
    (∀ c : Int, c ≠ 0 → usedColumns (some c) = min 4 (max 1 c)) ∧
    usedColumns (some 5) = 4 ∧ usedColumns (some 0) = 3 ∧
    (∀ columns, 1 ≤ usedColumns columns ∧ usedColumns columns ≤ 4) ∧
    usedColumns none = 3 := by
  refine ⟨?_, by decide, by decide, usedColumns_range, by decide⟩
  intro c hc
  simp only [usedColumns, numOr, hc, if_false]
  omega

/-! ## Badge grid -/

theorem joinPieces_split (l : List String) (k : Nat) (x : String) (h : l[k]? = some x) :
    joinPieces l = joinPieces (l.take k) ++ x ++ joinPieces (l.drop (k + 1)) := by
  have hk : k < l.length := by
    rcases Nat.lt_or_ge k l.length with hlt | hge
    · exact hlt
    · rw [List.getElem?_eq_none hge] at h; simp at h
  have hx : l[k] = x := by
    rw [List.getElem?_eq_getElem hk] at h
    exact Option.some.inj h
  have e : l = l.take k ++ (x :: l.drop (k + 1)) := by
    rw [← hx, ← List.drop_eq_getElem_cons hk, List.take_append_drop]
  conv_lhs => rw [e]
  rw [joinPieces_append, joinPieces_cons, String.append_assoc]

theorem badgeGroupsOf_three (p : Palette) (c : Int) (b₀ b₁ b₂ : Badge) :
    badgeGroupsOf p c [b₀, b₁, b₂] =
      badgeGroup p c 0 b₀ ++ badgeGroup p c 1 b₁ ++ badgeGroup p c 2 b₂ := by
  simp [badgeGroupsOf, List.enum, List.enumFrom]

theorem badgeGroup_opening (p : Palette) (c : Int) (i : Nat) (b : Badge) :
    ∃ rest, badgeGroup p c i b =
      "\n        <g transform=\"translate(" ++ (num (badgeX c i) ++ (", " ++
        (num (badgeY c i) ++ (")\">\n" ++ rest)))) := by
  refine ⟨joinPieces ((badgePieces p (badgeX c i) (badgeY c i) b.label b.value b.icon).drop 6), ?_⟩
  have e1 : "\n        <g transform=\"translate(" = "\n" ++ "        <g transform=\"translate(" := by
    decide
  rw [e1]
  simp only [String.append_assoc]
  rfl

theorem document_has_badgeGroups (stats : Stats) (theme : String) (columns : Option Int) :
    ∃ before after, generateTrophySVG stats theme columns =
      before ++ badgeGroupsOf (getThemeColors theme) (usedColumns columns)
        (badgesOf stats (getTierStyles (strOr (some stats.tier) "Iron"))) ++ after :=
  ⟨_, _, joinPieces_split (svgPieces stats theme columns) 167 _ rfl⟩

theorem floor_div_eq (i c : Int) (hc : 0 ≤ c) : ⌊(i : ℚ) / (c : ℚ)⌋ = i / c := by
  obtain ⟨n, rfl⟩ : ∃ n : ℕ, c = n := ⟨c.toNat, (Int.toNat_of_nonneg hc).symm⟩
  have := Rat.floor_intCast_div_natCast i n
  simpa using this

theorem badge_cases (i : Int) (h0 : 0 ≤ i) (h2 : i ≤ 2) : i = 0 ∨ i = 1 ∨ i = 2 := by omega

/-- C12: for a column count `c` in 1..4, badge `i` of the three (Stars,
Repositories, Followers, in this order) lies in row `floor (i / c)` and
column `i mod c`; with `n` the number of badges in its row, the row starts
at `W / 2 - (n*160 + (n-1)*20) / 2` exactly, badges are 180 apart and rows 92
apart, the margin left of the row equals the margin right of it, and the
badge lies inside `[0, W]`; these coordinates are the ones the document
carries; and `columns` 3, 1 and 5 give one row of three, three centered rows
of one, and one centered row of three. -/
theorem badge_layout (c i : Int) (hc1 : 1 ≤ c) (hc4 : c ≤ 4) (hi0 : 0 ≤ i) (hi2 : i ≤ 2) :
    badgeRow c i = ⌊(i : ℚ) / (c : ℚ)⌋ ∧ badgeCol c i = i % c ∧
    rowCount c (badgeRow c i) = badgesInRow c (badgeRow c i) ∧
    ((startX c (badgeRow c i) : Int) : ℚ) = (svgWidth c : ℚ) / 2 -
      ((rowCount c (badgeRow c i) * 160 + (rowCount c (badgeRow c i) - 1) * 20 : Int) : ℚ) / 2 ∧
    badgeX c i = startX c (badgeRow c i) + badgeCol c i * 180 ∧
    badgeY c i = 24 + 200 + 24 + badgeRow c i * 92 ∧
    startX c (badgeRow c i) = svgWidth c - (startX c (badgeRow c i) +
      (rowCount c (badgeRow c i) * 160 + (rowCount c (badgeRow c i) - 1) * 20)) ∧
    0 ≤ badgeX c i ∧ badgeX c i + 160 ≤ svgWidth c ∧
    (∀ (stats : Stats) (ts : TierStyle), (badgesOf stats ts).map Badge.label
      = ["Stars", "Repositories", "Followers"]) ∧
    (∀ (p : Palette) (b₀ b₁ b₂ : Badge), badgeGroupsOf p c [b₀, b₁, b₂] =
      badgeGroup p c 0 b₀ ++ badgeGroup p c 1 b₁ ++ badgeGroup p c 2 b₂) ∧
    (∀ (p : Palette) (k : Nat) (b : Badge), ∃ rest, badgeGroup p c k b =
      "\n        <g transform=\"translate(" ++ (num (badgeX c k) ++ (", " ++
        (num (badgeY c k) ++ (")\">\n" ++ rest))))) ∧
    (∀ (stats : Stats) (theme : String) (columns : Option Int),
      ∃ before after, generateTrophySVG stats theme columns =
        before ++ badgeGroupsOf (getThemeColors theme) (usedColumns columns)
          (badgesOf stats (getTierStyles (strOr (some stats.tier) "Iron"))) ++ after) ∧
    (usedColumns (some 3) = 3 ∧ badgeRows 3 = 1 ∧ svgWidth 3 = 648 ∧
      [badgeRow 3 0, badgeRow 3 1, badgeRow 3 2] = [0, 0, 0] ∧
      [badgeX 3 0, badgeX 3 1, badgeX 3 2] = [64, 244, 424]) ∧
    (usedColumns (some 1) = 1 ∧ badgeRows 1 = 3 ∧ svgWidth 1 = 648 ∧
      [badgeRow 1 0, badgeRow 1 1, badgeRow 1 2] = [0, 1, 2] ∧
      [badgeX 1 0, badgeX 1 1, badgeX 1 2] = [244, 244, 244] ∧
      [badgeY 1 0, badgeY 1 1, badgeY 1 2] = [248, 340, 432]) ∧
    (usedColumns (some 5) = 4 ∧ badgeRows 4 = 1 ∧ svgWidth 4 = 748 ∧
      [badgeRow 4 0, badgeRow 4 1, badgeRow 4 2] = [0, 0, 0] ∧
      [badgeX 4 0, badgeX 4 1, badgeX 4 2] = [114, 294, 474]) := by
  have hrow : badgeRow c i = i / c := Int.fdiv_eq_ediv i (by omega)
  have hcol : badgeCol c i = i % c := Int.tmod_eq_emod hi0 (by omega)
  have hints : rowCount c (badgeRow c i) = badgesInRow c (badgeRow c i) ∧
      2 * startX c (badgeRow c i) = svgWidth c -
        (rowCount c (badgeRow c i) * 160 + (rowCount c (badgeRow c i) - 1) * 20) ∧
      badgeX c i = startX c (badgeRow c i) + badgeCol c i * 180 ∧
      badgeY c i = 24 + 200 + 24 + badgeRow c i * 92 ∧
      0 ≤ badgeX c i ∧ badgeX c i + 160 ≤ svgWidth c := by
    rcases columns_cases c hc1 hc4 with rfl | rfl | rfl | rfl <;>
      rcases badge_cases i hi0 hi2 with rfl | rfl | rfl <;> decide
  obtain ⟨h1, h2, h3, h4, h5, h6⟩ := hints
  refine ⟨?_, hcol, h1, ?_, h3, h4, by omega, h5, h6, fun _ _ => rfl,
    fun p => badgeGroupsOf_three p c, fun p => badgeGroup_opening p c,
    document_has_badgeGroups,
    by decide, by decide, by decide⟩
  · rw [hrow, floor_div_eq i c (by omega)]
  · have h2' : ((2 * startX c (badgeRow c i) : Int) : ℚ) = ((svgWidth c -
        (rowCount c (badgeRow c i) * 160 + (rowCount c (badgeRow c i) - 1) * 20) : Int) : ℚ) := by
      rw [h2]
    push_cast at h2' ⊢
    linarith

theorem badge_layout_witness :
    (1 : Int) ≤ 2 ∧ badgeRow 2 2 = 1 ∧ badgeCol 2 2 = 0 ∧ rowCount 2 (badgeRow 2 2) = 1 ∧
      badgeX 2 2 = 244 ∧ 0 ≤ badgeX 2 2 ∧ badgeX 2 2 + 160 ≤ svgWidth 2 :=
  have h := badge_layout 2 2 (by decide) (by decide) (by decide) (by decide)
  ⟨by decide, by decide, by decide, by decide, by decide, h.2.2.2.2.2.2.2.1, h.2.2.2.2.2.2.2.2.1⟩

/-! ## Errors, themes and grade order -/

theorem paginate_error_source (w : World) (page : Nat) (repos : List Repo) :
    ∀ e, (paginate w page repos).1 = .error e →
      ∃ k, page ≤ k ∧ w.fetch (.repos k) = .error e := by
  induction page, repos using paginate.induct w with
  | case1 page repos e' h =>
    intro e he
    rw [paginate_throw w page repos e' h] at he
    simp only [Except.error.injEq] at he
    exact ⟨page, le_refl _, by rw [h, he]⟩
  | case2 page repos res h hok =>
    intro e he
    rw [paginate_stop w page repos res h (Or.inl (by simpa using hok))] at he
    simp at he
  | case3 page repos res h hok data hd hlen =>
    intro e he
    have : data = [] := by simpa using hlen
    rw [paginate_stop w page repos res h (Or.inr (Or.inr (by rw [hd, this])))] at he
    simp at he
  | case4 page repos res h hok data hd hne hlt =>
    intro e he
    have hp : pageItems w page = some data :=
      (pageItems_eq_some w page data).2 ⟨res, h, by simpa using hok, hd⟩
    rw [paginate_last w page repos data hp (by simpa using hne) (Or.inl hlt)] at he
    simp at he
  | case5 page repos res h hok data hd hne hlt hge =>
    intro e he
    have hp : pageItems w page = some data :=
      (pageItems_eq_some w page data).2 ⟨res, h, by simpa using hok, hd⟩
    rw [paginate_last w page repos data hp (by simpa using hne) (Or.inr hge)] at he
    simp at he
  | case6 page repos res h hok data hd hne repos' hlt hge ih =>
    intro e he
    have hp : pageItems w page = some data :=
      (pageItems_eq_some w page data).2 ⟨res, h, by simpa using hok, hd⟩
    rw [paginate_next w page repos data hp (by omega) (by omega)] at he
    obtain ⟨k, hk, hf⟩ := ih e he
    exact ⟨k, by omega, hf⟩
  | case7 page repos res h hok hnl =>
    intro e he
    rw [paginate_stop w page repos res h (Or.inr (Or.inl (fun data hd => hnl data hd)))] at he
    simp at he

theorem collect_error_source (w : World) (first : List Repo) (e : String)
    (h : (collect w first).1 = .error e) : ∃ k, 2 ≤ k ∧ w.fetch (.repos k) = .error e := by
  unfold collect at h
  by_cases hl : first.length = 100
  · simp only [hl, if_true] at h
    exact paginate_error_source w 2 _ e h
  · simp [hl] at h

theorem getGitHubStats_unfold (w : World) (username : String) (hu : username ≠ "") :
    getGitHubStats w username =
      match promiseAll w.reposSettlesFirst (userPromise w) (reposPromise w) with
      | .error e => (caught e, [.user, .repos 1])
      | .ok (user, firstPageRepos) =>
        match firstPageRepos with
        | .list first =>
          match (collect w first).1 with
          | .error e => (caught e, .user :: .repos 1 :: (collect w first).2)
          | .ok repos =>
            match user.fields with
            | none => (caught nullUserMessage, .user :: .repos 1 :: (collect w first).2)
            | some u => (.stats (aggregate u repos), .user :: .repos 1 :: (collect w first).2)
        | other => (.error (strOr other.message "Unexpected repos response"),
            [.user, .repos 1]) := by
  unfold getGitHubStats userPromise reposPromise
  simp only [hu, if_false]

theorem caught_eq (e : String) : caught e = .error (if e = "" then "Unknown error" else e) := rfl

theorem fields_eq_none (j : Json) (h : j.fields = none) : j = .null := by
  cases j <;> simp [Json.fields] at h ⊢

/-- Every way `getGitHubStats` ends. -/
theorem getGitHubStats_outcomes (w : World) (username : String) :
    (∃ st, (getGitHubStats w username).1 = .stats st) ∨
    (username = "" ∧ getGitHubStats w username = (.error "Username required", [])) ∨
    (∃ e, (userPromise w = .error e ∨ reposPromise w = .error e ∨
        (∃ k, 2 ≤ k ∧ w.fetch (.repos k) = .error e) ∨
        (userPromise w = .ok .null ∧ e = nullUserMessage)) ∧
      (getGitHubStats w username).1 = .error (if e = "" then "Unknown error" else e)) ∨
    (∃ j, reposPromise w = .ok j ∧ (∀ l, j ≠ .list l) ∧
      (getGitHubStats w username).1 = .error (strOr j.message "Unexpected repos response")) := by
  by_cases hu : username = ""
  · exact Or.inr (Or.inl ⟨hu, by simp [getGitHubStats, hu]⟩)
  · rw [getGitHubStats_unfold w username hu]
    cases hU : userPromise w with
    | error e₁ =>
      cases hR : reposPromise w with
      | error e₂ =>
        refine Or.inr (Or.inr (Or.inl ?_))
        by_cases hf : w.reposSettlesFirst = true
        · exact ⟨e₂, Or.inr (Or.inl rfl), by simp [promiseAll, hf, caught_eq]⟩
        · exact ⟨e₁, Or.inl rfl, by simp [promiseAll, hf, caught_eq]⟩
      | ok rj =>
        exact Or.inr (Or.inr (Or.inl ⟨e₁, Or.inl rfl, by simp [promiseAll, caught_eq]⟩))
    | ok uj =>
      cases hR : reposPromise w with
      | error e₂ =>
        exact Or.inr (Or.inr (Or.inl ⟨e₂, Or.inr (Or.inl rfl), by simp [promiseAll, caught_eq]⟩))
      | ok rj =>
        simp only [promiseAll]
        cases rj with
        | list first =>
          simp only
          cases hc : (collect w first).1 with
          | error e =>
            exact Or.inr (Or.inr (Or.inl ⟨e, Or.inr (Or.inr (Or.inl
              (collect_error_source w first e hc))), by simp [caught_eq]⟩))
          | ok repos =>
            simp only
            cases hf : uj.fields with
            | none =>
              refine Or.inr (Or.inr (Or.inl ⟨nullUserMessage, Or.inr (Or.inr (Or.inr
                ⟨by rw [fields_eq_none uj hf], rfl⟩)), by simp [caught_eq]⟩))
            | some u => exact Or.inl ⟨aggregate u repos, rfl⟩
        | null => exact Or.inr (Or.inr (Or.inr ⟨.null, rfl, by intro l; simp, rfl⟩))
        | object o => exact Or.inr (Or.inr (Or.inr ⟨.object o, rfl, by intro l; simp, rfl⟩))

/-- C14: for an empty username, and for a missing one, `getGitHubStats`
returns the error `Username required` and issues no request, whatever the
HTTP client would answer. -/
theorem empty_username_no_request (w : World) :
    getGitHubStats w "" = (Result.error "Username required", []) ∧
    getGitHubStatsCall w (some []) = (Settled.resolved (Result.error "Username required"), []) ∧
    getGitHubStatsCall w none = (Settled.resolved (Result.error "Username required"), []) :=
  ⟨rfl, rfl, rfl⟩

/-- C15: what holds and what fails. A username whose code units hold an
unpaired surrogate, such as the single unit D800, makes `encodeURIComponent`
throw before the `try`: the promise is rejected and no ErrorResult is
returned. For every username that is a text the call resolves, and
`getGitHubStats` ends in a stats record, in the error `Username required`, in
the error of a caught exception (the rejection of one of the two initial
promises, a network error on a later page, or the `TypeError` of a `null`
profile) whose message is the message of the exception, or `Unknown error`
when that is empty, or in the error of a first page that is not a list. -/
theorem uri_error_escapes_the_try (w : World) :
    decodeUtf16 [0xD800] = none ∧
    getGitHubStatsCall w (some [0xD800]) = (Settled.rejected "URI malformed", []) ∧
    (∀ units text, decodeUtf16 units = some text →
      ∃ r, (getGitHubStatsCall w (some units)).1 = Settled.resolved r) ∧
    (∀ username : String,
      (∃ st, (getGitHubStats w username).1 = .stats st) ∨
      (username = "" ∧ getGitHubStats w username = (.error "Username required", [])) ∨
      (∃ e, (userPromise w = .error e ∨ reposPromise w = .error e ∨
          (∃ k, 2 ≤ k ∧ w.fetch (.repos k) = .error e) ∨
          (userPromise w = .ok .null ∧ e = nullUserMessage)) ∧
        (getGitHubStats w username).1 = .error (if e = "" then "Unknown error" else e)) ∨
      (∃ j, reposPromise w = .ok j ∧ (∀ l, j ≠ .list l) ∧
        (getGitHubStats w username).1 =
          .error (strOr j.message "Unexpected repos response"))) := by
  refine ⟨by decide, rfl, ?_, getGitHubStats_outcomes w⟩
  intro units text h
  unfold getGitHubStatsCall
  by_cases hu : units = []
  · simp [hu]
  · simp [hu, h]

/-- C17: the grade is non-decreasing in the score, in the order
D < C < B < A < A+, for any two scores and for the results of any two
runs. -/
theorem grade_monotone (s t : Int) (h : s ≤ t) :
    gradeRank (grade s) ≤ gradeRank (grade t) ∧
    (gradeRank "D" = 0 ∧ gradeRank "C" = 1 ∧ gradeRank "B" = 2 ∧ gradeRank "A" = 3 ∧
      gradeRank "A+" = 4) ∧
    (∀ (w₁ w₂ : World) (u₁ u₂ : String) (st₁ st₂ : Stats),
      (getGitHubStats w₁ u₁).1 = Result.stats st₁ → (getGitHubStats w₂ u₂).1 = Result.stats st₂ →
      st₁.score = s → st₂.score = t → gradeRank st₁.grade ≤ gradeRank st₂.grade) := by
  have key : gradeRank (grade s) ≤ gradeRank (grade t) := by
    unfold grade
    split_ifs <;> first | omega | decide
  refine ⟨key, by decide, ?_⟩
  intro w₁ w₂ u₁ u₂ st₁ st₂ h₁ h₂ hs ht
  obtain ⟨-, -, hg₁, -⟩ := stats_derived w₁ u₁ st₁ h₁
  obtain ⟨-, -, hg₂, -⟩ := stats_derived w₂ u₂ st₂ h₂
  rw [hg₁, hg₂, hs, ht]
  exact key

theorem grade_monotone_witness :
    (99 : Int) ≤ 100 ∧ gradeRank (grade 99) ≤ gradeRank (grade 100) ∧
      gradeRank (grade 99) = 1 ∧ gradeRank (grade 100) = 2 :=
  ⟨by decide, (grade_monotone 99 100 (by decide)).1, by decide, by decide⟩

theorem getThemeColors_dark : getThemeColors "dark_high_contrast" = darkHighContrast := by
  rw [getThemeColors]; simp

theorem getThemeColors_eq (theme : String) :
    getThemeColors theme = if theme = "classic_gamer" then classicGamer else darkHighContrast := by
  rw [getThemeColors]
  by_cases h1 : theme = "dark_high_contrast"
  · subst h1; simp
  · by_cases h2 : theme = "classic_gamer"
    · simp [h1, h2]
    · simp [h1, h2, getThemeColors_dark]

/-- C18: what holds and what fails. `getThemeColors` ends for every string,
with the `classic_gamer` palette for `classic_gamer` and the
`dark_high_contrast` palette for any other string. `getTierStyles` returns
the listed pair for the five tiers and the default pair for any other string
that is not the name of a property inherited from `Object.prototype`; for
such a name, as `constructor`, the lookup finds the inherited value, which is
truthy, and returns it instead of the default pair: it has no `color` and no
`edge`, and the document then carries the text `undefined`. -/
theorem theme_and_tier_lookup :
    getThemeColors "classic_gamer" = classicGamer ∧
    (∀ theme, theme ≠ "classic_gamer" → getThemeColors theme = darkHighContrast) ∧
    (getTierStyles "Mythic" = .pair "#FF6347" "#CC3311" ∧
      getTierStyles "Legendary" = .pair "#FFD700" "#C4A000" ∧
      getTierStyles "Gold" = .pair "#FFC72C" "#D4A017" ∧
      getTierStyles "Silver" = .pair "#C0C0C0" "#999999" ∧
      getTierStyles "Iron" = .pair "#95A5A6" "#6C7A89") ∧
    (∀ tier, tier ∉ ["Mythic", "Legendary", "Gold", "Silver", "Iron"] →
      tier ∉ objectPrototypeKeys → getTierStyles tier = .pair "#FFFFFF" "#CCCCCC") ∧
    (getTierStyles "constructor" = .inherited "constructor" ∧
      getTierStyles "constructor" ≠ .pair "#FFFFFF" "#CCCCCC" ∧
      (getTierStyles "constructor").color = none ∧
      interp (getTierStyles "constructor").color = "undefined") := by
  refine ⟨?_, ?_, by decide, ?_, by decide⟩
  · rw [getThemeColors_eq]; simp
  · intro theme h
    rw [getThemeColors_eq]; simp [h]
  · intro tier h₁ h₂
    simp only [List.mem_cons, List.mem_singleton, List.not_mem_nil, or_false, not_or] at h₁
    obtain ⟨a, b, c, d, e⟩ := h₁
    unfold getTierStyles
    simp only [a, b, c, d, e, h₂, if_false]
    split_ifs <;> rfl

/-! ## What the document embeds -/

theorem joinPieces_split3 (l : List String) (k : Nat) (a b c : String)
    (ha : l[k]? = some a) (hb : l[k + 1]? = some b) (hc : l[k + 2]? = some c) :
    Embeds (joinPieces l) (a ++ b ++ c) := by
  refine ⟨joinPieces (l.take k), joinPieces (l.drop (k + 3)), ?_⟩
  rw [joinPieces_split l k a ha]
  have hb' : (l.drop (k + 1))[0]? = some b := by simpa using hb
  have hc' : ((l.drop (k + 1)).drop 1)[0]? = some c := by
    simpa [Nat.add_assoc] using hc
  rw [joinPieces_split (l.drop (k + 1)) 0 b hb', joinPieces_split ((l.drop (k + 1)).drop 1) 0 c hc']
  simp [joinPieces_nil, String.append_assoc, Nat.add_assoc]

theorem Embeds.trans {doc mid part : String} (h₁ : Embeds doc mid) (h₂ : Embeds mid part) :
    Embeds doc part := by
  obtain ⟨b₁, a₁, rfl⟩ := h₁
  obtain ⟨b₂, a₂, rfl⟩ := h₂
  exact ⟨b₁ ++ b₂, a₂ ++ a₁, by simp [String.append_assoc]⟩

theorem Embeds.left (x y part : String) (h : Embeds x part) : Embeds (x ++ y) part := by
  obtain ⟨b, a, rfl⟩ := h
  exact ⟨b, a ++ y, by simp [String.append_assoc]⟩

theorem Embeds.right (x y part : String) (h : Embeds y part) : Embeds (x ++ y) part := by
  obtain ⟨b, a, rfl⟩ := h
  exact ⟨x ++ b, a, by simp [String.append_assoc]⟩

theorem Embeds.mem_data {doc part : String} (h : Embeds doc part) (c : Char)
    (hc : c ∈ part.data) : c ∈ doc.data := by
  obtain ⟨b, a, rfl⟩ := h
  simp [String.data_append, hc]

theorem document_embeds_username (stats : Stats) (theme : String) (columns : Option Int) :
    Embeds (generateTrophySVG stats theme columns)
      ("\" xmlns=\"http://www.w3.org/2000/svg\" role=\"img\" aria-label=\"GitHub Trophy for "
        ++ escapeXml (strOr stats.username "unknown") ++ "\">\n") :=
  joinPieces_split3 (svgPieces stats theme columns) 9 _ _ _ rfl rfl rfl

theorem document_embeds_tier (stats : Stats) (theme : String) (columns : Option Int) :
    Embeds (generateTrophySVG stats theme columns)
      ("\" text-anchor=\"middle\" font-weight=\"700\">TIER: "
        ++ toUpperCase (strOr (some stats.tier) "Iron") ++ "</text>\n") :=
  joinPieces_split3 (svgPieces stats theme columns) 92 _ _ _ rfl rfl rfl

theorem document_embeds_grade (stats : Stats) (theme : String) (columns : Option Int) :
    Embeds (generateTrophySVG stats theme columns)
      ("\" font-weight=\"900\">" ++ strOr (some stats.grade) "D" ++ "</text>\n") :=
  joinPieces_split3 (svgPieces stats theme columns) 152 _ _ _ rfl rfl rfl

theorem badgeGroup_embeds_value (p : Palette) (c : Int) (i : Nat) (b : Badge) :
    Embeds (badgeGroup p c i b) ("\" font-weight=\"900\">" ++ b.value ++ "</text>\n") :=
  joinPieces_split3 (badgePieces p (badgeX c i) (badgeY c i) b.label b.value b.icon) 28 _ _ _
    rfl rfl rfl

theorem document_embeds_values (stats : Stats) (theme : String) (columns : Option Int) :
    Embeds (generateTrophySVG stats theme columns)
      ("\" font-weight=\"900\">" ++ strOr (some stats.formatted_stars) "0" ++ "</text>\n") ∧
    Embeds (generateTrophySVG stats theme columns)
      ("\" font-weight=\"900\">" ++ strOr (some stats.formatted_repos) "0" ++ "</text>\n") ∧
    Embeds (generateTrophySVG stats theme columns)
      ("\" font-weight=\"900\">" ++ strOr (some stats.formatted_followers) "0"
        ++ "</text>\n") := by
  have hdoc : Embeds (generateTrophySVG stats theme columns)
      (badgeGroupsOf (getThemeColors theme) (usedColumns columns)
        (badgesOf stats (getTierStyles (strOr (some stats.tier) "Iron")))) :=
    document_has_badgeGroups stats theme columns
  unfold badgesOf at hdoc
  rw [badgeGroupsOf_three] at hdoc
  refine ⟨hdoc.trans ?_, hdoc.trans ?_, hdoc.trans ?_⟩
  · exact Embeds.left _ _ _ (Embeds.left _ _ _ (badgeGroup_embeds_value _ _ _ _))
  · exact Embeds.left _ _ _ (Embeds.right _ _ _ (badgeGroup_embeds_value _ _ _ _))
  · exact Embeds.right _ _ _ (badgeGroup_embeds_value _ _ _ _)

/-- C16, as stated, fails: a grade `<b>`, a tier `<s>` and a formatted value
`&` are embedded as they are (the tier upper-cased), not as `escapeXml` would
write them, so the document carries the raw characters of these fields. -/
theorem unescaped_fields_are_raw :
    markupStats.grade = "<b>" ∧ escapeXml "<b>" = "&lt;b&gt;" ∧
    Embeds (generateTrophySVG markupStats "dark_high_contrast" (some 3))
      "\" font-weight=\"900\"><b></text>\n" ∧
    Embeds (generateTrophySVG markupStats "dark_high_contrast" (some 3))
      "\" text-anchor=\"middle\" font-weight=\"700\">TIER: <S></text>\n" ∧
    Embeds (generateTrophySVG markupStats "dark_high_contrast" (some 3))
      "\" font-weight=\"900\">&</text>\n" := by
  have e₁ : "\" font-weight=\"900\">" ++ strOr (some markupStats.grade) "D" ++ "</text>\n"
      = "\" font-weight=\"900\"><b></text>\n" := by decide
  have e₂ : "\" text-anchor=\"middle\" font-weight=\"700\">TIER: "
      ++ toUpperCase (strOr (some markupStats.tier) "Iron") ++ "</text>\n"
      = "\" text-anchor=\"middle\" font-weight=\"700\">TIER: <S></text>\n" := by decide
  have e₃ : "\" font-weight=\"900\">" ++ strOr (some markupStats.formatted_stars) "0"
      ++ "</text>\n" = "\" font-weight=\"900\">&</text>\n" := by decide
  refine ⟨rfl, by decide, ?_, ?_, ?_⟩
  · rw [← e₁]; exact document_embeds_grade _ _ _
  · rw [← e₂]; exact document_embeds_tier _ _ _
  · rw [← e₃]; exact (document_embeds_values _ _ _).1

theorem upperOf_ascii (c : Char) (h : c.toNat < 128) : upperOf c = [c.toUpper] := by
  simp [upperOf, h]

theorem flatMap_upperOf_ascii (l : List Char) (h : ∀ c ∈ l, c.toNat < 128) :
    l.flatMap upperOf = l.map Char.toUpper := by
  induction l with
  | nil => rfl
  | cons c l ih =>
    rw [List.flatMap_cons, List.map_cons, upperOf_ascii c (h c (List.mem_cons_self _ _)),
      ih (fun d hd => h d (List.mem_cons_of_mem _ hd))]
    rfl

theorem toUpperCase_ascii (t : String) (h : isAsciiText t = true) :
    toUpperCase t = String.mk (t.data.map Char.toUpper) := by
  unfold toUpperCase
  rw [flatMap_upperOf_ascii]
  intro c hc
  simpa using (List.all_eq_true.mp h) c hc

theorem strOr_ascii (t : String) (h : isAsciiText t = true) :
    isAsciiText (strOr (some t) "Iron") = true := by
  simp only [strOr]
  split_ifs
  · decide
  · exact h

theorem toUpper_of_special (c : Char) (h : isXmlSpecial c = true) : c.toUpper = c := by
  simp only [isXmlSpecial, Bool.or_eq_true, beq_iff_eq] at h
  rcases h with (((rfl | rfl) | rfl) | rfl) | rfl <;> decide

/-- The upper-case mapping outside ASCII: a character may become several. -/
theorem toUpperCase_examples :
    toUpperCase "straße" = "STRASSE" ∧ toUpperCase "élite" = "ÉLITE" ∧
    toUpperCase "Gold" = "GOLD" ∧ toUpperCase "<s>" = "<S>" := by
  decide

/-- C16, amended: the username is embedded, in the `aria-label`, with the
five characters escaped: the embedded text holds no less-than, greater-than,
double quote or apostrophe and every ampersand in it begins an entity; the
grade and the three formatted values are embedded as they are; a tier of
ASCII characters is embedded with its letters `a` to `z` upper-cased and
every other character as it is, so each of the five characters the tier
holds stands in the embedded text. -/
theorem username_escaped_other_fields_verbatim (stats : Stats) (theme : String)
    (columns : Option Int) :
    Embeds (generateTrophySVG stats theme columns)
      ("\" xmlns=\"http://www.w3.org/2000/svg\" role=\"img\" aria-label=\"GitHub Trophy for "
        ++ escapeXml (strOr stats.username "unknown") ++ "\">\n") ∧
    (∀ c ∈ (escapeXml (strOr stats.username "unknown")).data,
      c ≠ '<' ∧ c ≠ '>' ∧ c ≠ Char.ofNat 34 ∧ c ≠ Char.ofNat 39) ∧
    (∀ i, (escapeXml (strOr stats.username "unknown")).data[i]? = some '&' →
      ∃ e ∈ xmlEntities, e.data <+: (escapeXml (strOr stats.username "unknown")).data.drop i) ∧
    (isAsciiText stats.tier = true →
      toUpperCase (strOr (some stats.tier) "Iron") =
        String.mk ((strOr (some stats.tier) "Iron").data.map Char.toUpper) ∧
      Embeds (generateTrophySVG stats theme columns)
        ("\" text-anchor=\"middle\" font-weight=\"700\">TIER: "
          ++ String.mk ((strOr (some stats.tier) "Iron").data.map Char.toUpper)
          ++ "</text>\n") ∧
      ∀ c ∈ (strOr (some stats.tier) "Iron").data, isXmlSpecial c = true →
        c ∈ (strOr (some stats.tier) "Iron").data.map Char.toUpper) ∧
    Embeds (generateTrophySVG stats theme columns)
      ("\" font-weight=\"900\">" ++ strOr (some stats.grade) "D" ++ "</text>\n") ∧
    Embeds (generateTrophySVG stats theme columns)
      ("\" font-weight=\"900\">" ++ strOr (some stats.formatted_stars) "0" ++ "</text>\n") ∧
    Embeds (generateTrophySVG stats theme columns)
      ("\" font-weight=\"900\">" ++ strOr (some stats.formatted_repos) "0" ++ "</text>\n") ∧
    Embeds (generateTrophySVG stats theme columns)
      ("\" font-weight=\"900\">" ++ strOr (some stats.formatted_followers) "0"
        ++ "</text>\n") := by
  refine ⟨document_embeds_username stats theme columns,
    flatMap_escapeChar_clean (strOr stats.username "unknown").data,
    flatMap_escapeChar_ampersands (strOr stats.username "unknown").data,
    ?_, document_embeds_grade stats theme columns, document_embeds_values stats theme columns⟩
  intro hascii
  have hup := toUpperCase_ascii _ (strOr_ascii stats.tier hascii)
  refine ⟨hup, ?_, ?_⟩
  · rw [← hup]
    exact document_embeds_tier stats theme columns
  · intro c hc hs
    exact List.mem_map.mpr ⟨c, hc, toUpper_of_special c hs⟩

theorem username_escaped_other_fields_verbatim_witness :
    isAsciiText goldStats.tier = true ∧
    Embeds (generateTrophySVG goldStats "classic_gamer" (some 2))
      "\" text-anchor=\"middle\" font-weight=\"700\">TIER: GOLD</text>\n" ∧
    isAsciiText markupStats.tier = true ∧
    Embeds (generateTrophySVG markupStats "dark_high_contrast" (some 3))
      "\" text-anchor=\"middle\" font-weight=\"700\">TIER: <S></text>\n" :=
  ⟨by decide,
    ((username_escaped_other_fields_verbatim goldStats "classic_gamer" (some 2)).2.2.2.1
      (by decide)).2.1,
    by decide,
    ((username_escaped_other_fields_verbatim markupStats "dark_high_contrast" (some 3)).2.2.2.1
      (by decide)).2.1⟩

/-! ## Repository count and initial failures -/

theorem aggregate_formatted_repos (user : JObject) (repos : List Repo) :
    (aggregate user repos).formatted_repos = formatNumber (numOr user.public_repos repos.length) :=
  rfl

/-- C19, as stated, fails: the profile has `public_repos`, with the value 0,
yet the count that is formatted is the number of collected repositories, 2. -/
theorem public_repos_zero_is_ignored :
    profileOf (listWorld zeroReposUser sampleRepos) = some zeroReposUser ∧
    zeroReposUser.public_repos = some 0 ∧
    ∃ st, (getGitHubStats (listWorld zeroReposUser sampleRepos) "octocat").1 = Result.stats st ∧
      st.formatted_repos = "2" ∧ formatNumber 0 = "0" ∧ st.formatted_repos ≠ formatNumber 0 :=
  ⟨rfl, rfl, aggregate zeroReposUser (sampleRepos.filter isOwned), rfl, by decide, by decide,
    by decide⟩

/-- C19, amended: the count formatted into `formatted_repos` is the
profile's `public_repos` when the profile has that field with a value other
than 0, and the number of collected non-fork repositories when the field is
absent or 0. -/
theorem repo_count_source (w : World) (username : String) (st : Stats)
    (h : (getGitHubStats w username).1 = Result.stats st) :
    ∃ (user : JObject) (n : Nat), profileOf w = some user ∧ 1 ≤ n ∧ n ≤ 50 ∧
      (∀ p, 1 ≤ p → p ≤ n → (pageItems w p).isSome) ∧
      (∀ v, user.public_repos = some v → v ≠ 0 → st.formatted_repos = formatNumber v) ∧
      (user.public_repos = none ∨ user.public_repos = some 0 →
        st.formatted_repos = formatNumber (((itemsFrom w 1 n).filter notFork).length : Nat)) := by
  obtain ⟨user, n, hprof, hn1, hn2, hpages, hst, -⟩ := success_decomp w username st h
  refine ⟨user, n, hprof, hn1, hn2, hpages, ?_, ?_⟩
  · intro v hv hne
    rw [hst, aggregate_formatted_repos, hv]
    simp [numOr, hne]
  · intro hz
    rw [hst, aggregate_formatted_repos, isOwned_eq_notFork]
    rcases hz with hz | hz <;> simp [numOr, hz]

theorem repo_count_source_witness :
    (getGitHubStats (listWorld zeroReposUser sampleRepos) "octocat").1
      = Result.stats (aggregate zeroReposUser (sampleRepos.filter isOwned)) ∧
    ∃ (user : JObject) (n : Nat),
      profileOf (listWorld zeroReposUser sampleRepos) = some user ∧ 1 ≤ n ∧ n ≤ 50 ∧
      (∀ p, 1 ≤ p → p ≤ n → (pageItems (listWorld zeroReposUser sampleRepos) p).isSome) ∧
      (∀ v, user.public_repos = some v → v ≠ 0 →
        (aggregate zeroReposUser (sampleRepos.filter isOwned)).formatted_repos
          = formatNumber v) ∧
      (user.public_repos = none ∨ user.public_repos = some 0 →
        (aggregate zeroReposUser (sampleRepos.filter isOwned)).formatted_repos
          = formatNumber (((itemsFrom (listWorld zeroReposUser sampleRepos) 1 n).filter
              notFork).length : Nat)) :=
  ⟨rfl, repo_count_source (listWorld zeroReposUser sampleRepos) "octocat" _ rfl⟩

theorem checkResponse_not_ok (res : Response) (fallback : String) (h : res.ok = false) :
    checkResponse res fallback = .error (failureMessage res fallback) := by
  unfold checkResponse failureMessage
  simp only [h, Bool.not_false, if_true]
  have e : strOr (safeJson res).message fallback =
      (match (safeJson res).message with
        | some m => if m = "" then fallback else m
        | none => fallback) := by
    unfold strOr
    cases (safeJson res).message <;> rfl
  rw [e]
  split_ifs <;> rfl

theorem failureMessage_ne_empty (res : Response) (fallback : String) (h : fallback ≠ "") :
    failureMessage res fallback ≠ "" := by
  unfold failureMessage
  simp only
  split_ifs with h1
  · decide
  · cases hm : (safeJson res).message with
    | none => simpa using h
    | some m =>
      by_cases hm' : m = ""
      · simpa [hm'] using h
      · simp [hm']

theorem userPromise_of_failure (w : World) (res : Response) (h : w.fetch .user = .ok res)
    (hok : res.ok = false) :
    userPromise w = .error (failureMessage res "GitHub user fetch failed.") := by
  unfold userPromise
  rw [h]
  exact checkResponse_not_ok res _ hok

theorem reposPromise_of_failure (w : World) (res : Response) (h : w.fetch (.repos 1) = .ok res)
    (hok : res.ok = false) :
    reposPromise w = .error (failureMessage res "Initial repos fetch failed.") := by
  unfold reposPromise
  rw [h]
  exact checkResponse_not_ok res _ hok

theorem getGitHubStats_initial_error (w : World) (username : String) (hu : username ≠ "")
    (h : (∃ e, userPromise w = .error e) ∨ (∃ e, reposPromise w = .error e)) :
    ∃ e, (userPromise w = .error e ∨ reposPromise w = .error e) ∧
      (reposPromise w = .error e → (∃ e', userPromise w = .error e') →
        w.reposSettlesFirst = true ∨ userPromise w = .error e) ∧
      (userPromise w = .error e → (∃ e', reposPromise w = .error e') →
        w.reposSettlesFirst = false ∨ reposPromise w = .error e) ∧
      getGitHubStats w username = (caught e, [.user, .repos 1]) := by
  rw [getGitHubStats_unfold w username hu]
  cases hU : userPromise w with
  | error e₁ =>
    cases hR : reposPromise w with
    | error e₂ =>
      by_cases hf : w.reposSettlesFirst = true
      · exact ⟨e₂, Or.inr rfl, fun _ _ => Or.inl hf,
          fun _ _ => Or.inr rfl,
          by simp [promiseAll, hf]⟩
      · exact ⟨e₁, Or.inl rfl,
          fun _ _ => Or.inr rfl,
          fun _ _ => Or.inl (by simpa using hf), by simp [promiseAll, hf]⟩
    | ok rj =>
      exact ⟨e₁, Or.inl rfl, fun he _ => absurd he (by simp),
        fun _ he => he.elim (fun _ h' => absurd h' (by simp)), by simp [promiseAll]⟩
  | ok uj =>
    cases hR : reposPromise w with
    | error e₂ =>
      exact ⟨e₂, Or.inr rfl, fun _ he => he.elim (fun _ h' => absurd h' (by simp)),
        fun he _ => absurd he (by simp), by simp [promiseAll]⟩
    | ok rj =>
      rw [hU, hR] at h
      simp at h

/-- C20, as stated, fails: the profile request of `flakyWorld` returns the
non-success status 404 with the message `Not Found`, yet the message of the
ErrorResult is that of the network error of the first repository page, which
made `Promise.all` reject first. -/
theorem other_request_fails_first :
    (∃ res, flakyWorld.fetch .user = .ok res ∧ res.ok = false ∧ res.status = 404 ∧
      (safeJson res).message = some "Not Found") ∧
    getGitHubStats flakyWorld "octocat" = (Result.error "socket hang up", [.user, .repos 1]) ∧
    "socket hang up" ≠ "Not Found" :=
  ⟨⟨_, rfl, rfl, rfl, rfl⟩, rfl, by decide⟩

/-- C20, amended: for a non-empty username, when the profile request or the
request of the first repository page returns a non-success status,
`getGitHubStats` returns an ErrorResult, no stats, after these two requests
only; its message is the message one of the two initial promises rejected
with, the one that rejected first when both did. A promise whose request
returned a non-success status rejects with the rate-limit text when the
status is 403 and the message (of the body, else the fallback text) contains
`rate limit exceeded`, and otherwise with the message of the body when there
is one that is not empty and with the fallback text of the call when there
is not; this is the message of the result when the other initial request
succeeds or fails later. -/
theorem initial_failure_message (w : World) (username : String) (hu : username ≠ "")
    (hfail : (∃ res, w.fetch .user = .ok res ∧ res.ok = false) ∨
      (∃ res, w.fetch (.repos 1) = .ok res ∧ res.ok = false)) :
    (∃ e, (userPromise w = .error e ∨ reposPromise w = .error e) ∧
      getGitHubStats w username =
        (Result.error (if e = "" then "Unknown error" else e), [.user, .repos 1])) ∧
    (¬ ∃ st, (getGitHubStats w username).1 = Result.stats st) ∧
    (∀ res, w.fetch .user = .ok res → res.ok = false →
      userPromise w = .error (failureMessage res "GitHub user fetch failed.") ∧
      ((∃ j, reposPromise w = .ok j) ∨ w.reposSettlesFirst = false →
        (getGitHubStats w username).1 =
          Result.error (failureMessage res "GitHub user fetch failed."))) ∧
    (∀ res, w.fetch (.repos 1) = .ok res → res.ok = false →
      reposPromise w = .error (failureMessage res "Initial repos fetch failed.") ∧
      ((∃ j, userPromise w = .ok j) ∨ w.reposSettlesFirst = true →
        (getGitHubStats w username).1 =
          Result.error (failureMessage res "Initial repos fetch failed."))) ∧
    (∀ (res : Response) (fallback m : String), (safeJson res).message = some m → m ≠ "" →
      (res.status = 403 → includes m "rate limit exceeded" = true →
        failureMessage res fallback = rateLimitMessage) ∧
      (¬ (res.status = 403 ∧ includes m "rate limit exceeded" = true) →
        failureMessage res fallback = m)) ∧
    (∀ (res : Response) (fallback : String),
      (safeJson res).message = none ∨ (safeJson res).message = some "" →
      (res.status = 403 → includes fallback "rate limit exceeded" = true →
        failureMessage res fallback = rateLimitMessage) ∧
      (¬ (res.status = 403 ∧ includes fallback "rate limit exceeded" = true) →
        failureMessage res fallback = fallback)) := by
  have hfail' : (∃ e, userPromise w = .error e) ∨ (∃ e, reposPromise w = .error e) := by
    rcases hfail with ⟨res, h, hok⟩ | ⟨res, h, hok⟩
    · exact Or.inl ⟨_, userPromise_of_failure w res h hok⟩
    · exact Or.inr ⟨_, reposPromise_of_failure w res h hok⟩
  obtain ⟨e, hsrc, hfirstR, hfirstU, hres⟩ := getGitHubStats_initial_error w username hu hfail'
  have hne : ∀ res fb, fb ≠ "" → caught (failureMessage res fb) = .error (failureMessage res fb) := by
    intro res fb hfb
    rw [caught_eq]
    simp [failureMessage_ne_empty res fb hfb]
  have hrule : ∀ (res : Response) (fallback m : String),
      (match (safeJson res).message with
        | some m => if m = "" then fallback else m
        | none => fallback) = m →
      (res.status = 403 → includes m "rate limit exceeded" = true →
        failureMessage res fallback = rateLimitMessage) ∧
      (¬ (res.status = 403 ∧ includes m "rate limit exceeded" = true) →
        failureMessage res fallback = m) := by
    intro res fallback m hm
    unfold failureMessage
    simp only [hm]
    exact ⟨fun h1 h2 => by simp [h1, h2], fun h => by simp [h]⟩
  refine ⟨⟨e, hsrc, by rw [hres, caught_eq]⟩, ?_, ?_, ?_, ?_, ?_⟩
  · rintro ⟨st, hst⟩
    rw [hres, caught_eq] at hst
    simp at hst
  · intro res h hok
    have hU := userPromise_of_failure w res h hok
    refine ⟨hU, fun hother => ?_⟩
    have he : userPromise w = .error e := by
      rcases hsrc with hsrc | hsrc
      · exact hsrc
      · rcases hfirstR hsrc ⟨_, hU⟩ with hflag | hue
        · rcases hother with ⟨j, hj⟩ | hflag'
          · rw [hj] at hsrc; simp at hsrc
          · rw [hflag'] at hflag; simp at hflag
        · exact hue
    rw [hU, Except.error.injEq] at he
    rw [hres, ← he, hne res _ (by decide)]
  · intro res h hok
    have hR := reposPromise_of_failure w res h hok
    refine ⟨hR, fun hother => ?_⟩
    have he : reposPromise w = .error e := by
      rcases hsrc with hsrc | hsrc
      · rcases hfirstU hsrc ⟨_, hR⟩ with hflag | hre
        · rcases hother with ⟨j, hj⟩ | hflag'
          · rw [hj] at hsrc; simp at hsrc
          · rw [hflag'] at hflag; simp at hflag
        · exact hre
      · exact hsrc
    rw [hR, Except.error.injEq] at he
    rw [hres, ← he, hne res _ (by decide)]
  · intro res fallback m hm hne'
    exact hrule res fallback m (by rw [hm]; simp [hne'])
  · intro res fallback hm
    refine hrule res fallback fallback ?_
    rcases hm with hm | hm
    · rw [hm]
    · rw [hm]; simp

theorem initial_failure_message_witness :
    (∃ res, missingProfileWorld.fetch .user = .ok res ∧ res.ok = false) ∧
    (getGitHubStats missingProfileWorld "octocat").1 = Result.error "Not Found" ∧
    ¬ ∃ st, (getGitHubStats missingProfileWorld "octocat").1 = Result.stats st :=
  ⟨⟨_, rfl, rfl⟩, rfl,
    (initial_failure_message missingProfileWorld "octocat" (by decide)
      (Or.inl ⟨_, rfl, rfl⟩)).2.1⟩

/-! ## Exact halves -/

/-- The divisions by 2 of the layout are exact: every dividend is even. -/
theorem layout_halves_exact (c r : Int) (hc1 : 1 ≤ c) (hc4 : c ≤ 4) (hr0 : 0 ≤ r) (hr2 : r ≤ 2) :
    2 * centerX c = svgWidth c ∧ 2 * (totalRowWidth c r / 2) = totalRowWidth c r ∧
      2 * (mainCardW / 2) = mainCardW ∧ 2 * (trophySize / 2) = trophySize := by
  rcases columns_cases c hc1 hc4 with rfl | rfl | rfl | rfl <;>
    rcases badge_cases r hr0 hr2 with rfl | rfl | rfl <;> decide

/-! ## XP percentage -/

/-- C21: for a score `s ≥ 0` the XP percentage is `(s mod 50) * 2`, the cap
of 100 never being the smaller term: it is even, lies in `[0, 98]`, is never
100, and the score is `50 * level + xpPercent / 2`, the division being
exact; a result of `getGitHubStats` with that score reports these values. -/
theorem xpPercent_even_below_cap (s : Int) (hs : 0 ≤ s) :
    xpPercent s = s % 50 * 2 ∧ s % 50 * 2 < 100 ∧ xpPercent s % 2 = 0 ∧
    0 ≤ xpPercent s ∧ xpPercent s ≤ 98 ∧ xpPercent s ≠ 100 ∧
    s = 50 * level s + xpPercent s / 2 ∧ 2 * s = 100 * level s + xpPercent s ∧
    (∀ (w : World) (username : String) (st : Stats),
      (getGitHubStats w username).1 = Result.stats st → st.score = s →
      st.xpPercent % 2 = 0 ∧ 0 ≤ st.xpPercent ∧ st.xpPercent ≤ 98 ∧
        st.score = 50 * st.level + st.xpPercent / 2) := by
  have h1 : level s = s / 50 := by
    unfold level
    exact Int.fdiv_eq_ediv s (by decide)
  have h2 : Int.tmod s 50 = s % 50 := Int.tmod_eq_emod hs (by decide)
  have h3 : xpPercent s = s % 50 * 2 := by
    unfold xpPercent
    rw [h2]
    omega
  refine ⟨h3, by omega, by omega, by omega, by omega, by omega, by omega, by omega, ?_⟩
  intro w username st h hsc
  obtain ⟨hl, hx, -, -⟩ := stats_derived w username st h
  rw [hl, hx, hsc]
  omega

theorem xpPercent_even_below_cap_witness :
    (0 : Int) ≤ 349 ∧ xpPercent 349 = 98 ∧ xpPercent 349 ≤ 98 ∧
      (349 : Int) = 50 * level 349 + xpPercent 349 / 2 :=
  ⟨by decide, by decide, (xpPercent_even_below_cap 349 (by decide)).2.2.2.2.1,
    (xpPercent_even_below_cap 349 (by decide)).2.2.2.2.2.2.1⟩

/-! ## Digits, commas and markup characters -/

theorem digitChar_isDigit (n : Nat) (h : n < 10) : (Nat.digitChar n).isDigit = true := by
  interval_cases n <;> rfl

theorem toDigitsCore_isDigit (fuel : Nat) :
    ∀ (n : Nat) (ds : List Char), (∀ c ∈ ds, c.isDigit = true) →
      ∀ c ∈ Nat.toDigitsCore 10 fuel n ds, c.isDigit = true := by
  induction fuel with
  | zero => intro n ds hds c hc; exact hds c (by simpa [Nat.toDigitsCore] using hc)
  | succ fuel ih =>
    intro n ds hds c hc
    have hd : (Nat.digitChar (n % 10)).isDigit = true :=
      digitChar_isDigit _ (Nat.mod_lt _ (by decide))
    have hds' : ∀ c ∈ Nat.digitChar (n % 10) :: ds, c.isDigit = true := by
      intro c hc
      rcases List.mem_cons.1 hc with rfl | hc
      · exact hd
      · exact hds c hc
    simp only [Nat.toDigitsCore] at hc
    split_ifs at hc
    · exact hds' c hc
    · exact ih _ _ hds' c hc

theorem toDigits_isDigit (n : Nat) : ∀ c ∈ Nat.toDigits 10 n, c.isDigit = true :=
  toDigitsCore_isDigit _ _ _ (by simp)

theorem groupRev_chars (P : Char → Prop) :
    ∀ (k : Nat) (l : List Char), l.length ≤ k → (∀ c ∈ l, P c) →
      ∀ c ∈ groupRev l, P c ∨ c = ',' := by
  intro k
  induction k with
  | zero =>
    intro l hl hP c hc
    have : l = [] := by simpa using hl
    subst this
    simp [groupRev] at hc
  | succ k ih =>
    intro l hl hP c hc
    match l, hl, hP, hc with
    | [], _, _, hc => simp [groupRev] at hc
    | [a], _, hP, hc => exact Or.inl (hP c (by simpa [groupRev] using hc))
    | [a, b], _, hP, hc => exact Or.inl (hP c (by simpa [groupRev] using hc))
    | [a, b, d], _, hP, hc => exact Or.inl (hP c (by simpa [groupRev] using hc))
    | a :: b :: d :: e :: rest, hl, hP, hc =>
      simp only [groupRev, List.mem_cons] at hc
      rcases hc with rfl | rfl | rfl | rfl | hc
      · exact Or.inl (hP _ (by simp))
      · exact Or.inl (hP _ (by simp))
      · exact Or.inl (hP _ (by simp))
      · exact Or.inr rfl
      · refine ih (e :: rest) (by simp at hl ⊢; omega) (fun c hc => hP c (by simp [hc])) c ?_
        exact hc

theorem formatNumber_chars (n : Int) : ∀ c ∈ (formatNumber n).data, c.isDigit = true ∨ c = ',' := by
  intro c hc
  simp only [formatNumber, List.mem_reverse] at hc
  refine groupRev_chars (fun c => c.isDigit = true) _ _ (le_refl _) ?_ c hc
  intro c hc
  exact toDigits_isDigit _ c (List.mem_reverse.1 hc)

theorem num_chars (n : Int) : ∀ c ∈ (num n).data, c.isDigit = true ∨ c = '-' := by
  intro c hc
  cases n with
  | ofNat m => exact Or.inl (toDigits_isDigit m c hc)
  | negSucc m =>
    have hc' : c ∈ '-' :: Nat.toDigits 10 (m + 1) := hc
    rcases List.mem_cons.1 hc' with rfl | h
    · exact Or.inr rfl
    · exact Or.inl (toDigits_isDigit _ c h)

theorem isDigit_not_special (c : Char) (h : c.isDigit = true) : isXmlSpecial c = false := by
  by_contra hs
  simp only [Bool.not_eq_false, isXmlSpecial, Bool.or_eq_true, beq_iff_eq] at hs
  rcases hs with (((rfl | rfl) | rfl) | rfl) | rfl <;> exact absurd h (by decide)

theorem markupFree_of_chars (s : String)
    (h : ∀ c ∈ s.data, c.isDigit = true ∨ c = ',' ∨ c = '-') : markupFree s = true := by
  simp only [markupFree, List.all_eq_true, Bool.not_eq_true']
  intro c hc
  rcases h c hc with h | rfl | rfl
  · exact isDigit_not_special c h
  · decide
  · decide

theorem formatNumber_markupFree (n : Int) : markupFree (formatNumber n) = true :=
  markupFree_of_chars _ fun c hc => (formatNumber_chars n c hc).elim Or.inl (fun h => Or.inr (Or.inl h))

theorem num_markupFree (n : Int) : markupFree (num n) = true :=
  markupFree_of_chars _ fun c hc => (num_chars n c hc).elim Or.inl (fun h => Or.inr (Or.inr h))

theorem charCount_of_markupFree (s : String) (c : Char) (h : markupFree s = true)
    (hc : isXmlSpecial c = true) : charCount c s = 0 := by
  simp only [markupFree, List.all_eq_true, Bool.not_eq_true'] at h
  simp only [charCount, List.count_eq_zero]
  intro hmem
  rw [h c hmem] at hc
  exact Bool.noConfusion hc

/-! ## Counting characters in the document -/

theorem charCount_append (c : Char) (a b : String) :
    charCount c (a ++ b) = charCount c a + charCount c b := by
  simp [charCount, String.data_append]

theorem charCount_empty (c : Char) : charCount c "" = 0 := rfl

theorem charCount_joinPieces_congr (c : Char) {l₁ l₂ : List String}
    (h : List.Forall₂ (fun a b => charCount c a = charCount c b) l₁ l₂) :
    charCount c (joinPieces l₁) = charCount c (joinPieces l₂) := by
  induction h with
  | nil => rfl
  | cons hab _ ih => rw [joinPieces_cons, joinPieces_cons, charCount_append, charCount_append, hab, ih]

theorem iconStar_count_congr (c : Char) (f₁ f₂ : String)
    (h : charCount c f₁ = charCount c f₂) : charCount c (iconStar f₁) = charCount c (iconStar f₂) := by
  unfold iconStar
  apply charCount_joinPieces_congr
  repeat' (first | exact List.Forall₂.nil | apply List.Forall₂.cons)
  all_goals first | rfl | exact h

theorem iconRepo_count_congr (c : Char) (f₁ f₂ : String)
    (h : charCount c f₁ = charCount c f₂) : charCount c (iconRepo f₁) = charCount c (iconRepo f₂) := by
  unfold iconRepo
  apply charCount_joinPieces_congr
  repeat' (first | exact List.Forall₂.nil | apply List.Forall₂.cons)
  all_goals first | rfl | exact h

theorem iconUsers_count_congr (c : Char) (f₁ f₂ : String)
    (h : charCount c f₁ = charCount c f₂) :
    charCount c (iconUsers f₁) = charCount c (iconUsers f₂) := by
  unfold iconUsers
  apply charCount_joinPieces_congr
  repeat' (first | exact List.Forall₂.nil | apply List.Forall₂.cons)
  all_goals first | rfl | exact h

theorem badgeGroup_count_congr (c : Char) (p : Palette) (cols : Int) (i : Nat) (b₁ b₂ : Badge)
    (hl : b₁.label = b₂.label) (hv : charCount c b₁.value = charCount c b₂.value)
    (hi : charCount c b₁.icon = charCount c b₂.icon) :
    charCount c (badgeGroup p cols i b₁) = charCount c (badgeGroup p cols i b₂) := by
  unfold badgeGroup badgePieces
  rw [hl]
  apply charCount_joinPieces_congr
  repeat' (first | exact List.Forall₂.nil | apply List.Forall₂.cons)
  all_goals first | rfl | exact hv | exact hi

theorem documentPieces_count_congr (c : Char) (p : Palette) (ts₁ ts₂ : TierStyle)
    (u₁ u₂ t₁ t₂ g₁ g₂ : String) (l₁ l₂ s₁ s₂ x₁ x₂ : Int) (W H cx mx xf₁ xf₂ : Int)
    (bg₁ bg₂ : String)
    (hcolor : charCount c (interp ts₁.color) = charCount c (interp ts₂.color))
    (hedge : charCount c (interp ts₁.edge) = charCount c (interp ts₂.edge))
    (hu : charCount c u₁ = charCount c u₂)
    (ht : charCount c (toUpperCase t₁) = charCount c (toUpperCase t₂))
    (hg : charCount c g₁ = charCount c g₂)
    (hl : charCount c (num l₁) = charCount c (num l₂))
    (hl' : charCount c (num (l₁ + 1)) = charCount c (num (l₂ + 1)))
    (hs : charCount c (num s₁) = charCount c (num s₂))
    (hx : charCount c (num x₁) = charCount c (num x₂))
    (hxf : charCount c (num xf₁) = charCount c (num xf₂))
    (hbg : charCount c bg₁ = charCount c bg₂) :
    charCount c (joinPieces (documentPieces p ts₁ u₁ t₁ g₁ l₁ s₁ x₁ W H cx mx xf₁ bg₁)) =
      charCount c (joinPieces (documentPieces p ts₂ u₂ t₂ g₂ l₂ s₂ x₂ W H cx mx xf₂ bg₂)) := by
  unfold documentPieces
  apply charCount_joinPieces_congr
  repeat' (first | exact List.Forall₂.nil | apply List.Forall₂.cons)
  all_goals first | rfl | assumption

theorem documentPieces_count_username (c : Char) (p : Palette) (ts : TierStyle)
    (u t g : String) (l s x : Int) (W H cx mx xf : Int) (bg : String) :
    charCount c (joinPieces (documentPieces p ts u t g l s x W H cx mx xf bg)) =
      charCount c u + charCount c (joinPieces (documentPieces p ts "" t g l s x W H cx mx xf bg)) := by
  rw [joinPieces_split (documentPieces p ts u t g l s x W H cx mx xf bg) 10 u rfl,
    joinPieces_split (documentPieces p ts "" t g l s x W H cx mx xf bg) 10 "" rfl]
  have e₁ : (documentPieces p ts u t g l s x W H cx mx xf bg).take 10
      = (documentPieces p ts "" t g l s x W H cx mx xf bg).take 10 := rfl
  have e₂ : (documentPieces p ts u t g l s x W H cx mx xf bg).drop (10 + 1)
      = (documentPieces p ts "" t g l s x W H cx mx xf bg).drop (10 + 1) := rfl
  rw [e₁, e₂]
  simp only [charCount_append, charCount_empty]
  omega

/-! ## Documents of aggregator results -/

theorem strOr_markupFree (x : String) (d : String) (hx : markupFree x = true)
    (hd : markupFree d = true) : markupFree (strOr (some x) d) = true := by
  unfold strOr
  simp only
  split_ifs
  · exact hd
  · exact hx

/-- What the aggregator puts in the fields of a success. -/
theorem aggregate_fields (user : JObject) (repos : List Repo) :
    ((aggregate user repos).grade = "A+" ∧ (aggregate user repos).tier = "Mythic") ∨
    ((aggregate user repos).grade = "A" ∧ (aggregate user repos).tier = "Legendary") ∨
    ((aggregate user repos).grade = "B" ∧ (aggregate user repos).tier = "Gold") ∨
    ((aggregate user repos).grade = "C" ∧ (aggregate user repos).tier = "Silver") ∨
    ((aggregate user repos).grade = "D" ∧ (aggregate user repos).tier = "Iron") := by
  simp only [aggregate]
  rcases grade_cases (rawScore user repos) with h | h | h | h | h <;> rw [h] <;> decide

theorem aggregate_texts_markupFree (user : JObject) (repos : List Repo) :
    (∀ t ∈ unescapedTexts (aggregate user repos), markupFree t = true) ∧
    markupFree (interp (getTierStyles (strOr (some (aggregate user repos).tier) "Iron")).color)
      = true ∧
    markupFree (interp (getTierStyles (strOr (some (aggregate user repos).tier) "Iron")).edge)
      = true := by
  have hf : markupFree (strOr (some (aggregate user repos).formatted_stars) "0") = true ∧
      markupFree (strOr (some (aggregate user repos).formatted_repos) "0") = true ∧
      markupFree (strOr (some (aggregate user repos).formatted_followers) "0") = true :=
    ⟨strOr_markupFree _ _ (formatNumber_markupFree _) (by decide),
      strOr_markupFree _ _ (formatNumber_markupFree _) (by decide),
      strOr_markupFree _ _ (formatNumber_markupFree _) (by decide)⟩
  have hg : markupFree (toUpperCase (strOr (some (aggregate user repos).tier) "Iron")) = true ∧
      markupFree (strOr (some (aggregate user repos).grade) "D") = true ∧
      markupFree (interp (getTierStyles (strOr (some (aggregate user repos).tier) "Iron")).color)
        = true ∧
      markupFree (interp (getTierStyles (strOr (some (aggregate user repos).tier) "Iron")).edge)
        = true := by
    rcases aggregate_fields user repos with ⟨h₁, h₂⟩ | ⟨h₁, h₂⟩ | ⟨h₁, h₂⟩ | ⟨h₁, h₂⟩ | ⟨h₁, h₂⟩ <;>
      rw [h₁, h₂] <;> decide
  refine ⟨?_, hg.2.2.1, hg.2.2.2⟩
  intro t ht
  simp only [unescapedTexts, List.mem_cons, List.mem_singleton, List.not_mem_nil, or_false] at ht
  rcases ht with rfl | rfl | rfl | rfl | rfl | rfl | rfl | rfl | rfl | rfl
  · exact hg.1
  · exact hg.2.1
  · exact num_markupFree _
  · exact num_markupFree _
  · exact num_markupFree _
  · exact num_markupFree _
  · exact num_markupFree _
  · exact hf.1
  · exact hf.2.1
  · exact hf.2.2

theorem badgeGroups_count_congr (c : Char) (p : Palette) (cols : Int) (st₁ st₂ : Stats)
    (ts₁ ts₂ : TierStyle)
    (h₁ : charCount c (strOr (some st₁.formatted_stars) "0")
      = charCount c (strOr (some st₂.formatted_stars) "0"))
    (h₂ : charCount c (strOr (some st₁.formatted_repos) "0")
      = charCount c (strOr (some st₂.formatted_repos) "0"))
    (h₃ : charCount c (strOr (some st₁.formatted_followers) "0")
      = charCount c (strOr (some st₂.formatted_followers) "0"))
    (hcol : charCount c (interp ts₁.color) = charCount c (interp ts₂.color)) :
    charCount c (badgeGroupsOf p cols (badgesOf st₁ ts₁)) =
      charCount c (badgeGroupsOf p cols (badgesOf st₂ ts₂)) := by
  unfold badgesOf
  rw [badgeGroupsOf_three, badgeGroupsOf_three]
  simp only [charCount_append]
  rw [badgeGroup_count_congr c p cols 0
      ⟨"Stars", strOr (some st₁.formatted_stars) "0", iconStar (interp ts₁.color)⟩
      ⟨"Stars", strOr (some st₂.formatted_stars) "0", iconStar (interp ts₂.color)⟩
      rfl h₁ (iconStar_count_congr c _ _ hcol),
    badgeGroup_count_congr c p cols 1
      ⟨"Repositories", strOr (some st₁.formatted_repos) "0", iconRepo (interp ts₁.color)⟩
      ⟨"Repositories", strOr (some st₂.formatted_repos) "0", iconRepo (interp ts₂.color)⟩
      rfl h₂ (iconRepo_count_congr c _ _ hcol),
    badgeGroup_count_congr c p cols 2
      ⟨"Followers", strOr (some st₁.formatted_followers) "0", iconUsers (interp ts₁.color)⟩
      ⟨"Followers", strOr (some st₂.formatted_followers) "0", iconUsers (interp ts₂.color)⟩
      rfl h₃ (iconUsers_count_congr c _ _ hcol)]

theorem mem_unescapedTexts_count (st : Stats) (c : Char) (hc : isXmlSpecial c = true)
    (h : ∀ t ∈ unescapedTexts st, markupFree t = true) (t : String)
    (ht : t ∈ unescapedTexts st) : charCount c t = 0 :=
  charCount_of_markupFree t c (h t ht) hc

/-- The markup characters of the documents of two aggregator results differ
only by those of the escaped usernames. -/
theorem aggregate_documents_count (c : Char) (hc : isXmlSpecial c = true)
    (u₁ u₂ : JObject) (r₁ r₂ : List Repo) (theme : String) (columns : Option Int) :
    charCount c (generateTrophySVG (aggregate u₁ r₁) theme columns)
        + charCount c (svgUsername (aggregate u₂ r₂)) =
      charCount c (generateTrophySVG (aggregate u₂ r₂) theme columns)
        + charCount c (svgUsername (aggregate u₁ r₁)) := by
  obtain ⟨ha₁, hc₁, he₁⟩ := aggregate_texts_markupFree u₁ r₁
  obtain ⟨ha₂, hc₂, he₂⟩ := aggregate_texts_markupFree u₂ r₂
  have z₁ := mem_unescapedTexts_count (aggregate u₁ r₁) c hc ha₁
  have z₂ := mem_unescapedTexts_count (aggregate u₂ r₂) c hc ha₂
  have hcol : charCount c (interp (getTierStyles (strOr (some (aggregate u₁ r₁).tier) "Iron")).color)
      = charCount c (interp (getTierStyles (strOr (some (aggregate u₂ r₂).tier) "Iron")).color) := by
    rw [charCount_of_markupFree _ c hc₁ hc, charCount_of_markupFree _ c hc₂ hc]
  have hedge : charCount c (interp (getTierStyles (strOr (some (aggregate u₁ r₁).tier) "Iron")).edge)
      = charCount c (interp (getTierStyles (strOr (some (aggregate u₂ r₂).tier) "Iron")).edge) := by
    rw [charCount_of_markupFree _ c he₁ hc, charCount_of_markupFree _ c he₂ hc]
  have key : ∀ (t₁ t₂ : String), t₁ ∈ unescapedTexts (aggregate u₁ r₁) →
      t₂ ∈ unescapedTexts (aggregate u₂ r₂) → charCount c t₁ = charCount c t₂ := by
    intro t₁ t₂ h₁ h₂
    rw [z₁ t₁ h₁, z₂ t₂ h₂]
  unfold generateTrophySVG svgPieces
  simp only
  rw [documentPieces_count_username c _ _ (svgUsername (aggregate u₁ r₁)),
    documentPieces_count_username c _ _ (svgUsername (aggregate u₂ r₂))]
  have hdoc := documentPieces_count_congr c (getThemeColors theme)
    (getTierStyles (strOr (some (aggregate u₁ r₁).tier) "Iron"))
    (getTierStyles (strOr (some (aggregate u₂ r₂).tier) "Iron")) "" ""
    (strOr (some (aggregate u₁ r₁).tier) "Iron") (strOr (some (aggregate u₂ r₂).tier) "Iron")
    (strOr (some (aggregate u₁ r₁).grade) "D") (strOr (some (aggregate u₂ r₂).grade) "D")
    (numOr (some (aggregate u₁ r₁).level) 0) (numOr (some (aggregate u₂ r₂).level) 0)
    (numOr (some (aggregate u₁ r₁).score) 0) (numOr (some (aggregate u₂ r₂).score) 0)
    (numOr (some (aggregate u₁ r₁).xpPercent) 0) (numOr (some (aggregate u₂ r₂).xpPercent) 0)
    (svgWidth (usedColumns columns)) (svgHeight (usedColumns columns))
    (centerX (usedColumns columns)) (mainCardX (usedColumns columns))
    (xpFilledW (numOr (some (aggregate u₁ r₁).xpPercent) 0))
    (xpFilledW (numOr (some (aggregate u₂ r₂).xpPercent) 0))
    (badgeGroupsOf (getThemeColors theme) (usedColumns columns) (badgesOf (aggregate u₁ r₁)
      (getTierStyles (strOr (some (aggregate u₁ r₁).tier) "Iron"))))
    (badgeGroupsOf (getThemeColors theme) (usedColumns columns) (badgesOf (aggregate u₂ r₂)
      (getTierStyles (strOr (some (aggregate u₂ r₂).tier) "Iron"))))
    hcol hedge rfl
    (key _ _ (by simp [unescapedTexts]) (by simp [unescapedTexts]))
    (key _ _ (by simp [unescapedTexts]) (by simp [unescapedTexts]))
    (key _ _ (by simp [unescapedTexts]) (by simp [unescapedTexts]))
    (key _ _ (by simp [unescapedTexts]) (by simp [unescapedTexts]))
    (key _ _ (by simp [unescapedTexts]) (by simp [unescapedTexts]))
    (key _ _ (by simp [unescapedTexts]) (by simp [unescapedTexts]))
    (key _ _ (by simp [unescapedTexts]) (by simp [unescapedTexts]))
    (badgeGroups_count_congr c _ _ _ _ _ _
      (key _ _ (by simp [unescapedTexts]) (by simp [unescapedTexts]))
      (key _ _ (by simp [unescapedTexts]) (by simp [unescapedTexts]))
      (key _ _ (by simp [unescapedTexts]) (by simp [unescapedTexts])) hcol)
  rw [hdoc]
  omega

/-! ## Aggregator results add no markup -/

theorem mem_itemsFrom (w : World) (p n : Nat) (r : Repo) (h : r ∈ itemsFrom w p n) :
    ∃ q items, pageItems w q = some items ∧ r ∈ items := by
  simp only [itemsFrom, List.mem_flatMap] at h
  obtain ⟨q, -, hr⟩ := h
  unfold itemsOf at hr
  cases hq : pageItems w q with
  | none => rw [hq] at hr; simp at hr
  | some items => rw [hq] at hr; exact ⟨q, items, hq, by simpa using hr⟩

theorem score_nonneg (w : World) (user : JObject) (n : Nat) (hprof : profileOf w = some user)
    (hnn : NonNegativeCounts w) :
    0 ≤ starCount (itemsFrom w 1 n) + forkCount user (itemsFrom w 1 n) + followerCount user := by
  have hitems : ∀ r ∈ itemsFrom w 1 n,
      0 ≤ r.stargazers_count.getD 0 ∧ 0 ≤ r.forks_count.getD 0 := by
    intro r hr
    obtain ⟨q, items, hq, hmem⟩ := mem_itemsFrom w 1 n r hr
    exact hnn.2 q items hq r hmem
  have h1 : 0 ≤ starCount (itemsFrom w 1 n) := by
    unfold starCount
    apply List.sum_nonneg
    intro x hx
    obtain ⟨r, hr, rfl⟩ := List.mem_map.1 hx
    exact (hitems r (List.mem_filter.1 hr).1).1
  have h2 : 0 ≤ forkCount user (itemsFrom w 1 n) := by
    unfold forkCount
    split_ifs
    · apply List.sum_nonneg
      intro x hx
      obtain ⟨r, hr, rfl⟩ := List.mem_map.1 hx
      exact (hitems r (List.mem_filter.1 hr).1).2
    · exact le_refl _
  have h3 : 0 ≤ followerCount user := (hnn.1 user hprof).1
  omega

theorem level_xp_nonneg (s : Int) (hs : 0 ≤ s) : 0 ≤ level s ∧ 0 ≤ xpPercent s := by
  have h1 : level s = s / 50 := by
    unfold level
    exact Int.fdiv_eq_ediv s (by decide)
  have h2 : Int.tmod s 50 = s % 50 := Int.tmod_eq_emod hs (by decide)
  constructor
  · rw [h1]; omega
  · unfold xpPercent; rw [h2]; omega

/-- C22: in a success of `getGitHubStats` computed from counts that are not
negative, grade and tier are among their five values, score, level and XP
percentage are not negative, the three formatted values hold only decimal
digits and commas, and none of the texts `generateTrophySVG` embeds without
escaping, nor the colours it derives from the tier, holds one of the five
characters `< > & " '`; so the documents of any two aggregator results, for
the same theme and columns, hold the same number of each of these
characters apart from those of the escaped usernames, which hold no
`<`, `>`, `"` or `'` and ampersands only at the head of an entity. -/
theorem aggregator_result_adds_no_markup (w : World) (username : String) (st : Stats)
    (h : (getGitHubStats w username).1 = Result.stats st) (hnn : NonNegativeCounts w) :
    (st.grade ∈ ["A+", "A", "B", "C", "D"] ∧
      st.tier ∈ ["Mythic", "Legendary", "Gold", "Silver", "Iron"]) ∧
    (0 ≤ st.score ∧ 0 ≤ st.level ∧ 0 ≤ st.xpPercent) ∧
    (∀ f ∈ [st.formatted_stars, st.formatted_repos, st.formatted_followers],
      ∀ c ∈ f.data, c.isDigit = true ∨ c = ',') ∧
    (∀ t ∈ unescapedTexts st, markupFree t = true) ∧
    (markupFree (interp (getTierStyles (strOr (some st.tier) "Iron")).color) = true ∧
      markupFree (interp (getTierStyles (strOr (some st.tier) "Iron")).edge) = true) ∧
    (∀ (w' : World) (username' : String) (st' : Stats) (theme : String) (columns : Option Int)
      (c : Char), (getGitHubStats w' username').1 = Result.stats st' → isXmlSpecial c = true →
      charCount c (generateTrophySVG st theme columns) + charCount c (svgUsername st') =
        charCount c (generateTrophySVG st' theme columns) + charCount c (svgUsername st)) ∧
    (∀ c ∈ (svgUsername st).data, c ≠ '<' ∧ c ≠ '>' ∧ c ≠ Char.ofNat 34 ∧ c ≠ Char.ofNat 39) ∧
    (∀ i, (svgUsername st).data[i]? = some '&' →
      ∃ e ∈ xmlEntities, e.data <+: (svgUsername st).data.drop i) := by
  obtain ⟨user, n, hprof, -, -, -, hst, -⟩ := success_decomp w username st h
  have hscore : 0 ≤ st.score := by
    rw [hst, aggregate_score]
    exact score_nonneg w user n hprof hnn
  obtain ⟨hl, hx, -, -⟩ := stats_derived w username st h
  obtain ⟨hlev, hxp⟩ := level_xp_nonneg st.score hscore
  obtain ⟨htexts, hcolor, hedge⟩ := aggregate_texts_markupFree user
    ((itemsFrom w 1 n).filter isOwned)
  rw [← hst] at htexts hcolor hedge
  refine ⟨?_, ⟨hscore, by rw [hl]; exact hlev, by rw [hx]; exact hxp⟩, ?_, htexts,
    ⟨hcolor, hedge⟩, ?_, flatMap_escapeChar_clean _, flatMap_escapeChar_ampersands _⟩
  · have := aggregate_fields user ((itemsFrom w 1 n).filter isOwned)
    rw [← hst] at this
    rcases this with ⟨h₁, h₂⟩ | ⟨h₁, h₂⟩ | ⟨h₁, h₂⟩ | ⟨h₁, h₂⟩ | ⟨h₁, h₂⟩ <;>
      rw [h₁, h₂] <;> decide
  · intro f hf
    simp only [List.mem_cons, List.mem_singleton, List.not_mem_nil, or_false] at hf
    rcases hf with rfl | rfl | rfl <;> rw [hst] <;> exact formatNumber_chars _
  · intro w' username' st' theme columns c h' hc
    obtain ⟨user', n', -, -, -, -, hst', -⟩ := success_decomp w' username' st' h'
    rw [hst, hst']
    exact aggregate_documents_count c hc _ _ _ _ theme columns

theorem aggregator_result_adds_no_markup_witness :
    NonNegativeCounts (listWorld (sampleUser (some 0)) sampleRepos) ∧
    (getGitHubStats (listWorld (sampleUser (some 0)) sampleRepos) "octocat").1
      = Result.stats (aggregate (sampleUser (some 0)) (sampleRepos.filter isOwned)) ∧
    (aggregate (sampleUser (some 0)) (sampleRepos.filter isOwned)).formatted_stars = "5" ∧
    (∀ t ∈ unescapedTexts (aggregate (sampleUser (some 0)) (sampleRepos.filter isOwned)),
      markupFree t = true) :=
  have hnn : NonNegativeCounts (listWorld (sampleUser (some 0)) sampleRepos) :=
    ⟨fun user hu => by
        have e : sampleUser (some 0) = user := Option.some.inj hu
        subst e
        decide,
      fun p items hp r hr => by
        have e : sampleRepos = items := Option.some.inj hp
        subst e
        simp only [sampleRepos, List.mem_cons, List.mem_singleton, List.not_mem_nil,
          or_false] at hr
        rcases hr with rfl | rfl | rfl <;> decide⟩
  ⟨hnn, rfl, by decide,
    (aggregator_result_adds_no_markup (listWorld (sampleUser (some 0)) sampleRepos) "octocat" _
      rfl hnn).2.2.2.1⟩

end GithubTrophy
